import Mathlib

/-!
Verification of the AV1 tile-syntax decoder kernel of this repository.

The definitions below are a shallow embedding, translated function by
function from `src/m3b-av1-decode/av1_symbol.c` and
`src/m3b-av1-decode/av1_decode_tile.c`.  C `uint32_t` arithmetic is modelled
on `Nat` with explicit reductions modulo `2^32` (`u32`, `u32sub`) wherever the
C computation can wrap, and `uint16_t` reads with `u16`.  C functions that
report success/failure through a `bool` return value while mutating state
through pointers are modelled as functions returning the success flag
together with the (possibly partially) mutated state, mirroring the exact
order of mutations in the C code.
-/

/-- Reduction modulo 2^32, the behaviour of C `uint32_t` arithmetic. -/
def u32 (x : Nat) : Nat := x % 4294967296

/-- Wrapping `uint32_t` subtraction `a - b` (for `a b < 2^32`). -/
def u32sub (a b : Nat) : Nat := (4294967296 + a - b) % 4294967296

/-- Reading a `uint16_t` value. -/
def u16 (x : Nat) : Nat := x % 65536

/-- Loop of `floor_log2_u32` (av1_symbol.c): count halvings until the value
drops below 2.  The first argument is fuel; 32 iterations suffice for any
`uint32_t` input. -/
def floor_log2_go : Nat → Nat → Nat
  | 0, _ => 0
  | fuel+1, n => if n ≥ 2 then floor_log2_go fuel (n / 2) + 1 else 0

/-- Translation of `floor_log2_u32` (av1_symbol.c): count halvings until
< 2.  The iteration count is bounded by 32 since the argument is a
`uint32_t`. -/
def floor_log2_u32 (n : Nat) : Nat := floor_log2_go 32 n

/-- Translation of `Av1BitReader` (av1_symbol.h).  `data` is the byte buffer
(each entry a byte value), `size` is `data.length`. -/
structure Av1BitReader where
  data : List Nat
  bitpos : Nat
deriving DecidableEq

/-- Translation of `br_read_bit` (av1_symbol.c).  Returns (ok, bit, reader). -/
def br_read_bit (br : Av1BitReader) : Bool × Nat × Av1BitReader :=
  if br.data.length ≤ br.bitpos / 8 then (false, 0, br)
  else
    let byte := br.data.getD (br.bitpos / 8) 0
    let shift := 7 - br.bitpos % 8
    (true, (byte >>> shift) &&& 1, { br with bitpos := br.bitpos + 1 })

/-- Loop body of `br_read_bits` (av1_symbol.c): read `k` further bits,
accumulating `v = (v << 1) | b`. -/
def br_read_bits_loop (br : Av1BitReader) (v : Nat) : Nat → Bool × Nat × Av1BitReader
  | 0 => (true, v, br)
  | k+1 =>
    match br_read_bit br with
    | (false, _, br1) => (false, 0, br1)
    | (true, b, br1) => br_read_bits_loop br1 ((v <<< 1) ||| b) k

/-- Translation of `br_read_bits` (av1_symbol.c). -/
def br_read_bits (br : Av1BitReader) (n : Nat) : Bool × Nat × Av1BitReader :=
  if n = 0 then (true, 0, br)
  else if n > 32 then (false, 0, br)
  else br_read_bits_loop br 0 n

/-- Translation of `get_bit_at` (av1_symbol.c). -/
def get_bit_at (data : List Nat) (bitpos : Nat) : Bool × Nat :=
  if data.length ≤ bitpos / 8 then (false, 0)
  else (true, (data.getD (bitpos / 8) 0 >>> (7 - bitpos % 8)) &&& 1)

/-- Translation of `Av1SymbolDecoder` (av1_symbol.h). -/
structure Av1SymbolDecoder where
  br : Av1BitReader
  symbol_value : Nat
  symbol_range : Nat
  symbol_max_bits : Int
  disable_cdf_update : Bool
deriving DecidableEq

/-- Result of `av1_symbol_init`: success flag plus decoder state. -/
structure InitResult where
  ok : Bool
  sd : Av1SymbolDecoder
deriving DecidableEq

/-- Translation of `av1_symbol_init` (av1_symbol.c).  The C null-pointer
argument checks have no counterpart for a Lean list.  `symbol_max_bits` is
`int32_t` in C; sizes in scope never approach the overflow boundary so it is
modelled as `Int`. -/
def av1_symbol_init (data : List Nat) (disable_cdf_update : Bool) : InitResult :=
  let br0 : Av1BitReader := { data := data, bitpos := 0 }
  let numBits := min (data.length * 8) 15
  match br_read_bits br0 numBits with
  | (false, _, br1) =>
    { ok := false
      sd := { br := br1, symbol_value := 0, symbol_range := 0, symbol_max_bits := 0,
              disable_cdf_update := disable_cdf_update } }
  | (true, buf, br1) =>
    let paddedBuf := buf <<< (15 - numBits)
    { ok := true
      sd := { br := br1
              symbol_value := 32767 ^^^ paddedBuf
              symbol_range := 32768
              symbol_max_bits := (data.length * 8 : Int) - 15
              disable_cdf_update := disable_cdf_update } }

/-- The candidate walk of `av1_symbol_read_symbol` (av1_symbol.c, the
`for (;;)` loop): starting at candidate `s` with previous threshold `prev`,
returns `some (symbol, prev, cur)` at the first candidate whose threshold is
`≤ value`, or `none` when the walk runs past `n` (the "cdf walk overflow"
error branch). -/
def cdf_walk_go (value range : Nat) (cdf : List Nat) (n : Nat) :
    Nat → Nat → Nat → Option (Nat × Nat × Nat)
  | 0, _, _ => none
  | fuel+1, prev, s =>
    if n ≤ s then none
    else
      let f := u32sub 32768 (u16 (cdf.getD s 0))
      let t := u32 ((u32 ((range >>> 8) * (f >>> 6)) >>> 1) + 4 * (n - s - 1))
      if t ≤ value then some (s, prev, t)
      else cdf_walk_go value range cdf n fuel t (s + 1)

/-- Entry point of the candidate walk: the fuel `n - s` is exactly the
number of remaining candidates, so running out of fuel coincides with the
walk running past `n`. -/
def cdf_walk (value range : Nat) (cdf : List Nat) (n prev s : Nat) :
    Option (Nat × Nat × Nat) :=
  cdf_walk_go value range cdf n (n - s) prev s

/-- The adaptation rate of the CDF update in `av1_symbol_read_symbol`
(av1_symbol.c): `3 + (count > 15) + (count > 31) + min(floor_log2(N), 2)`. -/
def cdf_rate (count n : Nat) : Nat :=
  3 + (if count > 15 then 1 else 0) + (if count > 31 then 1 else 0) +
    min (floor_log2_u32 n) 2

/-- One entry of the CDF update loop in `av1_symbol_read_symbol`
(av1_symbol.c): move `ci` toward `tmp` by `|ci - tmp| >> rate`, clamped to
`1 << 15`. -/
def cdf_update_entry (ci tmp rate : Nat) : Nat :=
  let ci1 := if tmp < ci then ci - ((ci - tmp) >>> rate) else ci + ((tmp - ci) >>> rate)
  if ci1 > 32768 then 32768 else ci1

/-- The CDF update of `av1_symbol_read_symbol` (av1_symbol.c): entries
`i + 1 < n` move toward `(symbol ≤ i ? 1<<15 : 0)`, entry `n` (the adaptation
count) increments while below 32, all other entries are untouched. -/
def cdf_update (cdf : List Nat) (n symbol : Nat) : List Nat :=
  let count := u16 (cdf.getD n 0)
  let rate := cdf_rate count n
  (List.range cdf.length).map (fun i =>
    if i + 1 < n then
      cdf_update_entry (u16 (cdf.getD i 0)) (if symbol ≤ i then 32768 else 0) rate
    else if i = n then
      if count < 32 then count + 1 else cdf.getD i 0
    else cdf.getD i 0)

/-- Result of `av1_symbol_read_symbol`: success flag, decoder state, CDF
array (updated on success when adaptation is enabled), decoded symbol. -/
structure SymbolReadResult where
  ok : Bool
  sd : Av1SymbolDecoder
  cdf : List Nat
  sym : Nat
deriving DecidableEq

/-- Translation of `av1_symbol_read_symbol` (av1_symbol.c).  Mutation order
follows the C code exactly: on the `symbol_range == 0` and renormalization
failure paths the already-performed writes to `symbol_range` /
`symbol_value` / the bit reader are visible in the returned state. -/
def av1_symbol_read_symbol (sd : Av1SymbolDecoder) (cdf : List Nat) (n : Nat) :
    SymbolReadResult :=
  if n ≤ 1 then ⟨false, sd, cdf, 0⟩
  else if u16 (cdf.getD (n - 1) 0) ≠ 32768 then ⟨false, sd, cdf, 0⟩
  else
    match cdf_walk sd.symbol_value sd.symbol_range cdf n sd.symbol_range 0 with
    | none => ⟨false, sd, cdf, 0⟩
    | some (symbol, prev, cur) =>
      let range1 := u32sub prev cur
      let value1 := u32sub sd.symbol_value cur
      let sd1 := { sd with symbol_range := range1, symbol_value := value1 }
      if range1 = 0 then ⟨false, sd1, cdf, 0⟩
      else
        let bits := u32sub 15 (floor_log2_u32 range1)
        if bits > 15 then ⟨false, sd1, cdf, 0⟩
        else
          let range2 := u32 (range1 <<< bits)
          let maxReadable := (max sd.symbol_max_bits 0).toNat
          let numBits := min bits maxReadable
          match br_read_bits sd.br numBits with
          | (false, _, br1) => ⟨false, { sd1 with symbol_range := range2, br := br1 }, cdf, 0⟩
          | (true, newData, br1) =>
            let paddedData := newData <<< (bits - numBits)
            let value2 := paddedData ^^^ (u32sub (u32 ((value1 + 1) <<< bits)) 1)
            let sd2 := { sd with br := br1
                                 symbol_range := range2
                                 symbol_value := value2
                                 symbol_max_bits := sd.symbol_max_bits - bits }
            let cdf2 := if sd.disable_cdf_update then cdf else cdf_update cdf n symbol
            ⟨true, sd2, cdf2, symbol⟩

/-- Translation of `av1_symbol_read_bool` (av1_symbol.c): a fresh
`{1<<14, 1<<15, 0}` CDF, adaptation suppressed and the flag restored. -/
def av1_symbol_read_bool (sd : Av1SymbolDecoder) : Bool × Av1SymbolDecoder × Nat :=
  let saved := sd.disable_cdf_update
  let r := av1_symbol_read_symbol { sd with disable_cdf_update := true } [16384, 32768, 0] 2
  (r.ok, { r.sd with disable_cdf_update := saved }, r.sym)

/-- Loop of `av1_symbol_read_literal` (av1_symbol.c), MSB first. -/
def read_literal_loop (sd : Av1SymbolDecoder) (x : Nat) : Nat → Bool × Av1SymbolDecoder × Nat
  | 0 => (true, sd, x)
  | k+1 =>
    match av1_symbol_read_bool sd with
    | (false, sd1, _) => (false, sd1, 0)
    | (true, sd1, b) => read_literal_loop sd1 ((x <<< 1) ||| (b &&& 1)) k

/-- Translation of `av1_symbol_read_literal` (av1_symbol.c). -/
def av1_symbol_read_literal (sd : Av1SymbolDecoder) (n : Nat) : Bool × Av1SymbolDecoder × Nat :=
  if n > 32 then (false, sd, 0) else read_literal_loop sd 0 n

/-- The trailing-padding loop of `av1_symbol_exit` (av1_symbol.c): every bit
in `[pos, stop)` must be readable and zero. -/
def check_zero_bits_go (data : List Nat) : Nat → Nat → Nat → Bool
  | 0, _, _ => true
  | fuel+1, pos, stop =>
    if stop ≤ pos then true
    else
      match get_bit_at data pos with
      | (false, _) => false
      | (true, b) => if b ≠ 0 then false else check_zero_bits_go data fuel (pos + 1) stop

/-- Entry point of the zero-padding check; the fuel `stop - pos` is exactly
the number of bits to inspect. -/
def check_zero_bits (data : List Nat) (pos stop : Nat) : Bool :=
  check_zero_bits_go data (stop - pos) pos stop

/-- Translation of `av1_symbol_exit` (av1_symbol.c).  Returns the success
flag and the decoder state (whose bit cursor may have been advanced). -/
def av1_symbol_exit (sd : Av1SymbolDecoder) : Bool × Av1SymbolDecoder :=
  if sd.symbol_max_bits < -14 then (false, sd)
  else
    let smb15 : Int := sd.symbol_max_bits + 15
    let minv : Nat := if smb15 < 15 then (if smb15 < 0 then 0 else smb15.toNat) else 15
    if sd.br.bitpos < minv then (false, sd)
    else
      let trailing := sd.br.bitpos - minv
      let br1 :=
        if sd.symbol_max_bits > 0 then
          { sd.br with bitpos := sd.br.bitpos + sd.symbol_max_bits.toNat }
        else sd.br
      let sd1 := { sd with br := br1 }
      if br1.bitpos % 8 ≠ 0 then (false, sd1)
      else if sd.br.data.length * 8 < br1.bitpos then (false, sd1)
      else
        match get_bit_at sd.br.data trailing with
        | (false, _) => (false, sd1)
        | (true, b) =>
          if b ≠ 1 then (false, sd1)
          else (check_zero_bits sd.br.data (trailing + 1) br1.bitpos, sd1)

/-- The bit of a byte buffer at position `i` (MSB-first within each byte),
zero past the end. -/
def data_bit (data : List Nat) (i : Nat) : Nat :=
  (data.getD (i / 8) 0 >>> (7 - i % 8)) &&& 1

/-- The `k` bits of a byte buffer starting at position `start`, read MSB
first as one big-endian number. -/
def bits_at (data : List Nat) (start : Nat) : Nat → Nat
  | 0 => 0
  | k+1 => data_bit data start * 2 ^ k + bits_at data (start + 1) k

/-- The first `k` bits of a byte buffer read MSB-first as one big-endian
number (specification-side description of the `buf` read by
`init_symbol`). -/
def first_bits (data : List Nat) (k : Nat) : Nat := bits_at data 0 k

/-- States reachable from `av1_symbol_init` through successful symbol-decoder
reads on the same buffer. -/
inductive Reachable (data : List Nat) : Av1SymbolDecoder → Prop
  | init (d : Bool) : Reachable data (av1_symbol_init data d).sd
  | read_symbol (sd : Av1SymbolDecoder) (cdf : List Nat) (n : Nat)
      (h : Reachable data sd)
      (hok : (av1_symbol_read_symbol sd cdf n).ok = true) :
      Reachable data (av1_symbol_read_symbol sd cdf n).sd
  | read_bool (sd : Av1SymbolDecoder)
      (h : Reachable data sd)
      (hok : (av1_symbol_read_bool sd).1 = true) :
      Reachable data (av1_symbol_read_bool sd).2.1
  | read_literal (sd : Av1SymbolDecoder) (n : Nat)
      (h : Reachable data sd)
      (hok : (av1_symbol_read_literal sd n).1 = true) :
      Reachable data (av1_symbol_read_literal sd n).2.1

/-! ## Scan construction (av1_decode_tile.c, `build_scan`) and TX tables -/

/-- Translation of `kTxWidthLog2` (av1_decode_tile.c). -/
def kTxWidthLog2 : List Nat := [2, 3, 4, 5, 6, 2, 3, 3, 4, 4, 5, 5, 6, 2, 4, 3, 5, 4, 6]

/-- Translation of `kTxHeightLog2` (av1_decode_tile.c). -/
def kTxHeightLog2 : List Nat := [2, 3, 4, 5, 6, 3, 2, 4, 3, 5, 4, 6, 5, 4, 2, 5, 3, 6, 4]

/-- Translation of `kAdjustedTxSize` (av1_decode_tile.c). -/
def kAdjustedTxSize : List Nat := [0, 1, 2, 3, 3, 5, 6, 7, 8, 9, 10, 3, 3, 13, 14, 15, 16, 9, 10]

/-- Translation of `kTxSizeSqr` (av1_decode_tile.c). -/
def kTxSizeSqr : List Nat := [0, 1, 2, 3, 4, 0, 0, 1, 1, 2, 2, 3, 3, 0, 0, 1, 1, 2, 2]

/-- Translation of `kTxSizeSqrUp` (av1_decode_tile.c). -/
def kTxSizeSqrUp : List Nat := [0, 1, 2, 3, 4, 1, 1, 2, 2, 3, 3, 4, 4, 2, 2, 3, 3, 4, 4]

/-- The even-diagonal loop of `build_scan` (av1_decode_tile.c): rows from
`min(sum, h-1)` down to `row_min`, emitting `row * w + (sum - row)`. -/
def build_scan_even (w h sum : Nat) : List Nat :=
  let start := min sum (h - 1)
  let rmin := if w - 1 < sum then sum - (w - 1) else 0
  (List.range (start + 1 - rmin)).map (fun i => (start - i) * w + (sum - (start - i)))

/-- The odd-diagonal loop of `build_scan` (av1_decode_tile.c): columns from
`min(sum, w-1)` down to `col_min`, emitting `(sum - col) * w + col`. -/
def build_scan_odd (w h sum : Nat) : List Nat :=
  let start := min sum (w - 1)
  let cmin := if h - 1 < sum then sum - (h - 1) else 0
  (List.range (start + 1 - cmin)).map (fun i => (sum - (start - i)) * w + (start - i))

/-- Translation of `build_scan` (av1_decode_tile.c).  Class 2 = VERT is
column-major, class 1 = HORIZ is row-major, class 0 = 2D walks the diagonals
`sum = 0 .. w+h-2` alternating direction. -/
def build_scan (tx_class w h : Nat) : List Nat :=
  if tx_class = 2 then
    (List.range w).flatMap (fun col => (List.range h).map (fun row => row * w + col))
  else if tx_class = 1 then
    (List.range h).flatMap (fun row => (List.range w).map (fun col => row * w + col))
  else
    (List.range (w + h - 1)).flatMap (fun sum =>
      if sum % 2 = 0 then build_scan_even w h sum else build_scan_odd w h sum)

/-- Specification-side canonical description of one diagonal of the zigzag
scan: the cells `(r, c)` with `r + c = s` inside the `w × h` transform, with
row descending on even diagonals and column descending on odd diagonals. -/
def zigzag_diag (w h s : Nat) : List Nat :=
  if s % 2 = 0 then
    (((List.range h).filter (fun r => r ≤ s ∧ s - r < w)).reverse).map (fun r => r * w + (s - r))
  else
    (((List.range w).filter (fun c => c ≤ s ∧ s - c < h)).reverse).map (fun c => (s - c) * w + c)

/-- Specification-side canonical diagonal zigzag order: diagonals by
increasing coordinate sum. -/
def canonical_zigzag (w h : Nat) : List Nat :=
  (List.range (w + h - 1)).flatMap (zigzag_diag w h)

/-- Specification-side canonical column-major order: the `k`-th scanned cell
is row `k % h` of column `k / h`. -/
def canonical_col_major (w h : Nat) : List Nat :=
  (List.range (w * h)).map (fun k => k % h * w + k / h)

/-- Transform width in coefficients for the dimensions `build_scan` is called
with in `decode_coeffs_luma_one_tx_block`: the adjusted transform size's
width. -/
def scan_width (tx_size : Nat) : Nat :=
  2 ^ kTxWidthLog2.getD (kAdjustedTxSize.getD tx_size 0) 0

/-- Transform height in coefficients for the dimensions `build_scan` is
called with in `decode_coeffs_luma_one_tx_block`. -/
def scan_height (tx_size : Nat) : Nat :=
  2 ^ kTxHeightLog2.getD (kAdjustedTxSize.getD tx_size 0) 0

/-! ## Coefficient decoding (av1_decode_tile.c) -/

/-- Translation of `tx_sz_ctx_from_tx_size` (av1_decode_tile.c). -/
def tx_sz_ctx_from_tx_size (tx_size : Nat) : Nat :=
  if 19 ≤ tx_size then 0
  else
    let a := kTxSizeSqr.getD tx_size 0
    let b := kTxSizeSqrUp.getD tx_size 0
    let ctx := (a + b + 1) >>> 1
    if 5 ≤ ctx then 4 else ctx

/-- Translation of `get_tx_class_from_tx_type` (av1_decode_tile.c):
V_DCT (2) is the VERT class, H_DCT (3) the HORIZ class, all else 2D. -/
def get_tx_class_from_tx_type (tx_type : Nat) : Nat :=
  if tx_type = 2 then 2
  else if tx_type = 3 then 1
  else 0

/-- Translation of `get_tx_set_intra` (av1_decode_tile.c). -/
def get_tx_set_intra (tx_size reduced_tx_set : Nat) : Nat :=
  if 19 ≤ tx_size then 0
  else
    let txSzSqr := kTxSizeSqr.getD tx_size 0
    let txSzSqrUp := kTxSizeSqrUp.getD tx_size 0
    if 3 < txSzSqrUp then 0
    else if txSzSqrUp = 3 then 0
    else if reduced_tx_set ≠ 0 then 2
    else if txSzSqr = 2 then 2
    else 1

/-- Translation of `coeff_base_eob_ctx_from_c` (av1_decode_tile.c). -/
def coeff_base_eob_ctx_from_c (tx_size c : Nat) : Nat :=
  if 19 ≤ tx_size then 0
  else
    let adj := kAdjustedTxSize.getD tx_size 0
    let bwl := kTxWidthLog2.getD adj 0
    let height := 2 ^ (kTxHeightLog2.getD adj 0)
    let coeffs := height <<< bwl
    if c = 0 then 0
    else if c ≤ coeffs / 8 then 1
    else if c ≤ coeffs / 4 then 2
    else 3

/-- Modelled from the spec: the repository include file
`av1_coeff_base_ctx_offset.inc` (the spec's class-2D "coeff_base_ctx_offset"
lookup, indexed by transform size and by `min(row, 4)` / `min(col, 4)`) is
not present under `src/`; only its shape is known from the spec.  No claim in
this development depends on its values, so it is modelled as the all-zero
table of that shape. -/
def kCoeffBaseCtxOffset (_tx_size _rr _cc : Nat) : Nat := 0

/-- Translation of `kSigRefDiffOffset` (av1_decode_tile.c,
`coeff_base_ctx_isEob0`): per-class neighbourhoods of 5 offsets. -/
def kSigRefDiffOffset : List (List (Nat × Nat)) :=
  [[(0, 1), (1, 0), (1, 1), (0, 2), (2, 0)],
   [(0, 1), (1, 0), (0, 2), (0, 3), (0, 4)],
   [(0, 1), (1, 0), (2, 0), (3, 0), (4, 0)]]

/-- Translation of `coeff_base_ctx_isEob0` (av1_decode_tile.c).  All offsets
in `kSigRefDiffOffset` are non-negative, so the C sign checks reduce to the
upper-bound checks. -/
def coeff_base_ctx_isEob0 (tx_size tx_type bwl width height pos : Nat)
    (quant : Nat → Int) : Nat :=
  let tx_class := get_tx_class_from_tx_type tx_type
  let row := pos >>> bwl
  let col := pos - (row <<< bwl)
  let offs := kSigRefDiffOffset.getD tx_class []
  let mag := offs.foldl (fun acc off =>
    let rr := row + off.1
    let cc := col + off.2
    if rr < height ∧ cc < width then
      let v := (quant ((rr <<< bwl) + cc)).natAbs
      acc + min v 3
    else acc) 0
  let ctx := min ((mag + 1) >>> 1) 4
  if tx_class = 0 then
    if row = 0 ∧ col = 0 then 0
    else ctx + kCoeffBaseCtxOffset tx_size (min row 4) (min col 4)
  else
    let idx := if tx_class = 2 then row else col
    let cap := min idx 2
    ctx + (26 + 5 * cap)

/-- Translation of `kMagRefOffsetWithTxClass` (av1_decode_tile.c,
`coeff_br_ctx`). -/
def kMagRefOffsetWithTxClass : List (List (Nat × Nat)) :=
  [[(0, 1), (1, 0), (1, 1)],
   [(0, 1), (1, 0), (0, 2)],
   [(0, 1), (1, 0), (2, 0)]]

/-- Translation of `coeff_br_ctx` (av1_decode_tile.c). -/
def coeff_br_ctx (tx_size tx_type pos : Nat) (quant : Nat → Int) : Nat :=
  if 19 ≤ tx_size then 0
  else
    let adj := kAdjustedTxSize.getD tx_size 0
    let bwl := kTxWidthLog2.getD adj 0
    let txw := 2 ^ bwl
    let txh := 2 ^ (kTxHeightLog2.getD adj 0)
    let row := pos >>> bwl
    let col := pos - (row <<< bwl)
    let tx_class := get_tx_class_from_tx_type tx_type
    let offs := kMagRefOffsetWithTxClass.getD tx_class []
    let mag0 := offs.foldl (fun acc off =>
      let rr := row + off.1
      let cc := col + off.2
      if rr < txh ∧ cc < txw then
        let q := (quant (rr * txw + cc)).natAbs
        acc + min q 15
      else acc) 0
    let mag := min ((mag0 + 1) >>> 1) 6
    let ctx :=
      if pos = 0 then mag
      else if tx_class = 0 then
        if row < 2 ∧ col < 2 then mag + 7 else mag + 14
      else if tx_class = 1 then
        if col = 0 then mag + 7 else mag + 14
      else
        if row = 0 then mag + 7 else mag + 14
    if 21 ≤ ctx then 20 else ctx

/-- Translation of `Av1TileCoeffCtx` (av1_decode_tile.c).  The C per-plane
`above_*` / `left_*` arrays are pointers that are either both allocated or
both NULL for a plane; `has_above` / `has_left` model that NULL-ness, and the
arrays are modelled as total functions read only below `cols` / `rows`. -/
structure Av1TileCoeffCtx where
  above_level : Nat → Nat → Nat
  left_level : Nat → Nat → Nat
  above_dc : Nat → Nat → Nat
  left_dc : Nat → Nat → Nat
  cols : Nat → Nat
  rows : Nat → Nat
  has_above : Nat → Bool
  has_left : Nat → Bool

/-- Translation of `dc_sign_ctx` (av1_decode_tile.c). -/
def dc_sign_ctx (cctx : Av1TileCoeffCtx) (plane x4 y4 w4 h4 : Nat) : Nat :=
  if 3 ≤ plane then 0
  else if ¬cctx.has_above plane ∧ ¬cctx.has_left plane then 0
  else
    let dc1 : Int := (List.range w4).foldl (fun acc k =>
      let x := x4 + k
      if cctx.has_above plane ∧ x < cctx.cols plane then
        let sign := cctx.above_dc plane x
        if sign = 1 then acc - 1 else if sign = 2 then acc + 1 else acc
      else acc) 0
    let dcSign : Int := (List.range h4).foldl (fun acc k =>
      let y := y4 + k
      if cctx.has_left plane ∧ y < cctx.rows plane then
        let sign := cctx.left_dc plane y
        if sign = 1 then acc - 1 else if sign = 2 then acc + 1 else acc
      else acc) dc1
    if dcSign < 0 then 1 else if 0 < dcSign then 2 else 0

/-- Translation of `txb_skip_ctx` (av1_decode_tile.c). -/
def txb_skip_ctx (cctx : Av1TileCoeffCtx)
    (plane x4 y4 w4 h4 bw_px bh_px tx_size : Nat) : Nat :=
  if 3 ≤ plane ∨ 19 ≤ tx_size then 0
  else
    let tx_w_px := 2 ^ (kTxWidthLog2.getD tx_size 0)
    let tx_h_px := 2 ^ (kTxHeightLog2.getD tx_size 0)
    if plane = 0 then
      let top := (List.range w4).foldl (fun acc k =>
        let x := x4 + k
        if cctx.has_above plane ∧ x < cctx.cols plane then
          max acc (cctx.above_level plane x)
        else acc) 0
      let left := (List.range h4).foldl (fun acc k =>
        let y := y4 + k
        if cctx.has_left plane ∧ y < cctx.rows plane then
          max acc (cctx.left_level plane y)
        else acc) 0
      let top := min top 255
      let left := min left 255
      if bw_px = tx_w_px ∧ bh_px = tx_h_px then 0
      else if top = 0 ∧ left = 0 then 1
      else if top = 0 ∨ left = 0 then 2 + (if 3 < top ∨ 3 < left then 1 else 0)
      else if top ≤ 3 ∧ left ≤ 3 then 4
      else if top ≤ 3 ∨ left ≤ 3 then 5
      else 6
    else
      let above := (List.range w4).foldl (fun acc i =>
        let x := x4 + i
        if x < cctx.cols plane then
          if cctx.has_above plane then
            (acc ||| cctx.above_level plane x) ||| cctx.above_dc plane x
          else acc
        else acc) 0
      let left := (List.range h4).foldl (fun acc i =>
        let y := y4 + i
        if y < cctx.rows plane then
          if cctx.has_left plane then
            (acc ||| cctx.left_level plane y) ||| cctx.left_dc plane y
          else acc
        else acc) 0
      let ctxv := (if above ≠ 0 then 1 else 0) + (if left ≠ 0 then 1 else 0) + 7
      if tx_w_px * tx_h_px < bw_px * bh_px then ctxv + 3 else ctxv

/-- Translation of `Av1TileCoeffCdfs` (av1_decode_tile.c): each CDF family is
a function from its context indices to the CDF array. -/
structure Av1TileCoeffCdfs where
  txb_skip : Nat → Nat → List Nat
  eob_pt_16 : Nat → Nat → List Nat
  eob_pt_32 : Nat → Nat → List Nat
  eob_pt_64 : Nat → Nat → List Nat
  eob_pt_128 : Nat → Nat → List Nat
  eob_pt_256 : Nat → Nat → List Nat
  eob_pt_512 : Nat → List Nat
  eob_pt_1024 : Nat → List Nat
  eob_extra : Nat → Nat → Nat → List Nat
  coeff_base_eob : Nat → Nat → Nat → List Nat
  coeff_base : Nat → Nat → Nat → List Nat
  coeff_br : Nat → Nat → Nat → List Nat
  dc_sign : Nat → Nat → List Nat

/-- In-place write of one CDF slot of a one-index family. -/
def upd1 (f : Nat → List Nat) (a : Nat) (v : List Nat) : Nat → List Nat :=
  fun i => if i = a then v else f i

/-- In-place write of one CDF slot of a two-index family. -/
def upd2 (f : Nat → Nat → List Nat) (a b : Nat) (v : List Nat) : Nat → Nat → List Nat :=
  fun i j => if i = a ∧ j = b then v else f i j

/-- In-place write of one CDF slot of a three-index family. -/
def upd3 (f : Nat → Nat → Nat → List Nat) (a b c : Nat) (v : List Nat) :
    Nat → Nat → Nat → List Nat :=
  fun i j k => if i = a ∧ j = b ∧ k = c then v else f i j k

/-- Write of one entry of a coefficient scratch array `quant[]`. -/
def qset (q : Nat → Int) (p : Nat) (v : Int) : Nat → Int :=
  fun x => if x = p then v else q x

/-- The span writes of the coefficient-context update in
`decode_coeffs_luma_one_tx_block` (av1_decode_tile.c): write `v` at
`base + i` for `i < len` when in bounds (and the plane's array exists). -/
def set_span (present : Bool) (arr : Nat → Nat) (base len bound v : Nat) : Nat → Nat :=
  fun x => if present ∧ base ≤ x ∧ x < base + len ∧ x < bound then v else arr x

/-- Translation of `Av1TileSyntaxProbeStats` (av1_decode_tile.h plus the
block0_u/v fields of av1_decode_tile.c), restricted to the fields read or
written by the functions embedded in this file.  Zero-initialised like the C
`memset`. -/
structure Av1TileSyntaxProbeStats where
  blocks_decoded : Nat := 0
  block0_skip_decoded : Bool := false
  block0_r_mi : Nat := 0
  block0_c_mi : Nat := 0
  block0_wlog2 : Nat := 0
  block0_hlog2 : Nat := 0
  block0_skip_ctx : Nat := 0
  block0_skip : Nat := 0
  block0_y_mode_decoded : Bool := false
  block0_y_mode_ctx : Nat := 0
  block0_y_mode : Nat := 0
  block0_angle_delta_y_decoded : Bool := false
  block0_angle_delta_y : Int := 0
  block0_uv_mode_decoded : Bool := false
  block0_uv_mode : Nat := 0
  block0_cfl_alphas_decoded : Bool := false
  block0_cfl_alpha_signs : Nat := 0
  block0_cfl_alpha_u : Int := 0
  block0_cfl_alpha_v : Int := 0
  block0_angle_delta_uv_decoded : Bool := false
  block0_angle_delta_uv : Int := 0
  block0_has_palette_y_decoded : Bool := false
  block0_has_palette_y : Nat := 0
  block0_palette_size_y_decoded : Bool := false
  block0_palette_size_y : Nat := 0
  block0_has_palette_uv_decoded : Bool := false
  block0_has_palette_uv : Nat := 0
  block0_palette_size_uv_decoded : Bool := false
  block0_palette_size_uv : Nat := 0
  block0_use_filter_intra_decoded : Bool := false
  block0_use_filter_intra : Nat := 0
  block0_filter_intra_mode_decoded : Bool := false
  block0_filter_intra_mode : Nat := 0
  block0_tx_mode : Nat := 0
  block0_tx_depth_decoded : Bool := false
  block0_tx_depth : Nat := 0
  block0_tx_size_decoded : Bool := false
  block0_tx_size : Nat := 0
  block0_tx_type_decoded : Bool := false
  block0_tx_type : Nat := 0
  block0_tx_blocks_decoded : Nat := 0
  block0_txb_skip_decoded : Bool := false
  block0_txb_skip_ctx : Nat := 0
  block0_txb_skip : Nat := 0
  block0_u_txb_skip_decoded : Bool := false
  block0_u_txb_skip_ctx : Nat := 0
  block0_u_txb_skip : Nat := 0
  block0_v_txb_skip_decoded : Bool := false
  block0_v_txb_skip_ctx : Nat := 0
  block0_v_txb_skip : Nat := 0
  block0_tx1_txb_skip_decoded : Bool := false
  block0_tx1_x4 : Nat := 0
  block0_tx1_y4 : Nat := 0
  block0_tx1_txb_skip_ctx : Nat := 0
  block0_tx1_txb_skip : Nat := 0
  block1_txb_skip_decoded : Bool := false
  block1_r_mi : Nat := 0
  block1_c_mi : Nat := 0
  block1_txb_skip_ctx : Nat := 0
  block1_txb_skip : Nat := 0
  block1_eob_pt_decoded : Bool := false
  block1_eob_pt_ctx : Nat := 0
  block1_eob_pt : Nat := 0
  block1_eob_decoded : Bool := false
  block1_eob : Nat := 0
  block1_coeff_base_eob_decoded : Bool := false
  block1_coeff_base_eob_ctx : Nat := 0
  block1_coeff_base_eob_level : Nat := 0
  block1_coeff_base_decoded : Bool := false
  block1_coeff_base_ctx : Nat := 0
  block1_coeff_base_level : Nat := 0
  block0_eob_pt_decoded : Bool := false
  block0_eob_pt : Nat := 0
  block0_eob_decoded : Bool := false
  block0_eob : Nat := 0
  block0_coeff_base_eob_decoded : Bool := false
  block0_coeff_base_eob_ctx : Nat := 0
  block0_coeff_base_eob_level : Nat := 0
  block0_coeff_base_decoded : Bool := false
  block0_coeff_base_ctx : Nat := 0
  block0_coeff_base_level : Nat := 0
  block0_coeff_br_decoded : Bool := false
  block0_coeff_br_ctx : Nat := 0
  block0_coeff_br_sym : Nat := 0
  block0_dc_sign_decoded : Bool := false
  block0_dc_sign_ctx : Nat := 0
  block0_dc_sign : Nat := 0
deriving DecidableEq

/-- Result of `decode_coeffs_luma_one_tx_block` and its helper loops. -/
structure CoeffsResult where
  ok : Bool
  sd : Av1SymbolDecoder
  cdfs : Av1TileCoeffCdfs
  cctx : Av1TileCoeffCtx
  st : Av1TileSyntaxProbeStats
  stop_now : Bool

/-- State threaded through the coefficient loops of
`decode_coeffs_luma_one_tx_block`. -/
structure CoeffLoopState where
  ok : Bool
  sd : Av1SymbolDecoder
  cdfs : Av1TileCoeffCdfs
  st : Av1TileSyntaxProbeStats
  quant : Nat → Int
  level : Nat
  stop_now : Bool

/-- Translation of the `coeff_br` loop of `decode_coeffs_luma_one_tx_block`
(av1_decode_tile.c): up to `fuel = COEFF_BASE_RANGE / (BR_CDF_SIZE-1) = 4`
reads of a 4-symbol CDF, stopping at the first symbol below 3. -/
def coeff_br_loop (sd : Av1SymbolDecoder) (cdfs : Av1TileCoeffCdfs)
    (stp : Bool) (st : Av1TileSyntaxProbeStats)
    (txSzCtx ptype tx_size tx_type pos : Nat) (quant : Nat → Int)
    (plane block_index tx_index level : Nat) :
    Nat → Bool × Av1SymbolDecoder × Av1TileCoeffCdfs × Av1TileSyntaxProbeStats × Nat
  | 0 => (true, sd, cdfs, st, level)
  | fuel+1 =>
    let br_ctx := coeff_br_ctx tx_size tx_type pos quant
    let br_tx := if 4 ≤ txSzCtx then 3 else txSzCtx
    let r := av1_symbol_read_symbol sd (cdfs.coeff_br br_tx ptype br_ctx) 4
    if r.ok = false then (false, r.sd, cdfs, st, level)
    else
      let cdfs1 := { cdfs with coeff_br := upd3 cdfs.coeff_br br_tx ptype br_ctx r.cdf }
      if 4 ≤ r.sym then (false, r.sd, cdfs1, st, level)
      else
        let level1 := level + r.sym
        let st1 :=
          if stp ∧ plane = 0 ∧ block_index = 0 ∧ tx_index = 0 ∧ ¬st.block0_coeff_br_decoded then
            { st with block0_coeff_br_decoded := true
                      block0_coeff_br_ctx := br_ctx
                      block0_coeff_br_sym := r.sym }
          else st
        if r.sym < 3 then (true, r.sd, cdfs1, st1, level1)
        else coeff_br_loop r.sd cdfs1 stp st1 txSzCtx ptype tx_size tx_type pos quant
          plane block_index tx_index level1 fuel

/-- Translation of the `coeff_base` reverse-scan loop of
`decode_coeffs_luma_one_tx_block` (av1_decode_tile.c): iterates
`cc = c_plus1 - 1` down to `0`.  `stop_now = true` in the result models the
early `return true` for the block-1 probe milestone. -/
def coeff_base_loop (sd : Av1SymbolDecoder) (cdfs : Av1TileCoeffCdfs)
    (stp : Bool) (st : Av1TileSyntaxProbeStats)
    (txSzCtx ptype tx_size tx_type bwl width height segEobAdj : Nat)
    (scan : List Nat) (quant : Nat → Int)
    (probe_try_exit_symbol : Bool) (plane block_index tx_index : Nat) :
    Nat → CoeffLoopState
  | 0 => ⟨true, sd, cdfs, st, quant, 0, false⟩
  | k+1 =>
    let coef_c := k
    let pos := scan.getD coef_c 0
    if segEobAdj ≤ pos then ⟨false, sd, cdfs, st, quant, 0, false⟩
    else
      let cb_ctx := coeff_base_ctx_isEob0 tx_size tx_type bwl width height pos quant
      if 42 ≤ cb_ctx then ⟨false, sd, cdfs, st, quant, 0, false⟩
      else
        let r := av1_symbol_read_symbol sd (cdfs.coeff_base txSzCtx ptype cb_ctx) 4
        if r.ok = false then ⟨false, r.sd, cdfs, st, quant, 0, false⟩
        else
          let cdfs1 := { cdfs with coeff_base := upd3 cdfs.coeff_base txSzCtx ptype cb_ctx r.cdf }
          if 3 < r.sym then ⟨false, r.sd, cdfs1, st, quant, 0, false⟩
          else
            let level := r.sym
            let brres :=
              if 2 < level then
                coeff_br_loop r.sd cdfs1 stp st txSzCtx ptype tx_size tx_type pos quant
                  plane block_index tx_index level 4
              else (true, r.sd, cdfs1, st, level)
            if brres.1 = false then ⟨false, brres.2.1, brres.2.2.1, brres.2.2.2.1, quant, 0, false⟩
            else
              let sd2 := brres.2.1
              let cdfs2 := brres.2.2.1
              let st2 := brres.2.2.2.1
              let quant1 := qset quant pos (Int.ofNat brres.2.2.2.2)
              let st3 :=
                if plane = 0 ∧ coef_c = 0 ∧ stp ∧ block_index = 0 ∧ tx_index = 0 ∧
                    ¬st2.block0_coeff_base_decoded then
                  { st2 with block0_coeff_base_decoded := true
                             block0_coeff_base_ctx := cb_ctx
                             block0_coeff_base_level := r.sym }
                else st2
              if ¬probe_try_exit_symbol ∧ plane = 0 ∧ coef_c = 0 ∧ stp ∧ block_index = 1 ∧
                  tx_index = 0 ∧ ¬st3.block1_coeff_base_decoded then
                let st4 := { st3 with block1_coeff_base_decoded := true
                                      block1_coeff_base_ctx := cb_ctx
                                      block1_coeff_base_level := r.sym }
                ⟨true, sd2, cdfs2, st4, quant1, 0, true⟩
              else
                coeff_base_loop sd2 cdfs2 stp st3 txSzCtx ptype tx_size tx_type bwl width
                  height segEobAdj scan quant1 probe_try_exit_symbol plane block_index tx_index k
termination_by structural n => n

/-- Translation of the Exp-Golomb length loop of
`decode_coeffs_luma_one_tx_block` (av1_decode_tile.c).  The C `do/while` has
no iteration bound; it is modelled with explicit fuel (reported as failure on
exhaustion), which no claim below depends on. -/
def golomb_length_loop (sd : Av1SymbolDecoder) (length : Nat) :
    Nat → Bool × Av1SymbolDecoder × Nat
  | 0 => (false, sd, length)
  | fuel+1 =>
    let r := av1_symbol_read_bool sd
    if r.1 = false then (false, r.2.1, length + 1)
    else if r.2.2 ≠ 0 then (true, r.2.1, length + 1)
    else golomb_length_loop r.2.1 (length + 1) fuel

/-- Translation of the Exp-Golomb data-bit loop of
`decode_coeffs_luma_one_tx_block` (av1_decode_tile.c): `count` further bits
MSB-first into `x` (C `uint32_t`, hence the wrap). -/
def golomb_data_loop (sd : Av1SymbolDecoder) (x : Nat) :
    Nat → Bool × Av1SymbolDecoder × Nat
  | 0 => (true, sd, x)
  | count+1 =>
    let r := av1_symbol_read_bool sd
    if r.1 = false then (false, r.2.1, x)
    else golomb_data_loop r.2.1 (u32 ((x <<< 1) ||| r.2.2)) count

/-- Translation of the sign / Exp-Golomb forward-scan loop of
`decode_coeffs_luma_one_tx_block` (av1_decode_tile.c).  `coef_idx` is the
current index, `remaining` the number of indices left (`eob - coef_idx`).
Returns ok, decoder, cdfs, stats, quant, culLevel, dcCategory. -/
def coeff_sign_loop (sd : Av1SymbolDecoder) (cdfs : Av1TileCoeffCdfs)
    (cctx : Av1TileCoeffCtx) (stp : Bool) (st : Av1TileSyntaxProbeStats)
    (plane x4 y4 w4 h4 ptype block_index tx_index : Nat)
    (scan : List Nat) (quant : Nat → Int) (culLevel dcCategory coef_idx : Nat) :
    Nat →
      Bool × Av1SymbolDecoder × Av1TileCoeffCdfs × Av1TileSyntaxProbeStats ×
        (Nat → Int) × Nat × Nat
  | 0 => (true, sd, cdfs, st, quant, culLevel, dcCategory)
  | remaining+1 =>
    let pos := scan.getD coef_idx 0
    let signRes :
        Bool × Av1SymbolDecoder × Av1TileCoeffCdfs × Av1TileSyntaxProbeStats × Nat :=
      if quant pos ≠ 0 then
        if coef_idx = 0 then
          let dc_ctx := dc_sign_ctx cctx plane x4 y4 w4 h4
          let r := av1_symbol_read_symbol sd (cdfs.dc_sign ptype dc_ctx) 2
          if r.ok = false then (false, r.sd, cdfs, st, 0)
          else
            let cdfs1 := { cdfs with dc_sign := upd2 cdfs.dc_sign ptype dc_ctx r.cdf }
            let st1 :=
              if stp ∧ plane = 0 ∧ block_index = 0 ∧ tx_index = 0 ∧
                  ¬st.block0_dc_sign_decoded then
                { st with block0_dc_sign_decoded := true
                          block0_dc_sign_ctx := dc_ctx
                          block0_dc_sign := r.sym }
              else st
            (true, r.sd, cdfs1, st1, r.sym)
        else
          let r := av1_symbol_read_bool sd
          if r.1 = false then (false, r.2.1, cdfs, st, 0)
          else (true, r.2.1, cdfs, st, r.2.2)
      else (true, sd, cdfs, st, 0)
    if signRes.1 = false then
      (false, signRes.2.1, signRes.2.2.1, signRes.2.2.2.1, quant, culLevel, dcCategory)
    else
      let sd1 := signRes.2.1
      let cdfs1 := signRes.2.2.1
      let st1 := signRes.2.2.2.1
      let sign := signRes.2.2.2.2
      let golombRes : Bool × Av1SymbolDecoder × (Nat → Int) :=
        if 14 < (quant pos).natAbs then
          match golomb_length_loop sd1 0 1048576 with
          | (false, sdg, _) => (false, sdg, quant)
          | (true, sdg, length) =>
            match golomb_data_loop sdg 1 (length - 1) with
            | (false, sdg2, _) => (false, sdg2, quant)
            | (true, sdg2, x) =>
              let q := (u32 (x + 14)) &&& 1048575
              (true, sdg2, qset quant pos (Int.ofNat q))
        else (true, sd1, quant)
      if golombRes.1 = false then
        (false, golombRes.2.1, cdfs1, st1, quant, culLevel, dcCategory)
      else
        let sd2 := golombRes.2.1
        let quant1 := golombRes.2.2
        let dcCategory1 :=
          if pos = 0 ∧ 0 < quant1 pos then (if sign ≠ 0 then 1 else 2) else dcCategory
        let mag := (quant1 pos).natAbs
        let culLevel1 := min (culLevel + mag) 63
        let quant2 := if sign ≠ 0 then qset quant1 pos (-(quant1 pos)) else quant1
        coeff_sign_loop sd2 cdfs1 cctx stp st1 plane x4 y4 w4 h4 ptype block_index
          tx_index scan quant2 culLevel1 dcCategory1 (coef_idx + 1) remaining
termination_by structural n => n

/-- Translation of the eob_extra raw-bool loop of
`decode_coeffs_luma_one_tx_block` (av1_decode_tile.c): `count` bool bits MSB
to LSB, bit `j` (from the MSB) adding `2^(count-1-j)`. -/
def eob_extra_bits_loop (sd : Av1SymbolDecoder) (eob : Nat) :
    Nat → Bool × Av1SymbolDecoder × Nat
  | 0 => (true, sd, eob)
  | count+1 =>
    let r := av1_symbol_read_bool sd
    if r.1 = false then (false, r.2.1, eob)
    else eob_extra_bits_loop r.2.1 (if r.2.2 ≠ 0 then eob + (1 <<< count) else eob) count

/-- Translation of the eob construction of `decode_coeffs_luma_one_tx_block`
(av1_decode_tile.c, the block guarded by `eobShift0 >= 0` together with the
base value): base `eob = eobPt < 2 ? eobPt : (1 << (eobPt-2)) + 1`, one
`eob_extra` symbol adding `1 << (eobPt-3)` when 1, then `eobPt - 3` raw bool
bits.  Returns ok, decoder, cdfs, eob. -/
def decode_eob_value (sd : Av1SymbolDecoder) (cdfs : Av1TileCoeffCdfs)
    (txSzCtx ptype eobPt : Nat) : Bool × Av1SymbolDecoder × Av1TileCoeffCdfs × Nat :=
  let eob0 := if eobPt < 2 then eobPt else (1 <<< (eobPt - 2)) + 1
  if eobPt < 3 then (true, sd, cdfs, eob0)
  else
    let ctxIdx := eobPt - 3
    if 9 ≤ ctxIdx then (false, sd, cdfs, eob0)
    else
      let r := av1_symbol_read_symbol sd (cdfs.eob_extra txSzCtx ptype ctxIdx) 2
      if r.ok = false then (false, r.sd, cdfs, eob0)
      else
        let cdfs1 := { cdfs with eob_extra := upd3 cdfs.eob_extra txSzCtx ptype ctxIdx r.cdf }
        let eob1 := if r.sym ≠ 0 then eob0 + (1 <<< (eobPt - 3)) else eob0
        match eob_extra_bits_loop r.sd eob1 (eobPt - 3) with
        | (false, sd2, e) => (false, sd2, cdfs1, e)
        | (true, sd2, e) => (true, sd2, cdfs1, e)

/-- Translation of the `segEob` validation bound of
`decode_coeffs_luma_one_tx_block` (av1_decode_tile.c): `min(width*height,
1024)` with the 512 special cases for TX_16X64 (17) and TX_64X16 (18). -/
def seg_eob (tx_size : Nat) : Nat :=
  if tx_size = 17 ∨ tx_size = 18 then 512
  else
    let wh := 2 ^ (kTxWidthLog2.getD tx_size 0) * 2 ^ (kTxHeightLog2.getD tx_size 0)
    if wh < 1024 then wh else 1024

/-- The five probe-stats writes performed right after the `txb_skip` read in
`decode_coeffs_luma_one_tx_block` (av1_decode_tile.c). -/
def coeffs_txb_skip_stats (stp : Bool) (st : Av1TileSyntaxProbeStats)
    (plane block_index tx_index block_r block_c x4 y4 ctx all_zero : Nat) :
    Av1TileSyntaxProbeStats :=
  let st :=
    if stp ∧ plane = 0 ∧ block_index = 0 ∧ tx_index = 0 ∧ ¬st.block0_txb_skip_decoded then
      { st with block0_txb_skip_decoded := true, block0_txb_skip_ctx := ctx,
                block0_txb_skip := all_zero }
    else st
  let st :=
    if stp ∧ plane = 1 ∧ block_index = 0 ∧ tx_index = 0 ∧ ¬st.block0_u_txb_skip_decoded then
      { st with block0_u_txb_skip_decoded := true, block0_u_txb_skip_ctx := ctx,
                block0_u_txb_skip := all_zero }
    else st
  let st :=
    if stp ∧ plane = 2 ∧ block_index = 0 ∧ tx_index = 0 ∧ ¬st.block0_v_txb_skip_decoded then
      { st with block0_v_txb_skip_decoded := true, block0_v_txb_skip_ctx := ctx,
                block0_v_txb_skip := all_zero }
    else st
  let st :=
    if stp ∧ plane = 0 ∧ block_index = 0 ∧ tx_index = 1 ∧ ¬st.block0_tx1_txb_skip_decoded then
      { st with block0_tx1_txb_skip_decoded := true, block0_tx1_x4 := x4,
                block0_tx1_y4 := y4, block0_tx1_txb_skip_ctx := ctx,
                block0_tx1_txb_skip := all_zero }
    else st
  if stp ∧ plane = 0 ∧ block_index = 1 ∧ tx_index = 0 ∧ ¬st.block1_txb_skip_decoded then
    { st with block1_txb_skip_decoded := true, block1_r_mi := block_r,
              block1_c_mi := block_c, block1_txb_skip_ctx := ctx,
              block1_txb_skip := all_zero }
  else st

/-- The two probe-stats writes performed after the `eob_pt` read in
`decode_coeffs_luma_one_tx_block` (av1_decode_tile.c). -/
def coeffs_eob_pt_stats (stp : Bool) (st : Av1TileSyntaxProbeStats)
    (plane block_index tx_index eob_ctx eobPt : Nat) : Av1TileSyntaxProbeStats :=
  let st :=
    if stp ∧ plane = 0 ∧ block_index = 0 ∧ tx_index = 0 ∧ ¬st.block0_eob_pt_decoded then
      { st with block0_eob_pt_decoded := true, block0_eob_pt := eobPt }
    else st
  if stp ∧ plane = 0 ∧ block_index = 1 ∧ tx_index = 0 ∧ ¬st.block1_eob_pt_decoded then
    { st with block1_eob_pt_decoded := true, block1_eob_pt_ctx := eob_ctx,
              block1_eob_pt := eobPt }
  else st

/-- The two probe-stats writes performed after the eob validation in
`decode_coeffs_luma_one_tx_block` (av1_decode_tile.c). -/
def coeffs_eob_stats (stp : Bool) (st : Av1TileSyntaxProbeStats)
    (plane block_index tx_index eob : Nat) : Av1TileSyntaxProbeStats :=
  let st :=
    if stp ∧ plane = 0 ∧ block_index = 0 ∧ tx_index = 0 ∧ ¬st.block0_eob_decoded then
      { st with block0_eob_decoded := true, block0_eob := eob }
    else st
  if stp ∧ plane = 0 ∧ block_index = 1 ∧ tx_index = 0 ∧ ¬st.block1_eob_decoded then
    { st with block1_eob_decoded := true, block1_eob := eob }
  else st

/-- The two probe-stats writes performed after the `coeff_base_eob` read in
`decode_coeffs_luma_one_tx_block` (av1_decode_tile.c). -/
def coeffs_base_eob_stats (stp : Bool) (st : Av1TileSyntaxProbeStats)
    (plane block_index tx_index cb_ctx level : Nat) : Av1TileSyntaxProbeStats :=
  let st :=
    if stp ∧ plane = 0 ∧ block_index = 0 ∧ tx_index = 0 ∧
        ¬st.block0_coeff_base_eob_decoded then
      { st with block0_coeff_base_eob_decoded := true,
                block0_coeff_base_eob_ctx := cb_ctx,
                block0_coeff_base_eob_level := level }
    else st
  if stp ∧ plane = 0 ∧ block_index = 1 ∧ tx_index = 0 ∧
      ¬st.block1_coeff_base_eob_decoded then
    { st with block1_coeff_base_eob_decoded := true,
              block1_coeff_base_eob_ctx := cb_ctx,
              block1_coeff_base_eob_level := level }
  else st

/-- The eob_pt CDF family selection of `decode_coeffs_luma_one_tx_block`
(av1_decode_tile.c), by `eobMultisize`. -/
def eob_pt_cdf (cdfs : Av1TileCoeffCdfs) (eobMultisize ptype eob_ctx : Nat) : List Nat :=
  if eobMultisize = 0 then cdfs.eob_pt_16 ptype eob_ctx
  else if eobMultisize = 1 then cdfs.eob_pt_32 ptype eob_ctx
  else if eobMultisize = 2 then cdfs.eob_pt_64 ptype eob_ctx
  else if eobMultisize = 3 then cdfs.eob_pt_128 ptype eob_ctx
  else if eobMultisize = 4 then cdfs.eob_pt_256 ptype eob_ctx
  else if eobMultisize = 5 then cdfs.eob_pt_512 ptype
  else cdfs.eob_pt_1024 ptype

/-- The eob_pt symbol-count selection of `decode_coeffs_luma_one_tx_block`
(av1_decode_tile.c). -/
def eob_pt_nsyms (eobMultisize : Nat) : Nat :=
  if eobMultisize = 0 then 5
  else if eobMultisize = 1 then 6
  else if eobMultisize = 2 then 7
  else if eobMultisize = 3 then 8
  else if eobMultisize = 4 then 9
  else if eobMultisize = 5 then 10
  else 11

/-- The eob_pt CDF family write-back of `decode_coeffs_luma_one_tx_block`
(av1_decode_tile.c). -/
def eob_pt_update (cdfs : Av1TileCoeffCdfs) (eobMultisize ptype eob_ctx : Nat)
    (newCdf : List Nat) : Av1TileCoeffCdfs :=
  if eobMultisize = 0 then
    { cdfs with eob_pt_16 := upd2 cdfs.eob_pt_16 ptype eob_ctx newCdf }
  else if eobMultisize = 1 then
    { cdfs with eob_pt_32 := upd2 cdfs.eob_pt_32 ptype eob_ctx newCdf }
  else if eobMultisize = 2 then
    { cdfs with eob_pt_64 := upd2 cdfs.eob_pt_64 ptype eob_ctx newCdf }
  else if eobMultisize = 3 then
    { cdfs with eob_pt_128 := upd2 cdfs.eob_pt_128 ptype eob_ctx newCdf }
  else if eobMultisize = 4 then
    { cdfs with eob_pt_256 := upd2 cdfs.eob_pt_256 ptype eob_ctx newCdf }
  else if eobMultisize = 5 then
    { cdfs with eob_pt_512 := upd1 cdfs.eob_pt_512 ptype newCdf }
  else
    { cdfs with eob_pt_1024 := upd1 cdfs.eob_pt_1024 ptype newCdf }

/-- The base/sign stage of `decode_coeffs_luma_one_tx_block`
(av1_decode_tile.c): the scan construction, coeff_br seed, coeff_base loop,
sign loop and the final context-span update. -/
def decode_coeffs_base_stage (sd : Av1SymbolDecoder) (cdfs3 : Av1TileCoeffCdfs)
    (cctx : Av1TileCoeffCtx)
    (plane block_index tx_index x4 y4 tx_size tx_type level eob : Nat)
    (probe_try_exit_symbol : Bool) (stp : Bool) (st : Av1TileSyntaxProbeStats) :
    CoeffsResult :=
  let ptype := if plane = 0 then 0 else 1
  let txSzCtx := tx_sz_ctx_from_tx_size tx_size
  let w4 := 1 <<< (kTxWidthLog2.getD tx_size 0 - 2)
  let h4 := 1 <<< (kTxHeightLog2.getD tx_size 0 - 2)
  let adj := kAdjustedTxSize.getD tx_size 0
  let bwl := kTxWidthLog2.getD adj 0
  let width := 1 <<< bwl
  let height := 1 <<< (kTxHeightLog2.getD adj 0)
  let coeffs := width * height
  let segEobAdj := if coeffs < 1024 then coeffs else 1024
  if segEobAdj < eob then ⟨true, sd, cdfs3, cctx, st, false⟩
  else
    let tx_class := get_tx_class_from_tx_type tx_type
    let scan := build_scan tx_class width height
    let quant0 : Nat → Int := fun _ => 0
    let pos_eob := scan.getD (eob - 1) 0
    if segEobAdj ≤ pos_eob then ⟨false, sd, cdfs3, cctx, st, false⟩
    else
      let seed :=
        if 2 < level then
          coeff_br_loop sd cdfs3 stp st txSzCtx ptype tx_size tx_type
            pos_eob quant0 plane block_index tx_index level 4
        else (true, sd, cdfs3, st, level)
      if seed.1 = false then
        ⟨false, seed.2.1, seed.2.2.1, cctx, seed.2.2.2.1, false⟩
      else
        let quant1 := qset quant0 pos_eob (Int.ofNat seed.2.2.2.2)
        let base := coeff_base_loop seed.2.1 seed.2.2.1 stp seed.2.2.2.1
          txSzCtx ptype tx_size tx_type bwl width height segEobAdj scan
          quant1 probe_try_exit_symbol plane block_index tx_index (eob - 1)
        if base.ok = false then
          ⟨false, base.sd, base.cdfs, cctx, base.st, false⟩
        else if base.stop_now then
          ⟨true, base.sd, base.cdfs, cctx, base.st, true⟩
        else
          let signs := coeff_sign_loop base.sd base.cdfs cctx stp base.st
            plane x4 y4 w4 h4 ptype block_index tx_index scan base.quant
            0 0 0 eob
          if signs.1 = false then
            ⟨false, signs.2.1, signs.2.2.1, cctx, signs.2.2.2.1, false⟩
          else
            let culLevel := signs.2.2.2.2.2.1
            let dcCategory := signs.2.2.2.2.2.2
            let cctx1 := { cctx with
              above_level := fun p =>
                if p = plane then
                  set_span (cctx.has_above plane) (cctx.above_level plane)
                    x4 w4 (cctx.cols plane) culLevel
                else cctx.above_level p
              above_dc := fun p =>
                if p = plane then
                  set_span (cctx.has_above plane) (cctx.above_dc plane)
                    x4 w4 (cctx.cols plane) dcCategory
                else cctx.above_dc p
              left_level := fun p =>
                if p = plane then
                  set_span (cctx.has_left plane) (cctx.left_level plane)
                    y4 h4 (cctx.rows plane) culLevel
                else cctx.left_level p
              left_dc := fun p =>
                if p = plane then
                  set_span (cctx.has_left plane) (cctx.left_dc plane)
                    y4 h4 (cctx.rows plane) dcCategory
                else cctx.left_dc p }
            ⟨true, signs.2.1, signs.2.2.1, cctx1, signs.2.2.2.1, false⟩

/-- The eob-validation stage of `decode_coeffs_luma_one_tx_block`
(av1_decode_tile.c): everything after a successful `decode_eob_value`, from
the `0 < eob ≤ segEob` validation through the coeff_base_eob read to the
base/sign stage. -/
def decode_coeffs_after_eob (sd2 : Av1SymbolDecoder) (cdfs2 : Av1TileCoeffCdfs)
    (cctx : Av1TileCoeffCtx)
    (plane block_index tx_index x4 y4 tx_size tx_type eob : Nat)
    (probe_try_exit_symbol : Bool) (stp : Bool) (st : Av1TileSyntaxProbeStats) :
    CoeffsResult :=
  let ptype := if plane = 0 then 0 else 1
  let txSzCtx := tx_sz_ctx_from_tx_size tx_size
  if eob = 0 ∨ seg_eob tx_size < eob then ⟨false, sd2, cdfs2, cctx, st, false⟩
  else
    let st := coeffs_eob_stats stp st plane block_index tx_index eob
    let c_eob := if 0 < eob then eob - 1 else 0
    let cb_ctx := coeff_base_eob_ctx_from_c tx_size c_eob
    if 4 ≤ cb_ctx then ⟨false, sd2, cdfs2, cctx, st, false⟩
    else
      let r2 := av1_symbol_read_symbol sd2 (cdfs2.coeff_base_eob txSzCtx ptype cb_ctx) 3
      if r2.ok = false then ⟨false, r2.sd, cdfs2, cctx, st, false⟩
      else
        let cdfs3 := { cdfs2 with
          coeff_base_eob := upd3 cdfs2.coeff_base_eob txSzCtx ptype cb_ctx r2.cdf }
        let level := r2.sym + 1
        if level < 1 ∨ 3 < level then ⟨false, r2.sd, cdfs3, cctx, st, false⟩
        else
          let st := coeffs_base_eob_stats stp st plane block_index tx_index
            cb_ctx level
          if plane ≠ 0 ∧ ¬probe_try_exit_symbol then
            ⟨true, r2.sd, cdfs3, cctx, st, true⟩
          else if ¬probe_try_exit_symbol ∧ stp ∧ plane = 0 ∧ block_index = 1 ∧
              tx_index = 0 ∧ eob ≤ 1 then
            ⟨true, r2.sd, cdfs3, cctx, st, true⟩
          else if 19 ≤ tx_size then ⟨false, r2.sd, cdfs3, cctx, st, false⟩
          else
            decode_coeffs_base_stage r2.sd cdfs3 cctx plane block_index tx_index
              x4 y4 tx_size tx_type level eob probe_try_exit_symbol stp st

/-- The non-skipped tail of `decode_coeffs_luma_one_tx_block`
(av1_decode_tile.c): everything after the `all_zero == 0` decision, from
the eob_pt read to the context-span update. -/
def decode_coeffs_nonzero (sd : Av1SymbolDecoder) (cdfs : Av1TileCoeffCdfs)
    (cctx : Av1TileCoeffCtx)
    (plane block_index tx_index x4 y4 tx_size tx_type : Nat)
    (probe_try_exit_symbol : Bool) (stp : Bool) (st : Av1TileSyntaxProbeStats) :
    CoeffsResult :=
  let ptype := if plane = 0 then 0 else 1
  let txSzCtx := tx_sz_ctx_from_tx_size tx_size
  let w4 := 1 <<< (kTxWidthLog2.getD tx_size 0 - 2)
  let h4 := 1 <<< (kTxHeightLog2.getD tx_size 0 - 2)
  if 19 ≤ tx_size then ⟨false, sd, cdfs, cctx, st, false⟩
  else
    let tx_wlog2 := kTxWidthLog2.getD tx_size 0
    let tx_hlog2 := kTxHeightLog2.getD tx_size 0
    let wcap := min tx_wlog2 5
    let hcap := min tx_hlog2 5
    let eobMultisize := wcap + hcap - 4
    let eob_ctx := if get_tx_class_from_tx_type tx_type = 0 then 0 else 1
    let r1 := av1_symbol_read_symbol sd (eob_pt_cdf cdfs eobMultisize ptype eob_ctx)
      (eob_pt_nsyms eobMultisize)
    if r1.ok = false then ⟨false, r1.sd, cdfs, cctx, st, false⟩
    else
      let cdfs := eob_pt_update cdfs eobMultisize ptype eob_ctx r1.cdf
      let eobPt := r1.sym + 1
      let st := coeffs_eob_pt_stats stp st plane block_index tx_index eob_ctx eobPt
      match decode_eob_value r1.sd cdfs txSzCtx ptype eobPt with
      | (false, sd2, cdfs2, _) => ⟨false, sd2, cdfs2, cctx, st, false⟩
      | (true, sd2, cdfs2, eob) =>
        decode_coeffs_after_eob sd2 cdfs2 cctx plane block_index tx_index x4 y4
          tx_size tx_type eob probe_try_exit_symbol stp st

/-- Translation of `decode_coeffs_luma_one_tx_block` (av1_decode_tile.c).
The C probe-stats pointer `st` is modelled by the flag `stp` (pointer
non-NULL) plus the stats record; the C `coeff_ctx` pointer is always non-NULL
at its call sites and is modelled as always present. -/
def decode_coeffs_luma_one_tx_block (sd : Av1SymbolDecoder)
    (cdfs : Av1TileCoeffCdfs) (cctx : Av1TileCoeffCtx)
    (plane block_index block_r block_c tx_index x4 y4 bw_px bh_px tx_size tx_type : Nat)
    (probe_try_exit_symbol : Bool) (stp : Bool) (st : Av1TileSyntaxProbeStats) :
    CoeffsResult :=
  let ptype := if plane = 0 then 0 else 1
  let txSzCtx := tx_sz_ctx_from_tx_size tx_size
  let w4 := 1 <<< (kTxWidthLog2.getD tx_size 0 - 2)
  let h4 := 1 <<< (kTxHeightLog2.getD tx_size 0 - 2)
  let ctx := txb_skip_ctx cctx plane x4 y4 w4 h4 bw_px bh_px tx_size
  let r0 := av1_symbol_read_symbol sd (cdfs.txb_skip txSzCtx ctx) 2
  if r0.ok = false then ⟨false, r0.sd, cdfs, cctx, st, false⟩
  else
    let all_zero := r0.sym
    let cdfs := { cdfs with txb_skip := upd2 cdfs.txb_skip txSzCtx ctx r0.cdf }
    let st := coeffs_txb_skip_stats stp st plane block_index tx_index block_r block_c
      x4 y4 ctx all_zero
    if all_zero ≠ 0 then ⟨true, r0.sd, cdfs, cctx, st, false⟩
    else
      decode_coeffs_nonzero r0.sd cdfs cctx plane block_index tx_index x4 y4
        tx_size tx_type probe_try_exit_symbol stp st

/-! ## Block syntax decoding (av1_decode_tile.c, `decode_block_stub`) -/

/-- Translation of `Av1TileDecodeParams`.  The fields up to
`probe_try_exit_symbol` are from av1_decode_tile.h; the remaining fields are
used by av1_decode_tile.c but their declaration is not in the header under
`src/` — they are modelled from the spec (§6.3 frame header and tile info:
segmentation, delta-q/lf controls, CDEF, intrabc, per-plane quantizer
deltas). -/
structure Av1TileDecodeParams where
  use_128x128_superblock : Nat := 0
  mono_chrome : Nat := 0
  subsampling_x : Nat := 0
  subsampling_y : Nat := 0
  coded_lossless : Nat := 0
  enable_filter_intra : Nat := 0
  allow_screen_content_tools : Nat := 0
  disable_cdf_update : Nat := 0
  base_q_idx : Nat := 0
  tx_mode : Nat := 0
  reduced_tx_set : Nat := 0
  probe_try_exit_symbol : Bool := false
  segmentation_enabled : Bool := false
  seg_id_pre_skip : Bool := false
  last_active_seg_id : Nat := 0
  seg_feature_enabled_alt_q : Nat → Bool := fun _ => false
  seg_feature_data_alt_q : Nat → Int := fun _ => 0
  delta_q_present : Bool := false
  delta_q_res : Nat := 0
  delta_lf_present : Bool := false
  delta_lf_multi : Bool := false
  delta_lf_res : Nat := 0
  enable_cdef : Bool := false
  cdef_bits : Nat := 0
  allow_intrabc : Bool := false
  delta_q_y_dc : Int := 0
  delta_q_u_dc : Int := 0
  delta_q_u_ac : Int := 0
  delta_q_v_dc : Int := 0
  delta_q_v_ac : Int := 0

/-- Translation of `Av1TileSkipCdfs` (av1_decode_tile.c): the per-tile mutable
mode CDFs, each family a function from its context indices, plus the
`current_qindex` / `delta_lf_state` runtime state. -/
structure Av1TileSkipCdfs where
  skip : Nat → List Nat
  y_mode : Nat → List Nat
  uv_mode_cfl_not_allowed : Nat → List Nat
  uv_mode_cfl_allowed : Nat → List Nat
  angle_delta : Nat → List Nat
  cfl_sign : List Nat
  cfl_alpha : Nat → List Nat
  filter_intra_mode : List Nat
  filter_intra : Nat → List Nat
  palette_y_mode : Nat → Nat → List Nat
  palette_uv_mode : Nat → List Nat
  palette_y_size : Nat → List Nat
  palette_uv_size : Nat → List Nat
  segment_id : Nat → List Nat
  tx8x8 : Nat → List Nat
  tx16x16 : Nat → List Nat
  tx32x32 : Nat → List Nat
  tx64x64 : Nat → List Nat
  intra_tx_type_set1 : Nat → Nat → List Nat
  intra_tx_type_set2 : Nat → Nat → List Nat
  delta_q_abs : List Nat
  delta_lf_abs : List Nat
  delta_lf_multi : Nat → List Nat
  current_qindex : Nat
  delta_lf_state : Nat → Int

/-- Translation of `Av1TileSbProbeState` (av1_decode_tile.c). -/
structure Av1TileSbProbeState where
  sb_origin_r : Nat := 0
  sb_origin_c : Nat := 0
  sb_mi_size : Nat := 0
  read_deltas : Nat := 0
  cdef_seen_mask : Nat := 0
deriving DecidableEq

/-- Translation of `Av1MiSize` (av1_decode_tile.c), one per-MI record. -/
structure Av1MiSize where
  wlog2 : Nat := 0
  hlog2 : Nat := 0
  skip : Nat := 0
  y_mode : Nat := 0
  palette_y_size : Nat := 0
  palette_uv_size : Nat := 0
  segment_id : Nat := 0
deriving DecidableEq

/-- Translation of `mi_index` (av1_decode_tile.c). -/
def mi_index (row col stride : Nat) : Nat := row * stride + col

/-- The common double loop of the `mi_set_*_block` helpers
(av1_decode_tile.c): apply `f` to every in-bounds record of the block. -/
def mi_update_block (g : Nat → Av1MiSize) (mi_rows mi_cols r c wlog2 hlog2 : Nat)
    (f : Av1MiSize → Av1MiSize) : Nat → Av1MiSize :=
  fun idx =>
    let y := idx / mi_cols
    let x := idx % mi_cols
    if r ≤ y ∧ y < r + (1 <<< hlog2) ∧ y < mi_rows ∧
        c ≤ x ∧ x < c + (1 <<< wlog2) ∧ x < mi_cols then
      f (g idx)
    else g idx

/-- Translation of `mi_set_skip_block` (av1_decode_tile.c). -/
def mi_set_skip_block (g : Nat → Av1MiSize) (mi_rows mi_cols r c wlog2 hlog2 skip : Nat) :
    Nat → Av1MiSize :=
  mi_update_block g mi_rows mi_cols r c wlog2 hlog2
    (fun m => { m with skip := if skip ≠ 0 then 1 else 0 })

/-- Translation of `mi_set_y_mode_block` (av1_decode_tile.c). -/
def mi_set_y_mode_block (g : Nat → Av1MiSize) (mi_rows mi_cols r c wlog2 hlog2 y_mode : Nat) :
    Nat → Av1MiSize :=
  mi_update_block g mi_rows mi_cols r c wlog2 hlog2 (fun m => { m with y_mode := y_mode })

/-- Translation of `mi_set_palette_sizes_block` (av1_decode_tile.c): writes
both palette sizes. -/
def mi_set_palette_sizes_block (g : Nat → Av1MiSize)
    (mi_rows mi_cols r c wlog2 hlog2 py puv : Nat) : Nat → Av1MiSize :=
  mi_update_block g mi_rows mi_cols r c wlog2 hlog2
    (fun m => { m with palette_y_size := py, palette_uv_size := puv })

/-- Translation of `mi_set_segment_id_block` (av1_decode_tile.c). -/
def mi_set_segment_id_block (g : Nat → Av1MiSize)
    (mi_rows mi_cols r c wlog2 hlog2 segment_id : Nat) : Nat → Av1MiSize :=
  mi_update_block g mi_rows mi_cols r c wlog2 hlog2
    (fun m => { m with segment_id := segment_id })

/-- Translation of `skip_ctx_from_mi_grid` (av1_decode_tile.c). -/
def skip_ctx_from_mi_grid (g : Nat → Av1MiSize) (mi_rows mi_cols r c : Nat) : Nat :=
  let above := if 0 < r ∧ c < mi_cols then
    (if (g (mi_index (r - 1) c mi_cols)).skip ≠ 0 then 1 else 0) else 0
  let left := if 0 < c ∧ r < mi_rows then
    (if (g (mi_index r (c - 1) mi_cols)).skip ≠ 0 then 1 else 0) else 0
  let ctx := above + left
  if 3 ≤ ctx then 2 else ctx

/-- Translation of `palette_y_ctx_from_mi_grid` (av1_decode_tile.c). -/
def palette_y_ctx_from_mi_grid (g : Nat → Av1MiSize) (mi_rows mi_cols r c : Nat) : Nat :=
  let a := if 0 < r ∧ c < mi_cols then
    (if 0 < (g (mi_index (r - 1) c mi_cols)).palette_y_size then 1 else 0) else 0
  let b := if 0 < c ∧ r < mi_rows then
    (if 0 < (g (mi_index r (c - 1) mi_cols)).palette_y_size then 1 else 0) else 0
  let ctx := a + b
  if 3 ≤ ctx then 2 else ctx

/-- Translation of `segment_id_ctx_from_mi_grid` (av1_decode_tile.c);
unavailable neighbours are `-1`. -/
def segment_id_ctx_from_mi_grid (g : Nat → Av1MiSize) (mi_rows mi_cols r c : Nat) : Nat :=
  if mi_rows ≤ r ∨ mi_cols ≤ c then 0
  else
    let prevUL : Int := if 0 < r ∧ 0 < c then
      ((g (mi_index (r - 1) (c - 1) mi_cols)).segment_id : Int) else -1
    let prevU : Int := if 0 < r then ((g (mi_index (r - 1) c mi_cols)).segment_id : Int) else -1
    let prevL : Int := if 0 < c then ((g (mi_index r (c - 1) mi_cols)).segment_id : Int) else -1
    let ctx : Nat :=
      if prevUL < 0 then 0
      else if prevUL = prevU ∧ prevUL = prevL then 2
      else if prevUL = prevU ∨ prevUL = prevL ∨ prevU = prevL then 1
      else 0
    if 3 ≤ ctx then 2 else ctx

/-- Translation of `segment_id_pred_from_mi_grid` (av1_decode_tile.c). -/
def segment_id_pred_from_mi_grid (g : Nat → Av1MiSize) (mi_rows mi_cols r c : Nat) : Nat :=
  if mi_rows ≤ r ∨ mi_cols ≤ c then 0
  else
    let prevUL : Int := if 0 < r ∧ 0 < c then
      ((g (mi_index (r - 1) (c - 1) mi_cols)).segment_id : Int) else -1
    let prevU : Int := if 0 < r then ((g (mi_index (r - 1) c mi_cols)).segment_id : Int) else -1
    let prevL : Int := if 0 < c then ((g (mi_index r (c - 1) mi_cols)).segment_id : Int) else -1
    let pred : Nat :=
      if prevU = -1 then (if prevL = -1 then 0 else prevL.toNat)
      else if prevL = -1 then prevU.toNat
      else if prevUL = prevU then prevU.toNat else prevL.toNat
    if 8 ≤ pred then 0 else pred

/-- Translation of `neg_deinterleave` (av1_decode_tile.c). -/
def neg_deinterleave (diff ref max : Nat) : Nat :=
  if max = 0 then 0
  else if ref = 0 then diff
  else if max - 1 ≤ ref then max - diff - 1
  else if 2 * ref < max then
    if diff ≤ 2 * ref then
      (if diff % 2 = 1 then ref + ((diff + 1) >>> 1) else ref - (diff >>> 1))
    else diff
  else
    let span := max - ref - 1
    if diff ≤ 2 * span then
      (if diff % 2 = 1 then ref + ((diff + 1) >>> 1) else ref - (diff >>> 1))
    else max - (diff + 1)

/-- Translation of `clip3_i32` (av1_decode_tile.c). -/
def clip3_i32 (lo hi v : Int) : Int := if v < lo then lo else if hi < v then hi else v

/-- Translation of `qindex_for_segment` (av1_decode_tile.c). -/
def qindex_for_segment (params : Av1TileDecodeParams) (segment_id : Nat) : Nat :=
  let q : Int := params.base_q_idx
  let q := if params.segmentation_enabled ∧ segment_id < 8 ∧
      params.seg_feature_enabled_alt_q segment_id then
    q + params.seg_feature_data_alt_q segment_id else q
  (clip3_i32 0 255 q).toNat

/-- Translation of `lossless_for_segment` (av1_decode_tile.c). -/
def lossless_for_segment (params : Av1TileDecodeParams) (segment_id : Nat) : Bool :=
  if qindex_for_segment params segment_id ≠ 0 then false
  else params.delta_q_y_dc = 0 ∧ params.delta_q_u_dc = 0 ∧ params.delta_q_u_ac = 0 ∧
    params.delta_q_v_dc = 0 ∧ params.delta_q_v_ac = 0

/-- Translation of `size_group_from_wlog2_hlog2` (av1_decode_tile.c). -/
def size_group_from_wlog2_hlog2 (wlog2 hlog2 : Nat) : Nat :=
  if (wlog2 = 0 ∧ hlog2 = 0) ∨ (wlog2 = 0 ∧ hlog2 = 1) ∨ (wlog2 = 1 ∧ hlog2 = 0) ∨
      (wlog2 = 0 ∧ hlog2 = 2) ∨ (wlog2 = 2 ∧ hlog2 = 0) then 0
  else if (wlog2 = 1 ∧ hlog2 = 1) ∨ (wlog2 = 1 ∧ hlog2 = 2) ∨ (wlog2 = 2 ∧ hlog2 = 1) ∨
      (wlog2 = 1 ∧ hlog2 = 3) ∨ (wlog2 = 3 ∧ hlog2 = 1) then 1
  else if (wlog2 = 2 ∧ hlog2 = 2) ∨ (wlog2 = 2 ∧ hlog2 = 3) ∨ (wlog2 = 3 ∧ hlog2 = 2) ∨
      (wlog2 = 2 ∧ hlog2 = 4) ∨ (wlog2 = 4 ∧ hlog2 = 2) then 2
  else 3

/-- Translation of `intra_directional_index` (av1_decode_tile.c): directional
modes 1..8 map to 0..7. -/
def intra_directional_index (intra_mode : Nat) : Option Nat :=
  if 1 ≤ intra_mode ∧ intra_mode ≤ 8 then some (intra_mode - 1) else none

/-- Translation of `mi_size_index_from_wlog2_hlog2` (av1_decode_tile.c). -/
def mi_size_index_from_wlog2_hlog2 (wlog2 hlog2 : Nat) : Option Nat :=
  let w_px := (1 <<< wlog2) * 4
  let h_px := (1 <<< hlog2) * 4
  if w_px = 4 ∧ h_px = 4 then some 0
  else if w_px = 4 ∧ h_px = 8 then some 1
  else if w_px = 8 ∧ h_px = 4 then some 2
  else if w_px = 8 ∧ h_px = 8 then some 3
  else if w_px = 8 ∧ h_px = 16 then some 4
  else if w_px = 16 ∧ h_px = 8 then some 5
  else if w_px = 16 ∧ h_px = 16 then some 6
  else if w_px = 16 ∧ h_px = 32 then some 7
  else if w_px = 32 ∧ h_px = 16 then some 8
  else if w_px = 32 ∧ h_px = 32 then some 9
  else if w_px = 32 ∧ h_px = 64 then some 10
  else if w_px = 64 ∧ h_px = 32 then some 11
  else if w_px = 64 ∧ h_px = 64 then some 12
  else if w_px = 64 ∧ h_px = 128 then some 13
  else if w_px = 128 ∧ h_px = 64 then some 14
  else if w_px = 128 ∧ h_px = 128 then some 15
  else if w_px = 4 ∧ h_px = 16 then some 16
  else if w_px = 16 ∧ h_px = 4 then some 17
  else if w_px = 8 ∧ h_px = 32 then some 18
  else if w_px = 32 ∧ h_px = 8 then some 19
  else if w_px = 16 ∧ h_px = 64 then some 20
  else if w_px = 64 ∧ h_px = 16 then some 21
  else none

/-- Translation of `kMaxTxSizeRect` (av1_decode_tile.c,
`max_tx_size_rect_from_mi_size`). -/
def kMaxTxSizeRect : List Nat :=
  [0, 5, 6, 1, 7, 8, 2, 9, 10, 3, 11, 12, 4, 4, 4, 4, 13, 14, 15, 16, 17, 18]

/-- Translation of `max_tx_size_rect_from_mi_size` (av1_decode_tile.c). -/
def max_tx_size_rect_from_mi_size (mi_size : Nat) : Option Nat :=
  if 22 ≤ mi_size then none else some (kMaxTxSizeRect.getD mi_size 0)

/-- Translation of `max_tx_depth_from_mi_size` (av1_decode_tile.c). -/
def max_tx_depth_from_mi_size (mi_size : Nat) : Nat :=
  if 22 ≤ mi_size then 0
  else [0, 1, 1, 1, 2, 2, 2, 3, 3, 3, 4, 4, 4, 4, 4, 4, 2, 2, 3, 3, 4, 4].getD mi_size 0

/-- Translation of `kSplitTxSize` (av1_decode_tile.c, `split_tx_size`). -/
def kSplitTxSize : List Nat := [0, 0, 1, 2, 3, 0, 0, 1, 1, 2, 2, 3, 3, 5, 6, 7, 8, 9, 10]

/-- Translation of `split_tx_size` (av1_decode_tile.c). -/
def split_tx_size (tx_size : Nat) : Option Nat :=
  if 19 ≤ tx_size then none else some (kSplitTxSize.getD tx_size 0)

/-- Translation of `get_plane_residual_mi_size` (av1_decode_tile.c). -/
def get_plane_residual_mi_size (luma_wlog2 luma_hlog2 plane subx suby : Nat) : Option Nat :=
  if plane = 0 then mi_size_index_from_wlog2_hlog2 luma_wlog2 luma_hlog2
  else
    let wlog2 := if subx < luma_wlog2 then luma_wlog2 - subx else 0
    let hlog2 := if suby < luma_hlog2 then luma_hlog2 - suby else 0
    mi_size_index_from_wlog2_hlog2 wlog2 hlog2

/-- Translation of `get_tx_size_for_plane` (av1_decode_tile.c). -/
def get_tx_size_for_plane (plane tx_size luma_wlog2 luma_hlog2 subx suby : Nat) :
    Option Nat :=
  if 19 ≤ tx_size then none
  else if plane = 0 then some tx_size
  else
    match get_plane_residual_mi_size luma_wlog2 luma_hlog2 plane subx suby with
    | none => none
    | some residual_mi_size =>
      match max_tx_size_rect_from_mi_size residual_mi_size with
      | none => none
      | some uvTx =>
        if 19 ≤ uvTx then none
        else
          let w_px := 2 ^ (kTxWidthLog2.getD uvTx 0)
          let h_px := 2 ^ (kTxHeightLog2.getD uvTx 0)
          if w_px = 64 ∨ h_px = 64 then
            if w_px = 16 then some 9
            else if h_px = 16 then some 10
            else some 3
          else some uvTx

/-- Translation of `is_tx_type_in_set_intra` (av1_decode_tile.c). -/
def is_tx_type_in_set_intra (tx_set tx_type : Nat) : Bool :=
  if tx_set = 0 then tx_type = 1
  else if tx_set = 2 then tx_type ≠ 2 ∧ tx_type ≠ 3
  else true

/-- Translation of `decode_cfl_alphas` (av1_decode_tile.c).  Returns ok,
decoder, mode CDFs, `cfl_alpha_signs`, `alpha_u`, `alpha_v`. -/
def decode_cfl_alphas (sd : Av1SymbolDecoder) (mc : Av1TileSkipCdfs) :
    Bool × Av1SymbolDecoder × Av1TileSkipCdfs × Nat × Int × Int :=
  let r := av1_symbol_read_symbol sd mc.cfl_sign 8
  if r.ok = false then (false, r.sd, mc, 0, 0, 0)
  else
    let mc := { mc with cfl_sign := r.cdf }
    let signs := r.sym
    let signU := (signs + 1) / 3
    let signV := (signs + 1) % 3
    let resU : Bool × Av1SymbolDecoder × Av1TileSkipCdfs × Int :=
      if signU ≠ 0 then
        if signs < 2 then (false, r.sd, mc, 0)
        else
          let ctx_u := signs - 2
          if 6 ≤ ctx_u then (false, r.sd, mc, 0)
          else
            let ru := av1_symbol_read_symbol r.sd (mc.cfl_alpha ctx_u) 16
            if ru.ok = false then (false, ru.sd, mc, 0)
            else
              let mc1 := { mc with cfl_alpha := upd1 mc.cfl_alpha ctx_u ru.cdf }
              let a : Int := 1 + ru.sym
              (true, ru.sd, mc1, if signU = 2 then -a else a)
      else (true, r.sd, mc, 0)
    if resU.1 = false then (false, resU.2.1, resU.2.2.1, 0, 0, 0)
    else
      let sd1 := resU.2.1
      let mc1 := resU.2.2.1
      let alpha_u := resU.2.2.2
      if signV ≠ 0 then
        let ctx_v? : Option Nat :=
          if signs = 0 then some 0
          else if signs = 1 then some 3
          else if signs = 3 then some 1
          else if signs = 4 then some 4
          else if signs = 6 then some 2
          else if signs = 7 then some 5
          else none
        match ctx_v? with
        | none => (false, sd1, mc1, 0, 0, 0)
        | some ctx_v =>
          if 6 ≤ ctx_v then (false, sd1, mc1, 0, 0, 0)
          else
            let rv := av1_symbol_read_symbol sd1 (mc1.cfl_alpha ctx_v) 16
            if rv.ok = false then (false, rv.sd, mc1, 0, 0, 0)
            else
              let mc2 := { mc1 with cfl_alpha := upd1 mc1.cfl_alpha ctx_v rv.cdf }
              let a : Int := 1 + rv.sym
              (true, rv.sd, mc2, signs, alpha_u, if signV = 2 then -a else a)
      else (true, sd1, mc1, signs, alpha_u, 0)

/-- Translation of `tile_read_intra_segment_id` (av1_decode_tile.c).  Returns
ok, decoder, mode CDFs, MI grid. -/
def tile_read_intra_segment_id (sd : Av1SymbolDecoder) (params : Av1TileDecodeParams)
    (mc : Av1TileSkipCdfs) (mi_grid : Nat → Av1MiSize)
    (mi_rows mi_cols r c wlog2 hlog2 skip : Nat) :
    Bool × Av1SymbolDecoder × Av1TileSkipCdfs × (Nat → Av1MiSize) :=
  let base : Bool × Av1SymbolDecoder × Av1TileSkipCdfs × Nat :=
    if params.segmentation_enabled then
      let pred := segment_id_pred_from_mi_grid mi_grid mi_rows mi_cols r c
      if skip ≠ 0 then (true, sd, mc, pred)
      else
        let ctx := segment_id_ctx_from_mi_grid mi_grid mi_rows mi_cols r c
        let m0 := params.last_active_seg_id + 1
        let m1 := if m0 = 0 then 1 else m0
        let m := if 8 < m1 then 8 else m1
        if 1 < m then
          let r1 := av1_symbol_read_symbol sd (mc.segment_id ctx) m
          if r1.ok = false then (false, r1.sd, mc, 0)
          else
            let mc1 := { mc with segment_id := upd1 mc.segment_id ctx r1.cdf }
            (true, r1.sd, mc1, neg_deinterleave r1.sym pred m)
        else (true, sd, mc, neg_deinterleave 0 pred m)
    else (true, sd, mc, 0)
  if base.1 = false then (false, base.2.1, base.2.2.1, mi_grid)
  else
    let segment_id := base.2.2.2
    if 8 ≤ segment_id then (false, base.2.1, base.2.2.1, mi_grid)
    else
      (true, base.2.1, base.2.2.1,
        mi_set_segment_id_block mi_grid mi_rows mi_cols r c wlog2 hlog2 segment_id)

/-- Translation of `tile_read_delta_qindex` (av1_decode_tile.c). -/
def tile_read_delta_qindex (sd : Av1SymbolDecoder) (params : Av1TileDecodeParams)
    (mc : Av1TileSkipCdfs) (mi_is_sb : Bool) (skip : Nat) :
    Bool × Av1SymbolDecoder × Av1TileSkipCdfs :=
  if mi_is_sb ∧ skip ≠ 0 then (true, sd, mc)
  else
    let r := av1_symbol_read_symbol sd mc.delta_q_abs 4
    if r.ok = false then (false, r.sd, mc)
    else
      let mc := { mc with delta_q_abs := r.cdf }
      let absRes : Bool × Av1SymbolDecoder × Nat :=
        if r.sym = 3 then
          let rb := av1_symbol_read_literal r.sd 3
          if rb.1 = false then (false, rb.2.1, 0)
          else
            let nbits := rb.2.2 + 1
            let ra := av1_symbol_read_literal rb.2.1 nbits
            if ra.1 = false then (false, ra.2.1, 0)
            else (true, ra.2.1, ra.2.2 + (1 <<< nbits) + 1)
        else (true, r.sd, r.sym)
      if absRes.1 = false then (false, absRes.2.1, mc)
      else
        let delta_q_abs := absRes.2.2
        if delta_q_abs ≠ 0 then
          let rs := av1_symbol_read_literal absRes.2.1 1
          if rs.1 = false then (false, rs.2.1, mc)
          else
            let reduced : Int := if rs.2.2 ≠ 0 then -(delta_q_abs : Int) else delta_q_abs
            let scale : Int := if params.delta_q_res < 31 then 2 ^ params.delta_q_res else 1
            let next := clip3_i32 1 255 ((mc.current_qindex : Int) + reduced * scale)
            (true, rs.2.1, { mc with current_qindex := next.toNat })
        else (true, absRes.2.1, mc)

/-- Loop body of `tile_read_delta_lf` (av1_decode_tile.c): one
`delta_lf_abs` read plus small-magnitude extension for plane index `i`. -/
def tile_read_delta_lf_one (sd : Av1SymbolDecoder) (params : Av1TileDecodeParams)
    (mc : Av1TileSkipCdfs) (i : Nat) : Bool × Av1SymbolDecoder × Av1TileSkipCdfs :=
  let cdf := if params.delta_lf_multi then mc.delta_lf_multi i else mc.delta_lf_abs
  let r := av1_symbol_read_symbol sd cdf 4
  if r.ok = false then (false, r.sd, mc)
  else
    let mc :=
      if params.delta_lf_multi then { mc with delta_lf_multi := upd1 mc.delta_lf_multi i r.cdf }
      else { mc with delta_lf_abs := r.cdf }
    let absRes : Bool × Av1SymbolDecoder × Nat :=
      if r.sym = 3 then
        let rb := av1_symbol_read_literal r.sd 3
        if rb.1 = false then (false, rb.2.1, 0)
        else
          let nbits := rb.2.2 + 1
          let ra := av1_symbol_read_literal rb.2.1 nbits
          if ra.1 = false then (false, ra.2.1, 0)
          else (true, ra.2.1, ra.2.2 + (1 <<< nbits) + 1)
      else (true, r.sd, r.sym)
    if absRes.1 = false then (false, absRes.2.1, mc)
    else
      let delta_lf_abs := absRes.2.2
      if delta_lf_abs ≠ 0 then
        let rs := av1_symbol_read_literal absRes.2.1 1
        if rs.1 = false then (false, rs.2.1, mc)
        else
          let reduced : Int := if rs.2.2 ≠ 0 then -(delta_lf_abs : Int) else delta_lf_abs
          let scale : Int := if params.delta_lf_res < 31 then 2 ^ params.delta_lf_res else 1
          let next := clip3_i32 (-63) 63 (mc.delta_lf_state i + reduced * scale)
          (true, rs.2.1,
            { mc with delta_lf_state := fun j => if j = i then next else mc.delta_lf_state j })
      else (true, absRes.2.1, mc)

/-- The `frame_lf_count` loop of `tile_read_delta_lf` (av1_decode_tile.c). -/
def tile_read_delta_lf_loop (sd : Av1SymbolDecoder) (params : Av1TileDecodeParams)
    (mc : Av1TileSkipCdfs) (i : Nat) : Nat → Bool × Av1SymbolDecoder × Av1TileSkipCdfs
  | 0 => (true, sd, mc)
  | k+1 =>
    let r := tile_read_delta_lf_one sd params mc i
    if r.1 = false then (false, r.2.1, r.2.2)
    else tile_read_delta_lf_loop r.2.1 params r.2.2 (i + 1) k

/-- Translation of `tile_read_delta_lf` (av1_decode_tile.c). -/
def tile_read_delta_lf (sd : Av1SymbolDecoder) (params : Av1TileDecodeParams)
    (mc : Av1TileSkipCdfs) (mi_is_sb : Bool) (skip : Nat) :
    Bool × Av1SymbolDecoder × Av1TileSkipCdfs :=
  if mi_is_sb ∧ skip ≠ 0 then (true, sd, mc)
  else if ¬params.delta_lf_present then (true, sd, mc)
  else
    let frame_lf_count :=
      if params.delta_lf_multi then (if params.mono_chrome ≠ 0 then 2 else 4) else 1
    let frame_lf_count := if 4 < frame_lf_count then 4 else frame_lf_count
    tile_read_delta_lf_loop sd params mc 0 frame_lf_count

/-- Result of `decode_block_stub` and of its transform-block loops. -/
structure BlockResult where
  ok : Bool
  sd : Av1SymbolDecoder
  mc : Av1TileSkipCdfs
  ccdfs : Av1TileCoeffCdfs
  cctx : Av1TileCoeffCtx
  mi_grid : Nat → Av1MiSize
  sb : Av1TileSbProbeState
  st : Av1TileSyntaxProbeStats
  stop : Bool

/-- The luma transform-block loop of `decode_block_stub`
(av1_decode_tile.c): `fuel` iterations left, current index `tx_index`.  The
`stop` flag of the result models the `goto block_done` on `stop_now`. -/
def luma_tx_loop (sd : Av1SymbolDecoder) (ccdfs : Av1TileCoeffCdfs) (cctx : Av1TileCoeffCtx)
    (stp : Bool) (st : Av1TileSyntaxProbeStats)
    (block_index r c bw_px bh_px tx_size tx_type tx_cols tx_w4 tx_h4 : Nat)
    (probe_try : Bool) (tx_index : Nat) :
    Nat → Bool × Av1SymbolDecoder × Av1TileCoeffCdfs × Av1TileCoeffCtx ×
      Av1TileSyntaxProbeStats × Bool
  | 0 => (true, sd, ccdfs, cctx, st, false)
  | fuel+1 =>
    let tx := if tx_cols = 0 then 0 else tx_index % tx_cols
    let ty := if tx_cols = 0 then 0 else tx_index / tx_cols
    let x4 := c + tx * tx_w4
    let y4 := r + ty * tx_h4
    let res := decode_coeffs_luma_one_tx_block sd ccdfs cctx 0 block_index r c tx_index
      x4 y4 bw_px bh_px tx_size tx_type probe_try stp st
    if res.ok = false then (false, res.sd, res.cdfs, res.cctx, res.st, false)
    else
      let st1 := if stp ∧ block_index = 0 then
        { res.st with block0_tx_blocks_decoded := tx_index + 1 } else res.st
      if res.stop_now then (true, res.sd, res.cdfs, res.cctx, st1, true)
      else
        luma_tx_loop res.sd res.cdfs res.cctx stp st1 block_index r c bw_px bh_px tx_size
          tx_type tx_cols tx_w4 tx_h4 probe_try (tx_index + 1) fuel
termination_by structural n => n

/-- The chroma transform-block loop of `decode_block_stub`
(av1_decode_tile.c): breaks (successfully) on `stop_now` and, in default
probe mode, after the first transform block. -/
def chroma_tx_loop (sd : Av1SymbolDecoder) (ccdfs : Av1TileCoeffCdfs) (cctx : Av1TileCoeffCtx)
    (stp : Bool) (st : Av1TileSyntaxProbeStats)
    (plane block_index r c bw_px bh_px plane_tx_size plane_tx_type tx_cols tx_w4 tx_h4
      base_x4 base_y4 : Nat)
    (probe_try : Bool) (tx_index : Nat) :
    Nat → Bool × Av1SymbolDecoder × Av1TileCoeffCdfs × Av1TileCoeffCtx ×
      Av1TileSyntaxProbeStats
  | 0 => (true, sd, ccdfs, cctx, st)
  | fuel+1 =>
    let tx := if tx_cols = 0 then 0 else tx_index % tx_cols
    let ty := if tx_cols = 0 then 0 else tx_index / tx_cols
    let x4 := base_x4 + tx * tx_w4
    let y4 := base_y4 + ty * tx_h4
    let res := decode_coeffs_luma_one_tx_block sd ccdfs cctx plane block_index r c tx_index
      x4 y4 bw_px bh_px plane_tx_size plane_tx_type probe_try stp st
    if res.ok = false then (false, res.sd, res.cdfs, res.cctx, res.st)
    else if res.stop_now then (true, res.sd, res.cdfs, res.cctx, res.st)
    else if ¬probe_try then (true, res.sd, res.cdfs, res.cctx, res.st)
    else
      chroma_tx_loop res.sd res.cdfs res.cctx stp res.st plane block_index r c bw_px bh_px
        plane_tx_size plane_tx_type tx_cols tx_w4 tx_h4 base_x4 base_y4 probe_try
        (tx_index + 1) fuel
termination_by structural n => n

/-- Translation of `kModeToTxfmUv` (av1_decode_tile.c, `decode_block_stub`). -/
def kModeToTxfmUv : List Nat := [1, 5, 6, 1, 4, 5, 6, 6, 5, 4, 5, 6, 4, 1]

/-- The per-chroma-plane body of the `coeffs()` section of
`decode_block_stub` (av1_decode_tile.c). -/
def decode_block_chroma_plane (sd : Av1SymbolDecoder) (params : Av1TileDecodeParams)
    (ccdfs : Av1TileCoeffCdfs) (cctx : Av1TileCoeffCtx)
    (stp : Bool) (st : Av1TileSyntaxProbeStats)
    (plane block_index r c wlog2 hlog2 tx_size uv_mode : Nat) (block_lossless : Bool) :
    Bool × Av1SymbolDecoder × Av1TileCoeffCdfs × Av1TileCoeffCtx × Av1TileSyntaxProbeStats :=
  let subx := params.subsampling_x
  let suby := params.subsampling_y
  let pwlog2 := if subx < wlog2 then wlog2 - subx else 0
  let phlog2 := if suby < hlog2 then hlog2 - suby else 0
  let bw_px := (1 <<< pwlog2) * 4
  let bh_px := (1 <<< phlog2) * 4
  let bw4 := 1 <<< pwlog2
  let bh4 := 1 <<< phlog2
  match get_tx_size_for_plane plane tx_size wlog2 hlog2 subx suby with
  | none => (false, sd, ccdfs, cctx, st)
  | some plane_tx_size =>
    if 19 ≤ plane_tx_size then (false, sd, ccdfs, cctx, st)
    else
      let plane_tx_type :=
        if ¬block_lossless then
          let t0 := if uv_mode < 14 then kModeToTxfmUv.getD uv_mode 0 else 1
          let set := get_tx_set_intra plane_tx_size params.reduced_tx_set
          if is_tx_type_in_set_intra set t0 then t0 else 1
        else 1
      let tx_w4 := 1 <<< (kTxWidthLog2.getD plane_tx_size 0 - 2)
      let tx_h4 := 1 <<< (kTxHeightLog2.getD plane_tx_size 0 - 2)
      if tx_w4 = 0 ∨ tx_h4 = 0 then (false, sd, ccdfs, cctx, st)
      else if bw4 % tx_w4 ≠ 0 ∨ bh4 % tx_h4 ≠ 0 then (false, sd, ccdfs, cctx, st)
      else
        let tx_cols := bw4 / tx_w4
        let tx_rows := bh4 / tx_h4
        if tx_cols = 0 ∨ tx_rows = 0 then (true, sd, ccdfs, cctx, st)
        else
          let base_x4 := c >>> subx
          let base_y4 := r >>> suby
          let max_plane_tx := if params.probe_try_exit_symbol then tx_cols * tx_rows else 1
          chroma_tx_loop sd ccdfs cctx stp st plane block_index r c bw_px bh_px
            plane_tx_size plane_tx_type tx_cols tx_w4 tx_h4 base_x4 base_y4
            params.probe_try_exit_symbol 0 max_plane_tx

/-- Iterated `split_tx_size` (the `depth_cap` loop of `read_tx_size` in
`decode_block_stub`, av1_decode_tile.c). -/
def apply_split_tx (tx_size : Nat) : Nat → Option Nat
  | 0 => some tx_size
  | k+1 =>
    match split_tx_size tx_size with
    | none => none
    | some t => apply_split_tx t k

/-- The `block_done` label of `decode_block_stub` (av1_decode_tile.c):
bump `blocks_decoded` and derive the caller's stop flag. -/
def block_done (sd : Av1SymbolDecoder) (mc : Av1TileSkipCdfs) (ccdfs : Av1TileCoeffCdfs)
    (cctx : Av1TileCoeffCtx) (mi_grid : Nat → Av1MiSize) (sb : Av1TileSbProbeState)
    (st : Av1TileSyntaxProbeStats) (stp probe_try : Bool) : BlockResult :=
  let st1 := if stp then { st with blocks_decoded := st.blocks_decoded + 1 } else st
  let stop :=
    if probe_try then false
    else if ¬stp then true
    else decide (2 ≤ st1.blocks_decoded)
  ⟨true, sd, mc, ccdfs, cctx, mi_grid, sb, st1, stop⟩

/-- The `coeffs()` sections of `decode_block_stub` (av1_decode_tile.c): luma
transform blocks in raster order, then the chroma planes, then
`block_done`. -/
def decode_block_coeffs (sd : Av1SymbolDecoder) (params : Av1TileDecodeParams)
    (sb : Av1TileSbProbeState) (mc : Av1TileSkipCdfs) (ccdfs : Av1TileCoeffCdfs)
    (cctx : Av1TileCoeffCtx) (mi_grid : Nat → Av1MiSize)
    (r c wlog2 hlog2 : Nat) (stp : Bool) (st : Av1TileSyntaxProbeStats)
    (block_index uv_mode tx_size tx_type : Nat) (block_lossless : Bool) : BlockResult :=
  if 19 ≤ tx_size then ⟨false, sd, mc, ccdfs, cctx, mi_grid, sb, st, false⟩
  else
    let bw_px := (1 <<< wlog2) * 4
    let bh_px := (1 <<< hlog2) * 4
    let bw4 := bw_px >>> 2
    let bh4 := bh_px >>> 2
    let tx_w4 := 1 <<< (kTxWidthLog2.getD tx_size 0 - 2)
    let tx_h4 := 1 <<< (kTxHeightLog2.getD tx_size 0 - 2)
    if tx_w4 = 0 ∨ tx_h4 = 0 then ⟨false, sd, mc, ccdfs, cctx, mi_grid, sb, st, false⟩
    else if bw4 % tx_w4 ≠ 0 ∨ bh4 % tx_h4 ≠ 0 then
      ⟨false, sd, mc, ccdfs, cctx, mi_grid, sb, st, false⟩
    else
      let tx_cols := bw4 / tx_w4
      let tx_rows := bh4 / tx_h4
      let total_tx := tx_cols * tx_rows
      let max_tx0 := 1
      let max_tx1 := if stp ∧ block_index = 0 then (if 2 ≤ total_tx then 2 else total_tx)
        else max_tx0
      let max_tx := if params.probe_try_exit_symbol then total_tx else max_tx1
      let lres := luma_tx_loop sd ccdfs cctx stp st block_index r c bw_px bh_px tx_size
        tx_type tx_cols tx_w4 tx_h4 params.probe_try_exit_symbol 0 max_tx
      if lres.1 = false then
        ⟨false, lres.2.1, mc, lres.2.2.1, lres.2.2.2.1, mi_grid, sb, lres.2.2.2.2.1, false⟩
      else if lres.2.2.2.2.2 then
        block_done lres.2.1 mc lres.2.2.1 lres.2.2.2.1 mi_grid sb lres.2.2.2.2.1 stp
          params.probe_try_exit_symbol
      else if params.mono_chrome ≠ 0 then
        block_done lres.2.1 mc lres.2.2.1 lres.2.2.2.1 mi_grid sb lres.2.2.2.2.1 stp
          params.probe_try_exit_symbol
      else
        let p1 := decode_block_chroma_plane lres.2.1 params lres.2.2.1 lres.2.2.2.1 stp
          lres.2.2.2.2.1 1 block_index r c wlog2 hlog2 tx_size uv_mode block_lossless
        if p1.1 = false then
          ⟨false, p1.2.1, mc, p1.2.2.1, p1.2.2.2.1, mi_grid, sb, p1.2.2.2.2, false⟩
        else
          let p2 := decode_block_chroma_plane p1.2.1 params p1.2.2.1 p1.2.2.2.1 stp
            p1.2.2.2.2 2 block_index r c wlog2 hlog2 tx_size uv_mode block_lossless
          if p2.1 = false then
            ⟨false, p2.2.1, mc, p2.2.2.1, p2.2.2.2.1, mi_grid, sb, p2.2.2.2.2, false⟩
          else
            block_done p2.2.1 mc p2.2.2.1 p2.2.2.2.1 mi_grid sb p2.2.2.2.2 stp
              params.probe_try_exit_symbol

/-- Translation of `kFilterIntraModeToIntraDir` (av1_decode_tile.c). -/
def kFilterIntraModeToIntraDir : List Nat := [0, 1, 2, 6, 0]

/-- Inverse permutation for `intra_tx_type` set 1 (av1_decode_tile.c,
`decode_block_stub`). -/
def kIntraTxTypeSet1Inv : List Nat := [0, 1, 2, 3, 4, 5, 6]

/-- Inverse permutation for `intra_tx_type` set 2 (av1_decode_tile.c,
`decode_block_stub`). -/
def kIntraTxTypeSet2Inv : List Nat := [0, 1, 4, 5, 6]

/-- The `filter_intra_mode_info()`, `read_tx_size` and `transform_type()`
sections of `decode_block_stub` (av1_decode_tile.c), continuing into the
coeffs() sections. -/
def decode_block_filter_tx (sd : Av1SymbolDecoder) (params : Av1TileDecodeParams)
    (sb : Av1TileSbProbeState) (mc : Av1TileSkipCdfs) (ccdfs : Av1TileCoeffCdfs)
    (cctx : Av1TileCoeffCtx) (mi_grid : Nat → Av1MiSize)
    (r c wlog2 hlog2 : Nat) (stp : Bool) (st : Av1TileSyntaxProbeStats)
    (block_index y_mode uv_mode palette_size_y block_qindex : Nat)
    (block_lossless : Bool) : BlockResult :=
  let luma_w_px := (1 <<< wlog2) * 4
  let luma_h_px := (1 <<< hlog2) * 4
  let max_wh := max luma_w_px luma_h_px
  let fi : Bool × Av1SymbolDecoder × Av1TileSkipCdfs × Av1TileSyntaxProbeStats ×
      Bool × Nat × Bool × Nat :=
    if params.enable_filter_intra ≠ 0 ∧ y_mode = 0 ∧ max_wh ≤ 32 ∧ palette_size_y = 0 then
      match mi_size_index_from_wlog2_hlog2 wlog2 hlog2 with
      | none => (false, sd, mc, st, false, 0, false, 0)
      | some mi_size =>
        if 22 ≤ mi_size then (false, sd, mc, st, false, 0, false, 0)
        else
          let rf := av1_symbol_read_symbol sd (mc.filter_intra mi_size) 2
          if rf.ok = false then (false, rf.sd, mc, st, false, 0, false, 0)
          else
            let mc1 := { mc with filter_intra := upd1 mc.filter_intra mi_size rf.cdf }
            let st1 :=
              if stp ∧ ¬st.block0_use_filter_intra_decoded then
                { st with block0_use_filter_intra_decoded := true,
                          block0_use_filter_intra := rf.sym }
              else st
            if rf.sym ≠ 0 then
              let rm := av1_symbol_read_symbol rf.sd mc1.filter_intra_mode 5
              if rm.ok = false then (false, rm.sd, mc1, st1, true, rf.sym, false, 0)
              else
                let mc2 := { mc1 with filter_intra_mode := rm.cdf }
                let st2 :=
                  if stp ∧ ¬st1.block0_filter_intra_mode_decoded then
                    { st1 with block0_filter_intra_mode_decoded := true,
                               block0_filter_intra_mode := rm.sym }
                  else st1
                (true, rm.sd, mc2, st2, true, rf.sym, true, rm.sym)
            else (true, rf.sd, mc1, st1, true, rf.sym, false, 0)
    else (true, sd, mc, st, false, 0, false, 0)
  if fi.1 = false then
    ⟨false, fi.2.1, fi.2.2.1, ccdfs, cctx, mi_grid, sb, fi.2.2.2.1, false⟩
  else
    let sd := fi.2.1
    let mc := fi.2.2.1
    let st := fi.2.2.2.1
    let use_filter_intra_decoded := fi.2.2.2.2.1
    let use_filter_intra := fi.2.2.2.2.2.1
    let filter_intra_mode_decoded := fi.2.2.2.2.2.2.1
    let filter_intra_mode := fi.2.2.2.2.2.2.2
    match mi_size_index_from_wlog2_hlog2 wlog2 hlog2 with
    | none => ⟨false, sd, mc, ccdfs, cctx, mi_grid, sb, st, false⟩
    | some mi_size =>
      let st := if stp then { st with block0_tx_mode := params.tx_mode } else st
      let txRes : Option (Bool × Av1SymbolDecoder × Av1TileSkipCdfs ×
          Av1TileSyntaxProbeStats × Nat) :=
        if block_lossless then some (true, sd, mc, st, 0)
        else
          match max_tx_size_rect_from_mi_size mi_size with
          | none => none
          | some tx_size0 =>
            if params.tx_mode = 2 ∧ 0 < mi_size then
              let max_tx_depth := max_tx_depth_from_mi_size mi_size
              let cdf :=
                if max_tx_depth = 4 then mc.tx64x64 0
                else if max_tx_depth = 3 then mc.tx32x32 0
                else if max_tx_depth = 2 then mc.tx16x16 0
                else mc.tx8x8 0
              let nsyms := if max_tx_depth = 4 ∨ max_tx_depth = 3 ∨ max_tx_depth = 2 then 3
                else 2
              let rt := av1_symbol_read_symbol sd cdf nsyms
              if rt.ok = false then some (false, rt.sd, mc, st, 0)
              else
                let mc1 :=
                  if max_tx_depth = 4 then { mc with tx64x64 := upd1 mc.tx64x64 0 rt.cdf }
                  else if max_tx_depth = 3 then { mc with tx32x32 := upd1 mc.tx32x32 0 rt.cdf }
                  else if max_tx_depth = 2 then { mc with tx16x16 := upd1 mc.tx16x16 0 rt.cdf }
                  else { mc with tx8x8 := upd1 mc.tx8x8 0 rt.cdf }
                let st1 :=
                  if stp ∧ ¬st.block0_tx_depth_decoded then
                    { st with block0_tx_depth_decoded := true, block0_tx_depth := rt.sym }
                  else st
                let depth_cap := if 2 < rt.sym then 2 else rt.sym
                match apply_split_tx tx_size0 depth_cap with
                | none => none
                | some tx_size1 => some (true, rt.sd, mc1, st1, tx_size1)
            else some (true, sd, mc, st, tx_size0)
      match txRes with
      | none => ⟨false, sd, mc, ccdfs, cctx, mi_grid, sb, st, false⟩
      | some txr =>
        if txr.1 = false then
          ⟨false, txr.2.1, txr.2.2.1, ccdfs, cctx, mi_grid, sb, txr.2.2.2.1, false⟩
        else
          let sd := txr.2.1
          let mc := txr.2.2.1
          let st := txr.2.2.2.1
          let tx_size := txr.2.2.2.2
          let st :=
            if stp ∧ ¬st.block0_tx_size_decoded then
              { st with block0_tx_size_decoded := true, block0_tx_size := tx_size }
            else st
          let set := get_tx_set_intra tx_size params.reduced_tx_set
          let txSzSqrUp := if tx_size < 19 then kTxSizeSqrUp.getD tx_size 0 else 0
          let ttRes : Bool × Av1SymbolDecoder × Av1TileSkipCdfs ×
              Av1TileSyntaxProbeStats × Nat :=
            if ¬block_lossless ∧ txSzSqrUp ≤ 3 ∧ set ≠ 0 ∧ 0 < block_qindex then
              let dirOk : Option Nat :=
                if use_filter_intra_decoded ∧ use_filter_intra ≠ 0 then
                  if ¬filter_intra_mode_decoded ∨ 5 ≤ filter_intra_mode then none
                  else some (kFilterIntraModeToIntraDir.getD filter_intra_mode 0)
                else some y_mode
              match dirOk with
              | none => (false, sd, mc, st, 1)
              | some intraDir =>
                if 13 ≤ intraDir then (false, sd, mc, st, 1)
                else
                  let txSzSqr := if tx_size < 19 then kTxSizeSqr.getD tx_size 0 else 0
                  if set = 1 then
                    if 2 ≤ txSzSqr then (false, sd, mc, st, 1)
                    else
                      let rs := av1_symbol_read_symbol sd
                        (mc.intra_tx_type_set1 txSzSqr intraDir) 7
                      if rs.ok = false then (false, rs.sd, mc, st, 1)
                      else
                        let mc1 := { mc with
                          intra_tx_type_set1 := upd2 mc.intra_tx_type_set1 txSzSqr intraDir rs.cdf }
                        if 7 ≤ rs.sym then (false, rs.sd, mc1, st, 1)
                        else
                          let tt := kIntraTxTypeSet1Inv.getD rs.sym 0
                          let st1 :=
                            if stp ∧ ¬st.block0_tx_type_decoded then
                              { st with block0_tx_type_decoded := true,
                                        block0_tx_type := tt }
                            else st
                          (true, rs.sd, mc1, st1, tt)
                  else if set = 2 then
                    if 3 ≤ txSzSqr then (false, sd, mc, st, 1)
                    else
                      let rs := av1_symbol_read_symbol sd
                        (mc.intra_tx_type_set2 txSzSqr intraDir) 5
                      if rs.ok = false then (false, rs.sd, mc, st, 1)
                      else
                        let mc1 := { mc with
                          intra_tx_type_set2 := upd2 mc.intra_tx_type_set2 txSzSqr intraDir rs.cdf }
                        if 5 ≤ rs.sym then (false, rs.sd, mc1, st, 1)
                        else
                          let tt := kIntraTxTypeSet2Inv.getD rs.sym 0
                          let st1 :=
                            if stp ∧ ¬st.block0_tx_type_decoded then
                              { st with block0_tx_type_decoded := true,
                                        block0_tx_type := tt }
                            else st
                          (true, rs.sd, mc1, st1, tt)
                  else
                    let st1 :=
                      if stp ∧ ¬st.block0_tx_type_decoded then
                        { st with block0_tx_type_decoded := true, block0_tx_type := 1 }
                      else st
                    (true, sd, mc, st1, 1)
            else (true, sd, mc, st, 1)
          if ttRes.1 = false then
            ⟨false, ttRes.2.1, ttRes.2.2.1, ccdfs, cctx, mi_grid, sb, ttRes.2.2.2.1, false⟩
          else
            decode_block_coeffs ttRes.2.1 params sb ttRes.2.2.1 ccdfs cctx mi_grid r c
              wlog2 hlog2 stp ttRes.2.2.2.1 block_index uv_mode tx_size ttRes.2.2.2.2
              block_lossless

/-- The chroma half of `palette_mode_info()` in `decode_block_stub`
(av1_decode_tile.c), continuing into the filter-intra / tx sections. -/
def decode_block_palette_uv (sd : Av1SymbolDecoder) (params : Av1TileDecodeParams)
    (sb : Av1TileSbProbeState) (mc : Av1TileSkipCdfs) (ccdfs : Av1TileCoeffCdfs)
    (cctx : Av1TileCoeffCtx) (mi_grid : Nat → Av1MiSize)
    (mi_rows mi_cols r c wlog2 hlog2 : Nat) (stp : Bool) (st : Av1TileSyntaxProbeStats)
    (block_index y_mode uv_mode palette_size_y bsize_ctx block_qindex : Nat)
    (block_lossless : Bool) : BlockResult :=
  if params.mono_chrome = 0 ∧ uv_mode = 0 then
    let ctx := if 0 < palette_size_y then 1 else 0
    let rp := av1_symbol_read_symbol sd (mc.palette_uv_mode ctx) 2
    if rp.ok = false then ⟨false, rp.sd, mc, ccdfs, cctx, mi_grid, sb, st, false⟩
    else
      let mc1 := { mc with palette_uv_mode := upd1 mc.palette_uv_mode ctx rp.cdf }
      let st1 :=
        if stp ∧ ¬st.block0_has_palette_uv_decoded then
          { st with block0_has_palette_uv_decoded := true, block0_has_palette_uv := rp.sym }
        else st
      if rp.sym ≠ 0 then
        let rsz := av1_symbol_read_symbol rp.sd (mc1.palette_uv_size bsize_ctx) 7
        if rsz.ok = false then ⟨false, rsz.sd, mc1, ccdfs, cctx, mi_grid, sb, st1, false⟩
        else
          let mc2 := { mc1 with palette_uv_size := upd1 mc1.palette_uv_size bsize_ctx rsz.cdf }
          let sz := rsz.sym + 2
          let mi_grid1 := mi_set_palette_sizes_block mi_grid mi_rows mi_cols r c wlog2
            hlog2 0 sz
          let st2 :=
            if stp ∧ ¬st1.block0_palette_size_uv_decoded then
              { st1 with block0_palette_size_uv_decoded := true,
                         block0_palette_size_uv := sz }
            else st1
          let st3 := if stp then { st2 with blocks_decoded := st2.blocks_decoded + 1 }
            else st2
          ⟨true, rsz.sd, mc2, ccdfs, cctx, mi_grid1, sb, st3, true⟩
      else
        decode_block_filter_tx rp.sd params sb mc1 ccdfs cctx mi_grid r c wlog2 hlog2 stp
          st1 block_index y_mode uv_mode palette_size_y block_qindex block_lossless
  else
    decode_block_filter_tx sd params sb mc ccdfs cctx mi_grid r c wlog2 hlog2 stp st
      block_index y_mode uv_mode palette_size_y block_qindex block_lossless

/-- The `palette_mode_info()` section of `decode_block_stub`
(av1_decode_tile.c), continuing into the later sections. -/
def decode_block_palette (sd : Av1SymbolDecoder) (params : Av1TileDecodeParams)
    (sb : Av1TileSbProbeState) (mc : Av1TileSkipCdfs) (ccdfs : Av1TileCoeffCdfs)
    (cctx : Av1TileCoeffCtx) (mi_grid : Nat → Av1MiSize)
    (mi_rows mi_cols r c wlog2 hlog2 : Nat) (stp : Bool) (st : Av1TileSyntaxProbeStats)
    (block_index y_mode uv_mode block_qindex : Nat) (block_lossless : Bool) : BlockResult :=
  let luma_w_px := (1 <<< wlog2) * 4
  let luma_h_px := (1 <<< hlog2) * 4
  let mi_ge_8x8 := 1 ≤ wlog2 ∧ 1 ≤ hlog2
  let le_64 := luma_w_px ≤ 64 ∧ luma_h_px ≤ 64
  if params.allow_screen_content_tools ≠ 0 ∧ mi_ge_8x8 ∧ le_64 then
    let b0 := wlog2 + hlog2
    let b1 := if b0 < 2 then 0 else b0 - 2
    let bsize_ctx := if 7 ≤ b1 then 6 else b1
    if y_mode = 0 then
      let ctx := palette_y_ctx_from_mi_grid mi_grid mi_rows mi_cols r c
      let rp := av1_symbol_read_symbol sd (mc.palette_y_mode bsize_ctx ctx) 2
      if rp.ok = false then ⟨false, rp.sd, mc, ccdfs, cctx, mi_grid, sb, st, false⟩
      else
        let mc1 := { mc with palette_y_mode := upd2 mc.palette_y_mode bsize_ctx ctx rp.cdf }
        let st1 :=
          if stp ∧ ¬st.block0_has_palette_y_decoded then
            { st with block0_has_palette_y_decoded := true, block0_has_palette_y := rp.sym }
          else st
        if rp.sym ≠ 0 then
          let rsz := av1_symbol_read_symbol rp.sd (mc1.palette_y_size bsize_ctx) 7
          if rsz.ok = false then ⟨false, rsz.sd, mc1, ccdfs, cctx, mi_grid, sb, st1, false⟩
          else
            let mc2 := { mc1 with palette_y_size := upd1 mc1.palette_y_size bsize_ctx rsz.cdf }
            let sz := rsz.sym + 2
            let mi_grid1 := mi_set_palette_sizes_block mi_grid mi_rows mi_cols r c wlog2
              hlog2 sz 0
            let st2 :=
              if stp ∧ ¬st1.block0_palette_size_y_decoded then
                { st1 with block0_palette_size_y_decoded := true,
                           block0_palette_size_y := sz }
              else st1
            let st3 := if stp then { st2 with blocks_decoded := st2.blocks_decoded + 1 }
              else st2
            ⟨true, rsz.sd, mc2, ccdfs, cctx, mi_grid1, sb, st3, true⟩
        else
          decode_block_palette_uv rp.sd params sb mc1 ccdfs cctx mi_grid mi_rows mi_cols r c
            wlog2 hlog2 stp st1 block_index y_mode uv_mode 0 bsize_ctx block_qindex
            block_lossless
    else
      decode_block_palette_uv sd params sb mc ccdfs cctx mi_grid mi_rows mi_cols r c
        wlog2 hlog2 stp st block_index y_mode uv_mode 0 bsize_ctx block_qindex
        block_lossless
  else
    decode_block_filter_tx sd params sb mc ccdfs cctx mi_grid r c wlog2 hlog2 stp st
      block_index y_mode uv_mode 0 block_qindex block_lossless

/-- Translation of the part of `decode_block_stub` (av1_decode_tile.c) after
the `if (skip) goto block_done;` jump: angle deltas, uv_mode / CFL alphas,
then the palette / filter-intra / tx / coeffs sections. -/
def decode_block_after_skip (sd : Av1SymbolDecoder) (params : Av1TileDecodeParams)
    (sb : Av1TileSbProbeState) (mc : Av1TileSkipCdfs) (ccdfs : Av1TileCoeffCdfs)
    (cctx : Av1TileCoeffCtx) (mi_grid : Nat → Av1MiSize)
    (mi_rows mi_cols r c wlog2 hlog2 : Nat) (stp : Bool) (st : Av1TileSyntaxProbeStats)
    (block_index y_mode block_qindex : Nat) (block_lossless : Bool) : BlockResult :=
  let angY : Bool × Av1SymbolDecoder × Av1TileSkipCdfs × Av1TileSyntaxProbeStats :=
    match intra_directional_index y_mode with
    | some dir =>
      let ra := av1_symbol_read_symbol sd (mc.angle_delta dir) 7
      if ra.ok = false then (false, ra.sd, mc, st)
      else
        let mc1 := { mc with angle_delta := upd1 mc.angle_delta dir ra.cdf }
        let st1 :=
          if stp ∧ ¬st.block0_angle_delta_y_decoded then
            { st with block0_angle_delta_y_decoded := true,
                      block0_angle_delta_y := (ra.sym : Int) - 3 }
          else st
        (true, ra.sd, mc1, st1)
    | none => (true, sd, mc, st)
  if angY.1 = false then
    ⟨false, angY.2.1, angY.2.2.1, ccdfs, cctx, mi_grid, sb, angY.2.2.2, false⟩
  else
    let sd := angY.2.1
    let mc := angY.2.2.1
    let st := angY.2.2.2
    let uvRes : Bool × Av1SymbolDecoder × Av1TileSkipCdfs × Av1TileSyntaxProbeStats ×
        Nat × Bool :=
      if params.mono_chrome = 0 then
        if 13 ≤ y_mode then (false, sd, mc, st, 0, false)
        else
          let luma_w_px := (1 <<< wlog2) * 4
          let luma_h_px := (1 <<< hlog2) * 4
          let cfl_allowed :=
            if block_lossless then
              let cw0 := if params.subsampling_x ≠ 0 then luma_w_px >>> params.subsampling_x
                else luma_w_px
              let ch0 := if params.subsampling_y ≠ 0 then luma_h_px >>> params.subsampling_y
                else luma_h_px
              let cw := if cw0 < 4 then 4 else cw0
              let ch := if ch0 < 4 then 4 else ch0
              cw = 4 ∧ ch = 4
            else max luma_w_px luma_h_px ≤ 32
          let uv_cdf := if cfl_allowed then mc.uv_mode_cfl_allowed y_mode
            else mc.uv_mode_cfl_not_allowed y_mode
          let uv_n := if cfl_allowed then 14 else 13
          let ru := av1_symbol_read_symbol sd uv_cdf uv_n
          if ru.ok = false then (false, ru.sd, mc, st, 0, false)
          else
            let mc1 :=
              if cfl_allowed then
                { mc with uv_mode_cfl_allowed := upd1 mc.uv_mode_cfl_allowed y_mode ru.cdf }
              else
                { mc with
                  uv_mode_cfl_not_allowed := upd1 mc.uv_mode_cfl_not_allowed y_mode ru.cdf }
            let st1 :=
              if stp ∧ ¬st.block0_uv_mode_decoded then
                { st with block0_uv_mode_decoded := true, block0_uv_mode := ru.sym }
              else st
            if cfl_allowed ∧ ru.sym = 13 then
              let rc := decode_cfl_alphas ru.sd mc1
              if rc.1 = false then (false, rc.2.1, rc.2.2.1, st1, ru.sym, cfl_allowed)
              else
                let st2 :=
                  if stp ∧ ¬st1.block0_cfl_alphas_decoded then
                    { st1 with block0_cfl_alphas_decoded := true,
                               block0_cfl_alpha_signs := rc.2.2.2.1,
                               block0_cfl_alpha_u := rc.2.2.2.2.1,
                               block0_cfl_alpha_v := rc.2.2.2.2.2 }
                  else st1
                (true, rc.2.1, rc.2.2.1, st2, ru.sym, cfl_allowed)
            else (true, ru.sd, mc1, st1, ru.sym, cfl_allowed)
      else (true, sd, mc, st, 0, false)
    if uvRes.1 = false then
      ⟨false, uvRes.2.1, uvRes.2.2.1, ccdfs, cctx, mi_grid, sb, uvRes.2.2.2.1, false⟩
    else
      let sd := uvRes.2.1
      let mc := uvRes.2.2.1
      let st := uvRes.2.2.2.1
      let uv_mode := uvRes.2.2.2.2.1
      let angUV : Bool × Av1SymbolDecoder × Av1TileSkipCdfs × Av1TileSyntaxProbeStats :=
        if params.mono_chrome = 0 then
          match intra_directional_index uv_mode with
          | some dir =>
            let ra := av1_symbol_read_symbol sd (mc.angle_delta dir) 7
            if ra.ok = false then (false, ra.sd, mc, st)
            else
              let mc1 := { mc with angle_delta := upd1 mc.angle_delta dir ra.cdf }
              let st1 :=
                if stp ∧ ¬st.block0_angle_delta_uv_decoded then
                  { st with block0_angle_delta_uv_decoded := true,
                            block0_angle_delta_uv := (ra.sym : Int) - 3 }
                else st
              (true, ra.sd, mc1, st1)
          | none => (true, sd, mc, st)
        else (true, sd, mc, st)
      if angUV.1 = false then
        ⟨false, angUV.2.1, angUV.2.2.1, ccdfs, cctx, mi_grid, sb, angUV.2.2.2, false⟩
      else
        decode_block_palette angUV.2.1 params sb angUV.2.2.1 ccdfs cctx mi_grid mi_rows
          mi_cols r c wlog2 hlog2 stp angUV.2.2.2 block_index y_mode uv_mode block_qindex
          block_lossless

/-- Translation of `decode_block_stub` (av1_decode_tile.c), the per-leaf
block syntax decoder.  `sbp` models the C `sb` pointer being non-NULL, `stp`
the `st` probe-stats pointer being non-NULL. -/
def decode_block_stub (sd : Av1SymbolDecoder) (params : Av1TileDecodeParams)
    (sbp : Bool) (sb : Av1TileSbProbeState) (mc : Av1TileSkipCdfs)
    (ccdfs : Av1TileCoeffCdfs) (cctx : Av1TileCoeffCtx) (mi_grid : Nat → Av1MiSize)
    (mi_rows mi_cols r c wlog2 hlog2 : Nat) (stp : Bool)
    (st : Av1TileSyntaxProbeStats) : BlockResult :=
  let block_index := if stp then st.blocks_decoded else 0
  let preSeg :=
    if params.probe_try_exit_symbol ∧ params.segmentation_enabled ∧ params.seg_id_pre_skip then
      tile_read_intra_segment_id sd params mc mi_grid mi_rows mi_cols r c wlog2 hlog2 0
    else (true, sd, mc, mi_grid)
  if preSeg.1 = false then
    ⟨false, preSeg.2.1, preSeg.2.2.1, ccdfs, cctx, preSeg.2.2.2, sb, st, false⟩
  else
    let sd := preSeg.2.1
    let mc := preSeg.2.2.1
    let mi_grid := preSeg.2.2.2
    let skip_ctx := skip_ctx_from_mi_grid mi_grid mi_rows mi_cols r c
    let rskip := av1_symbol_read_symbol sd (mc.skip skip_ctx) 2
    if rskip.ok = false then ⟨false, rskip.sd, mc, ccdfs, cctx, mi_grid, sb, st, false⟩
    else
      let skip := rskip.sym
      let mc := { mc with skip := upd1 mc.skip skip_ctx rskip.cdf }
      let mi_grid := mi_set_skip_block mi_grid mi_rows mi_cols r c wlog2 hlog2 skip
      let st :=
        if stp ∧ ¬st.block0_skip_decoded then
          { st with block0_skip_decoded := true, block0_r_mi := r, block0_c_mi := c,
                    block0_wlog2 := wlog2, block0_hlog2 := hlog2,
                    block0_skip_ctx := skip_ctx, block0_skip := skip }
        else st
      let postSeg :=
        if params.probe_try_exit_symbol ∧ params.segmentation_enabled ∧
            ¬params.seg_id_pre_skip then
          tile_read_intra_segment_id rskip.sd params mc mi_grid mi_rows mi_cols r c
            wlog2 hlog2 skip
        else (true, rskip.sd, mc, mi_grid)
      if postSeg.1 = false then
        ⟨false, postSeg.2.1, postSeg.2.2.1, ccdfs, cctx, postSeg.2.2.2, sb, st, false⟩
      else
        let sd := postSeg.2.1
        let mc := postSeg.2.2.1
        let mi_grid := postSeg.2.2.2
        if params.probe_try_exit_symbol ∧ params.allow_intrabc then
          ⟨true, sd, mc, ccdfs, cctx, mi_grid, sb, st, true⟩
        else
          let segment_id :=
            if params.probe_try_exit_symbol ∧ params.segmentation_enabled ∧
                r < mi_rows ∧ c < mi_cols then
              let s0 := (mi_grid (mi_index r c mi_cols)).segment_id
              if 8 ≤ s0 then 0 else s0
            else 0
          let block_qindex :=
            if params.probe_try_exit_symbol then qindex_for_segment params segment_id
            else params.base_q_idx
          let block_lossless :=
            if params.probe_try_exit_symbol then lossless_for_segment params segment_id
            else params.coded_lossless ≠ 0
          let cdefRes : Bool × Av1SymbolDecoder × Av1TileSbProbeState :=
            if params.probe_try_exit_symbol then
              if sbp ∧ skip = 0 ∧ ¬block_lossless ∧ params.enable_cdef ∧
                  0 < params.cdef_bits then
                let rr := r - r % 16
                let cc := c - c % 16
                let r_idx :=
                  if sb.sb_mi_size = 32 then
                    let dr := if sb.sb_origin_r ≤ rr then rr - sb.sb_origin_r else 0
                    min (dr >>> 4) 1
                  else 0
                let c_idx :=
                  if sb.sb_mi_size = 32 then
                    let dc := if sb.sb_origin_c ≤ cc then cc - sb.sb_origin_c else 0
                    min (dc >>> 4) 1
                  else 0
                let region := (r_idx <<< 1) ||| c_idx
                let bit := 1 <<< region
                if sb.cdef_seen_mask &&& bit = 0 then
                  let rl := av1_symbol_read_literal sd params.cdef_bits
                  if rl.1 = false then (false, rl.2.1, sb)
                  else (true, rl.2.1, { sb with cdef_seen_mask := sb.cdef_seen_mask ||| bit })
                else (true, sd, sb)
              else (true, sd, sb)
            else (true, sd, sb)
          if cdefRes.1 = false then
            ⟨false, cdefRes.2.1, mc, ccdfs, cctx, mi_grid, cdefRes.2.2, st, false⟩
          else
            let sd := cdefRes.2.1
            let sb := cdefRes.2.2
            let deltaRes : Bool × Av1SymbolDecoder × Av1TileSkipCdfs :=
              if params.probe_try_exit_symbol ∧ sbp ∧ sb.read_deltas ≠ 0 ∧
                  params.delta_q_present then
                let bw4 := 1 <<< wlog2
                let bh4 := 1 <<< hlog2
                let mi_is_sb := bw4 = sb.sb_mi_size ∧ bh4 = sb.sb_mi_size
                let rq := tile_read_delta_qindex sd params mc mi_is_sb skip
                if rq.1 = false then (false, rq.2.1, rq.2.2)
                else
                  let rl := tile_read_delta_lf rq.2.1 params rq.2.2 mi_is_sb skip
                  if rl.1 = false then (false, rl.2.1, rl.2.2)
                  else (true, rl.2.1, rl.2.2)
              else (true, sd, mc)
            if deltaRes.1 = false then
              ⟨false, deltaRes.2.1, deltaRes.2.2, ccdfs, cctx, mi_grid, sb, st, false⟩
            else
              let sd := deltaRes.2.1
              let mc := deltaRes.2.2
              let sb := if params.probe_try_exit_symbol ∧ sbp then
                { sb with read_deltas := 0 } else sb
              let y_mode_ctx0 := size_group_from_wlog2_hlog2 wlog2 hlog2
              let y_mode_ctx := if 4 ≤ y_mode_ctx0 then 3 else y_mode_ctx0
              let ry := av1_symbol_read_symbol sd (mc.y_mode y_mode_ctx) 13
              if ry.ok = false then ⟨false, ry.sd, mc, ccdfs, cctx, mi_grid, sb, st, false⟩
              else
                let y_mode := ry.sym
                let mc := { mc with y_mode := upd1 mc.y_mode y_mode_ctx ry.cdf }
                let mi_grid := mi_set_y_mode_block mi_grid mi_rows mi_cols r c wlog2 hlog2 y_mode
                let st :=
                  if stp ∧ ¬st.block0_y_mode_decoded then
                    { st with block0_y_mode_decoded := true, block0_y_mode_ctx := y_mode_ctx,
                              block0_y_mode := y_mode }
                  else st
                if skip ≠ 0 then
                  block_done ry.sd mc ccdfs cctx mi_grid sb st stp params.probe_try_exit_symbol
                else
                  decode_block_after_skip ry.sd params sb mc ccdfs cctx mi_grid mi_rows
                    mi_cols r c wlog2 hlog2 stp st block_index y_mode block_qindex
                    block_lossless

/-! ## Concrete fixtures used by the counterexamples and witnesses -/

/-- A well-formed `n`-symbol CDF with (near-)uniform mass: `cdf[n-1] = 1<<15`
and a zero adaptation count. -/
def uniform_cdf (n : Nat) : List Nat :=
  (List.range n).map (fun i => (i + 1) * 32768 / n) ++ [0]

/-- A CDF whose first entry is 0, so symbol 0 is never decoded (the first
threshold exceeds every possible `symbol_value`); used to force txb_skip = 1
in test runs. -/
def one_cdf2 : List Nat := [0, 32768, 0]

/-- Test mode-CDF set: every family is a fresh well-formed CDF of the arity
the decoder reads it with. -/
def test_mc : Av1TileSkipCdfs :=
  { skip := fun _ => uniform_cdf 2
    y_mode := fun _ => uniform_cdf 13
    uv_mode_cfl_not_allowed := fun _ => uniform_cdf 13
    uv_mode_cfl_allowed := fun _ => uniform_cdf 14
    angle_delta := fun _ => uniform_cdf 7
    cfl_sign := uniform_cdf 8
    cfl_alpha := fun _ => uniform_cdf 16
    filter_intra_mode := uniform_cdf 5
    filter_intra := fun _ => uniform_cdf 2
    palette_y_mode := fun _ _ => uniform_cdf 2
    palette_uv_mode := fun _ => uniform_cdf 2
    palette_y_size := fun _ => uniform_cdf 7
    palette_uv_size := fun _ => uniform_cdf 7
    segment_id := fun _ => uniform_cdf 8
    tx8x8 := fun _ => uniform_cdf 2
    tx16x16 := fun _ => uniform_cdf 3
    tx32x32 := fun _ => uniform_cdf 3
    tx64x64 := fun _ => uniform_cdf 3
    intra_tx_type_set1 := fun _ _ => uniform_cdf 7
    intra_tx_type_set2 := fun _ _ => uniform_cdf 5
    delta_q_abs := uniform_cdf 4
    delta_lf_abs := uniform_cdf 4
    delta_lf_multi := fun _ => uniform_cdf 4
    current_qindex := 0
    delta_lf_state := fun _ => 0 }

/-- Test coefficient-CDF set; `txb_skip` is biased so all_zero decodes 1. -/
def test_ccdfs : Av1TileCoeffCdfs :=
  { txb_skip := fun _ _ => one_cdf2
    eob_pt_16 := fun _ _ => uniform_cdf 5
    eob_pt_32 := fun _ _ => uniform_cdf 6
    eob_pt_64 := fun _ _ => uniform_cdf 7
    eob_pt_128 := fun _ _ => uniform_cdf 8
    eob_pt_256 := fun _ _ => uniform_cdf 9
    eob_pt_512 := fun _ => uniform_cdf 10
    eob_pt_1024 := fun _ => uniform_cdf 11
    eob_extra := fun _ _ _ => uniform_cdf 2
    coeff_base_eob := fun _ _ _ => uniform_cdf 3
    coeff_base := fun _ _ _ => uniform_cdf 4
    coeff_br := fun _ _ _ => uniform_cdf 4
    dc_sign := fun _ _ => uniform_cdf 2 }

/-- Test coefficient context for a single-plane (monochrome) 2x2-MI tile,
with one non-zero `above_level` entry. -/
def test_cctx : Av1TileCoeffCtx :=
  { above_level := fun p x => if p = 0 ∧ x = 0 then 5 else 0
    left_level := fun _ _ => 0
    above_dc := fun _ _ => 0
    left_dc := fun _ _ => 0
    cols := fun p => if p = 0 then 2 else 0
    rows := fun p => if p = 0 then 2 else 0
    has_above := fun p => p = 0
    has_left := fun p => p = 0 }

/-- Test decode parameters: default probe mode, monochrome,
`tx_mode = TX_MODE_SELECT`. -/
def test_params : Av1TileDecodeParams :=
  { mono_chrome := 1, tx_mode := 2 }

/-! ## Theorems.  Helper lemmas first, then one theorem per claim. -/

theorem floor_log2_go_eq_log2 (fuel : Nat) :
    ∀ n : Nat, n < 2 ^ fuel → floor_log2_go fuel n = Nat.log2 n := by
  induction fuel with
  | zero =>
    intro n h
    have h1 : (2:Nat) ^ 0 = 1 := rfl
    have hn : n = 0 := by omega
    subst hn
    rw [Nat.log2]
    norm_num
    rfl
  | succ fuel ih =>
    intro n h
    have h2 : n / 2 < 2 ^ fuel := by
      rw [pow_succ] at h
      omega
    rw [floor_log2_go, Nat.log2]
    split
    · rw [ih (n / 2) h2]
    · rfl

theorem floor_log2_u32_eq_log2 (n : Nat) (h32 : n < 4294967296) :
    floor_log2_u32 n = Nat.log2 n := by
  have h : n < 2 ^ 32 := by norm_num; omega
  exact floor_log2_go_eq_log2 32 n h

theorem floor_log2_u32_le {n : Nat} (h : n ≠ 0) (h32 : n < 4294967296) :
    2 ^ floor_log2_u32 n ≤ n := by
  rw [floor_log2_u32_eq_log2 n h32]
  exact Nat.log2_self_le h

theorem lt_floor_log2_u32 (n : Nat) (h32 : n < 4294967296) :
    n < 2 ^ (floor_log2_u32 n + 1) := by
  rw [floor_log2_u32_eq_log2 n h32]
  exact Nat.lt_log2_self

theorem shiftLeft_one_or {v b : Nat} (hb : b ≤ 1) : (v <<< 1) ||| b = 2 * v + b := by
  rw [Nat.shiftLeft_eq, Nat.pow_one, Nat.mul_comm]
  have := (Nat.mul_add_lt_is_or (a := v) (b := b) (i := 1) (by omega)).symm
  simpa [Nat.pow_one] using this

theorem and_one_le_one (x : Nat) : x &&& 1 ≤ 1 := by
  have := Nat.and_le_right (n := x) (m := 1)
  omega

/-- Success, final position and value of the bit-reading loop when enough
bits remain. -/
theorem br_read_bits_loop_ok (k : Nat) :
    ∀ (br : Av1BitReader) (v : Nat), br.bitpos + k ≤ 8 * br.data.length →
      br_read_bits_loop br v k =
        (true, v * 2 ^ k + bits_at br.data br.bitpos k,
          { br with bitpos := br.bitpos + k }) := by
  induction k with
  | zero => intro br v h; simp [br_read_bits_loop, bits_at]
  | succ k ih =>
    intro br v h
    rw [br_read_bits_loop, br_read_bit]
    rw [if_neg (by omega)]
    simp only []
    rw [ih { br with bitpos := br.bitpos + 1 } _ (by simp; omega)]
    rw [shiftLeft_one_or (and_one_le_one _)]
    refine Prod.ext rfl (Prod.ext ?_ ?_)
    · show (2 * v + (br.data.getD (br.bitpos / 8) 0 >>> (7 - br.bitpos % 8) &&& 1)) * 2 ^ k +
        bits_at br.data (br.bitpos + 1) k =
        v * 2 ^ (k + 1) + bits_at br.data br.bitpos (k + 1)
      rw [bits_at, data_bit]
      ring
    · show ({ br with bitpos := br.bitpos + 1 + k } : Av1BitReader) =
        { br with bitpos := br.bitpos + (k + 1) }
      congr 1
      omega

/-- Success shape of the bit-reading loop: the buffer is untouched and the
cursor advances by exactly the number of bits requested. -/
theorem br_read_bits_loop_success :
    ∀ (k : Nat) (br : Av1BitReader) (v w : Nat) (br1 : Av1BitReader),
      br_read_bits_loop br v k = (true, w, br1) →
        br1.data = br.data ∧ br1.bitpos = br.bitpos + k := by
  intro k
  induction k with
  | zero =>
    intro br v w br1 h
    rw [br_read_bits_loop] at h
    injection h with h1 h2
    injection h2 with h2 h3
    rw [← h3]
    exact ⟨rfl, rfl⟩
  | succ k ih =>
    intro br v w br1 h
    rw [br_read_bits_loop, br_read_bit] at h
    by_cases hc : br.data.length ≤ br.bitpos / 8
    · rw [if_pos hc] at h
      simp at h
    · rw [if_neg hc] at h
      simp only [] at h
      have := ih _ _ _ _ h
      simp only [] at this
      exact ⟨this.1, by omega⟩

/-- Success shape of `br_read_bits`. -/
theorem br_read_bits_success (br : Av1BitReader) (n w : Nat) (br1 : Av1BitReader)
    (h : br_read_bits br n = (true, w, br1)) :
    br1.data = br.data ∧ br1.bitpos = br.bitpos + n := by
  rw [br_read_bits] at h
  by_cases h0 : n = 0
  · rw [if_pos h0] at h
    injection h with h1 h2
    injection h2 with h2 h3
    rw [← h3, h0]
    exact ⟨rfl, rfl⟩
  · rw [if_neg h0] at h
    by_cases h32 : n > 32
    · rw [if_pos h32] at h
      simp at h
    · rw [if_neg h32] at h
      exact br_read_bits_loop_success n br 0 w br1 h

/-- Success, final position and value of `br_read_bits` when enough bits
remain. -/
theorem br_read_bits_ok (br : Av1BitReader) (n : Nat)
    (h1 : br.bitpos + n ≤ 8 * br.data.length) (h2 : n ≤ 32) :
    br_read_bits br n =
      (true, bits_at br.data br.bitpos n, { br with bitpos := br.bitpos + n }) := by
  rw [br_read_bits]
  by_cases h0 : n = 0
  · subst h0
    rw [if_pos rfl]
    show _ = (true, bits_at br.data br.bitpos 0, { br with bitpos := br.bitpos + 0 })
    rw [bits_at]
    rfl
  · rw [if_neg h0, if_neg (by omega)]
    have := br_read_bits_loop_ok n br 0 h1
    rw [this]
    simp

/-- The trailing-zero-padding check holds exactly when every bit of the
half-open range is in bounds and zero. -/
theorem check_zero_bits_go_iff (data : List Nat) (stop : Nat)
    (hstop : stop ≤ 8 * data.length) :
    ∀ (fuel pos : Nat), stop - pos ≤ fuel →
      (check_zero_bits_go data fuel pos stop = true ↔
        ∀ i, pos ≤ i → i < stop → data_bit data i = 0) := by
  intro fuel
  induction fuel with
  | zero =>
    intro pos hf
    rw [check_zero_bits_go]
    constructor
    · intro _ i h1 h2
      omega
    · intro _
      rfl
  | succ fuel ih =>
    intro pos hf
    rw [check_zero_bits_go]
    by_cases hsp : stop ≤ pos
    · rw [if_pos hsp]
      constructor
      · intro _ i h1 h2
        omega
      · intro _
        rfl
    · rw [if_neg hsp]
      have hlt : ¬ data.length ≤ pos / 8 := by omega
      rw [get_bit_at, if_neg hlt]
      simp only []
      by_cases hb : (data.getD (pos / 8) 0 >>> (7 - pos % 8)) &&& 1 = 0
      · rw [if_neg (by simpa using hb)]
        rw [ih (pos + 1) (by omega)]
        constructor
        · intro h i h1 h2
          by_cases hi : i = pos
          · subst hi
            rw [data_bit]
            exact hb
          · exact h i (by omega) h2
        · intro h i h1 h2
          exact h i (by omega) h2
      · rw [if_pos (by simpa using hb)]
        constructor
        · intro h
          exact absurd h (by simp)
        · intro h
          exact absurd (h pos (le_refl pos) (by omega)) (by rw [data_bit]; exact hb)

theorem check_zero_bits_iff (data : List Nat) (pos stop : Nat)
    (hstop : stop ≤ 8 * data.length) :
    (check_zero_bits data pos stop = true ↔
      ∀ i, pos ≤ i → i < stop → data_bit data i = 0) :=
  check_zero_bits_go_iff data stop hstop (stop - pos) pos (Nat.le_refl _)

/-- `getD` of a mapped range. -/
theorem getD_range_map (n : Nat) (f : Nat → Nat) (i d : Nat) :
    ((List.range n).map f).getD i d = if i < n then f i else d := by
  by_cases h : i < n
  · rw [if_pos h, List.getD_eq_getElem?_getD, List.getElem?_map, List.getElem?_range h]
    rfl
  · rw [if_neg h, List.getD_eq_getElem?_getD, List.getElem?_eq_none (by simp; omega)]
    rfl

/-- A symbol produced by the candidate-walk loop is a valid index below
`n`. -/
theorem cdf_walk_go_some_lt :
    ∀ (fuel : Nat) (value range : Nat) (cdf : List Nat) (n prev s sym a b : Nat),
      cdf_walk_go value range cdf n fuel prev s = some (sym, a, b) → s ≤ sym ∧ sym < n := by
  intro fuel
  induction fuel with
  | zero =>
    intro value range cdf n prev s sym a b h
    simp [cdf_walk_go] at h
  | succ fuel ih =>
    intro value range cdf n prev s sym a b h
    rw [cdf_walk_go] at h
    by_cases hs : n ≤ s
    · rw [if_pos hs] at h
      simp at h
    · rw [if_neg hs] at h
      simp only [] at h
      split at h
      · injection h with h1
        injection h1 with h2 h3
        omega
      · have := ih value range cdf n _ (s + 1) sym a b h
        omega

/-- A symbol produced by the candidate walk is a valid index below `n`. -/
theorem cdf_walk_some_lt (value range : Nat) (cdf : List Nat) (n prev s sym a b : Nat)
    (h : cdf_walk value range cdf n prev s = some (sym, a, b)) : s ≤ sym ∧ sym < n :=
  cdf_walk_go_some_lt (n - s) value range cdf n prev s sym a b h

/-- Closed form of `av1_symbol_init`: it always succeeds and produces the
documented state. -/
theorem av1_symbol_init_eq (data : List Nat) (b : Bool) :
    av1_symbol_init data b =
      { ok := true
        sd := { br := { data := data, bitpos := min (data.length * 8) 15 }
                symbol_value := 32767 ^^^
                  (bits_at data 0 (min (data.length * 8) 15) <<<
                    (15 - min (data.length * 8) 15))
                symbol_range := 32768
                symbol_max_bits := (data.length * 8 : Int) - 15
                disable_cdf_update := b } } := by
  have h := br_read_bits_ok { data := data, bitpos := 0 } (min (data.length * 8) 15)
    (by simp; omega) (by omega)
  unfold av1_symbol_init
  simp only [h, Nat.zero_add]

/-- C7: a successful `av1_symbol_init(data, disable_cdf_update)` (it in fact
always succeeds) leaves `symbol_range = 1<<15`,
`symbol_max_bits = 8*|data| - 15`, `bitpos = min(15, 8*|data|)`, and
`symbol_value = ((1<<15)-1) XOR (buf << (15-k))` where `buf` is the first
`k = min(15, 8*|data|)` bits of `data` read MSB first. -/
theorem spec_c7_init_postconditions (data : List Nat) (b : Bool) :
    (av1_symbol_init data b).ok = true ∧
    (av1_symbol_init data b).sd.symbol_range = 32768 ∧
    (av1_symbol_init data b).sd.symbol_max_bits = 8 * (data.length : Int) - 15 ∧
    (av1_symbol_init data b).sd.br.bitpos = min 15 (8 * data.length) ∧
    (av1_symbol_init data b).sd.br.data = data ∧
    (av1_symbol_init data b).sd.symbol_value =
      32767 ^^^ (first_bits data (min 15 (8 * data.length)) <<<
        (15 - min 15 (8 * data.length))) ∧
    (av1_symbol_init data b).sd.disable_cdf_update = b := by
  have hmin : min (data.length * 8) 15 = min 15 (8 * data.length) := by omega
  rw [av1_symbol_init_eq]
  refine ⟨rfl, rfl, by dsimp only; omega, by dsimp only; omega, rfl, ?_, rfl⟩
  dsimp only
  rw [first_bits, hmin]

/-- The buffer is never modified by the bit-reading loop, whatever the
outcome. -/
theorem br_read_bits_loop_data :
    ∀ (k : Nat) (br : Av1BitReader) (v : Nat),
      (br_read_bits_loop br v k).2.2.data = br.data := by
  intro k
  induction k with
  | zero => intro br v; rfl
  | succ k ih =>
    intro br v
    rw [br_read_bits_loop, br_read_bit]
    by_cases hc : br.data.length ≤ br.bitpos / 8
    · rw [if_pos hc]
    · rw [if_neg hc]
      exact ih _ _

/-- The buffer is never modified by `br_read_bits`. -/
theorem br_read_bits_data (br : Av1BitReader) (n : Nat) :
    (br_read_bits br n).2.2.data = br.data := by
  rw [br_read_bits]
  by_cases h0 : n = 0
  · rw [if_pos h0]
  · rw [if_neg h0]
    by_cases h32 : n > 32
    · rw [if_pos h32]
    · rw [if_neg h32]
      exact br_read_bits_loop_data n br 0

/-- Closed form of wrapping subtraction on in-range operands. -/
theorem u32sub_eq (a b : Nat) (ha : a < 4294967296) (hb : b < 4294967296) :
    u32sub a b = if b ≤ a then a - b else 4294967296 + a - b := by
  unfold u32sub
  split <;> omega

/-- Shape of a successful `av1_symbol_read_symbol`: the decoded symbol is a
valid index, the CDF result is exactly the adaptation update (or untouched
when adaptation is disabled), the renormalized range lies in
`[2^15, 2^16)`, the buffer and the adaptation flag are untouched, and the
cursor/`symbol_max_bits` move by the renormalization bit count. -/
theorem read_symbol_ok_parts (sd : Av1SymbolDecoder) (cdf : List Nat) (n : Nat)
    (r : SymbolReadResult) (heq : av1_symbol_read_symbol sd cdf n = r)
    (hok : r.ok = true) :
    r.sym < n ∧
    r.cdf = (if sd.disable_cdf_update = true then cdf else cdf_update cdf n r.sym) ∧
    32768 ≤ r.sd.symbol_range ∧ r.sd.symbol_range < 65536 ∧
    r.sd.br.data = sd.br.data ∧
    r.sd.disable_cdf_update = sd.disable_cdf_update ∧
    ∃ bits : Nat, bits ≤ 15 ∧
      r.sd.symbol_max_bits = sd.symbol_max_bits - bits ∧
      r.sd.br.bitpos = sd.br.bitpos + min bits (max sd.symbol_max_bits 0).toNat := by
  simp only [av1_symbol_read_symbol] at heq
  split at heq
  · subst heq; simp at hok
  · split at heq
    · subst heq; simp at hok
    · split at heq
      · subst heq; simp at hok
      · rename_i symbol prev cur hwalk
        split at heq
        · subst heq; simp at hok
        · rename_i hrange1
          split at heq
          · subst heq; simp at hok
          · rename_i hbits
            split at heq
            · subst heq; simp at hok
            · rename_i newData br1 hread
              subst heq
              have hsym := cdf_walk_some_lt sd.symbol_value sd.symbol_range cdf n
                sd.symbol_range 0 symbol prev cur hwalk
              have hbr := br_read_bits_success _ _ _ _ hread
              have hr32 : u32sub prev cur < 4294967296 := Nat.mod_lt _ (by norm_num)
              have hx : 2 ^ floor_log2_u32 (u32sub prev cur) ≤ u32sub prev cur :=
                floor_log2_u32_le hrange1 hr32
              have hy : u32sub prev cur < 2 ^ (floor_log2_u32 (u32sub prev cur) + 1) :=
                lt_floor_log2_u32 _ hr32
              have he31 : floor_log2_u32 (u32sub prev cur) < 32 := by
                by_contra hcon
                push_neg at hcon
                have h1 : (4294967296 : Nat) ≤ 2 ^ floor_log2_u32 (u32sub prev cur) := by
                  calc (4294967296 : Nat) = 2 ^ 32 := by norm_num
                  _ ≤ _ := Nat.pow_le_pow_right (by norm_num) hcon
                omega
              have he15 : floor_log2_u32 (u32sub prev cur) ≤ 15 := by
                by_contra hcon
                push_neg at hcon
                refine hbits ?_
                rw [u32sub_eq 15 _ (by norm_num) (by omega), if_neg (by omega)]
                omega
              have hbitseq : u32sub 15 (floor_log2_u32 (u32sub prev cur)) =
                  15 - floor_log2_u32 (u32sub prev cur) := by
                rw [u32sub_eq 15 _ (by norm_num) (by omega), if_pos (by omega)]
              have hlow : 32768 ≤
                  u32sub prev cur <<< u32sub 15 (floor_log2_u32 (u32sub prev cur)) := by
                rw [hbitseq, Nat.shiftLeft_eq]
                calc (32768 : Nat) = 2 ^ floor_log2_u32 (u32sub prev cur) *
                    2 ^ (15 - floor_log2_u32 (u32sub prev cur)) := by
                      rw [← pow_add]
                      have hexp : floor_log2_u32 (u32sub prev cur) +
                          (15 - floor_log2_u32 (u32sub prev cur)) = 15 := by omega
                      rw [hexp]
                      norm_num
                  _ ≤ _ := Nat.mul_le_mul_right _ hx
              have hhigh :
                  u32sub prev cur <<< u32sub 15 (floor_log2_u32 (u32sub prev cur)) < 65536 := by
                rw [hbitseq, Nat.shiftLeft_eq]
                calc u32sub prev cur * 2 ^ (15 - floor_log2_u32 (u32sub prev cur)) <
                    2 ^ (floor_log2_u32 (u32sub prev cur) + 1) *
                      2 ^ (15 - floor_log2_u32 (u32sub prev cur)) :=
                      mul_lt_mul_of_pos_right hy (by positivity)
                  _ ≤ 65536 := by
                      rw [← pow_add]
                      calc (2:Nat) ^ (floor_log2_u32 (u32sub prev cur) + 1 +
                          (15 - floor_log2_u32 (u32sub prev cur))) ≤ 2 ^ 16 :=
                          Nat.pow_le_pow_right (by norm_num) (by omega)
                        _ = 65536 := by norm_num
              refine ⟨hsym.2, rfl, ?_, ?_, ?_, rfl,
                ⟨u32sub 15 (floor_log2_u32 (u32sub prev cur)), by omega, rfl, ?_⟩⟩
              · show 32768 ≤ u32 (u32sub prev cur <<< u32sub 15 (floor_log2_u32 (u32sub prev cur)))
                unfold u32
                rw [Nat.mod_eq_of_lt (by omega)]
                exact hlow
              · show u32 (u32sub prev cur <<< u32sub 15 (floor_log2_u32 (u32sub prev cur))) < 65536
                unfold u32
                rw [Nat.mod_eq_of_lt (by omega)]
                exact hhigh
              · exact hbr.1
              · show br1.bitpos = sd.br.bitpos + _
                rw [hbr.2]

/-- Shape of a failed `av1_symbol_read_symbol`: the CDF, the buffer,
`symbol_max_bits` and the adaptation flag are untouched (while
`symbol_value` / `symbol_range` / `bitpos` may have been mutated before the
failure was detected). -/
theorem read_symbol_fail_parts (sd : Av1SymbolDecoder) (cdf : List Nat) (n : Nat)
    (r : SymbolReadResult) (heq : av1_symbol_read_symbol sd cdf n = r)
    (hfail : r.ok = false) :
    r.cdf = cdf ∧ r.sym = 0 ∧ r.sd.br.data = sd.br.data ∧
    r.sd.symbol_max_bits = sd.symbol_max_bits ∧
    r.sd.disable_cdf_update = sd.disable_cdf_update := by
  simp only [av1_symbol_read_symbol] at heq
  split at heq
  · subst heq; exact ⟨rfl, rfl, rfl, rfl, rfl⟩
  · split at heq
    · subst heq; exact ⟨rfl, rfl, rfl, rfl, rfl⟩
    · split at heq
      · subst heq; exact ⟨rfl, rfl, rfl, rfl, rfl⟩
      · rename_i symbol prev cur hwalk
        split at heq
        · subst heq; exact ⟨rfl, rfl, rfl, rfl, rfl⟩
        · split at heq
          · subst heq; exact ⟨rfl, rfl, rfl, rfl, rfl⟩
          · split at heq
            · rename_i x br1 hread
              subst heq
              have hdata := br_read_bits_data sd.br
                (min (u32sub 15 (floor_log2_u32 (u32sub prev cur)))
                  (max sd.symbol_max_bits 0).toNat)
              rw [hread] at hdata
              exact ⟨rfl, rfl, hdata, rfl, rfl⟩
            · subst heq; simp at hfail

/-- Shape of a successful `av1_symbol_read_bool`: derived from the symbol
read on the fixed boolean CDF with adaptation suppressed. -/
theorem read_bool_ok_parts (sd : Av1SymbolDecoder)
    (hok : (av1_symbol_read_bool sd).1 = true) :
    (av1_symbol_read_bool sd).2.2 < 2 ∧
    (av1_symbol_read_bool sd).2.1.br.data = sd.br.data ∧
    (av1_symbol_read_bool sd).2.1.disable_cdf_update = sd.disable_cdf_update ∧
    32768 ≤ (av1_symbol_read_bool sd).2.1.symbol_range ∧
    (av1_symbol_read_bool sd).2.1.symbol_range < 65536 ∧
    ∃ bits : Nat, bits ≤ 15 ∧
      (av1_symbol_read_bool sd).2.1.symbol_max_bits = sd.symbol_max_bits - bits ∧
      (av1_symbol_read_bool sd).2.1.br.bitpos =
        sd.br.bitpos + min bits (max sd.symbol_max_bits 0).toNat := by
  have h := read_symbol_ok_parts { sd with disable_cdf_update := true } [16384, 32768, 0] 2
    (av1_symbol_read_symbol { sd with disable_cdf_update := true } [16384, 32768, 0] 2)
    rfl hok
  obtain ⟨h1, _, h3, h4, h5, _, bits, hb, hsmb, hpos⟩ := h
  exact ⟨h1, h5, rfl, h3, h4, bits, hb, hsmb, hpos⟩

/-- Shape of a failed `av1_symbol_read_bool`. -/
theorem read_bool_fail_parts (sd : Av1SymbolDecoder)
    (hfail : (av1_symbol_read_bool sd).1 = false) :
    (av1_symbol_read_bool sd).2.1.br.data = sd.br.data ∧
    (av1_symbol_read_bool sd).2.1.symbol_max_bits = sd.symbol_max_bits ∧
    (av1_symbol_read_bool sd).2.1.disable_cdf_update = sd.disable_cdf_update := by
  have h := read_symbol_fail_parts { sd with disable_cdf_update := true } [16384, 32768, 0] 2
    (av1_symbol_read_symbol { sd with disable_cdf_update := true } [16384, 32768, 0] 2)
    rfl hfail
  exact ⟨h.2.2.1, h.2.2.2.1, rfl⟩

/-- `av1_symbol_exit` never touches the decoder state apart from the bit
cursor, whatever the outcome. -/
theorem exit_state_parts (sd : Av1SymbolDecoder) :
    (av1_symbol_exit sd).2.symbol_value = sd.symbol_value ∧
    (av1_symbol_exit sd).2.symbol_range = sd.symbol_range ∧
    (av1_symbol_exit sd).2.symbol_max_bits = sd.symbol_max_bits ∧
    (av1_symbol_exit sd).2.disable_cdf_update = sd.disable_cdf_update ∧
    (av1_symbol_exit sd).2.br.data = sd.br.data := by
  have hbr : ∀ (c : Prop) (inst : Decidable c) (x : Nat),
      (if c then { sd.br with bitpos := x } else sd.br).data = sd.br.data := by
    intro c inst x
    split <;> rfl
  simp only [av1_symbol_exit]
  repeat' first
  | (exact ⟨rfl, rfl, rfl, rfl, rfl⟩)
  | (exact ⟨rfl, rfl, rfl, rfl, hbr _ _ _⟩)
  | split

/-- C3 counterexample: on the spec's own known-answer scenario (CDF
{16384, 24576, 32768, 0}, data [0x00, 0x00]) a successful `read_symbol`
leaves `symbol_range = 65504`, which exceeds `1<<15` and so lies outside the
claimed renormalization interval `(1<<14, 1<<15]`. -/
theorem spec_c3_counterexample :
    (av1_symbol_read_symbol (av1_symbol_init [0, 0] false).sd
        [16384, 24576, 32768, 0] 3).ok = true ∧
    (av1_symbol_read_symbol (av1_symbol_init [0, 0] false).sd
        [16384, 24576, 32768, 0] 3).sd.symbol_range = 65504 ∧
    32768 <
      (av1_symbol_read_symbol (av1_symbol_init [0, 0] false).sd
        [16384, 24576, 32768, 0] 3).sd.symbol_range := by
  decide

/-- C3 (amended): after `init` the range is exactly `1<<15`, and after every
successful `read_symbol` the renormalized `symbol_range` lies in
`[1<<15, 1<<16)` — not in the claimed `(1<<14, 1<<15]`. -/
theorem spec_c3_range_renormalization :
    (∀ (data : List Nat) (b : Bool), (av1_symbol_init data b).sd.symbol_range = 32768) ∧
    (∀ (sd : Av1SymbolDecoder) (cdf : List Nat) (n : Nat),
      (av1_symbol_read_symbol sd cdf n).ok = true →
        32768 ≤ (av1_symbol_read_symbol sd cdf n).sd.symbol_range ∧
        (av1_symbol_read_symbol sd cdf n).sd.symbol_range < 65536) := by
  constructor
  · intro data b
    rw [av1_symbol_init_eq]
  · intro sd cdf n hok
    have h := read_symbol_ok_parts sd cdf n _ rfl hok
    exact ⟨h.2.2.1, h.2.2.2.1⟩

/-- Witness for the amended C3 statement at the concrete known-answer
scenario. -/
theorem spec_c3_range_renormalization_witness :
    32768 ≤ (av1_symbol_read_symbol (av1_symbol_init [0, 0] false).sd
        [16384, 24576, 32768, 0] 3).sd.symbol_range ∧
    (av1_symbol_read_symbol (av1_symbol_init [0, 0] false).sd
        [16384, 24576, 32768, 0] 3).sd.symbol_range < 65536 :=
  spec_c3_range_renormalization.2 _ _ _ (by decide)

/-- The threshold computed by the candidate walk at the last candidate
`s = n - 1` is zero whenever `cdf[n-1]` reads `1<<15`. -/
theorem walk_last_threshold_zero (range : Nat) (cdf : List Nat) (n : Nat) (hn : 1 ≤ n)
    (hlast : u16 (cdf.getD (n - 1) 0) = 32768) :
    u32 ((u32 ((range >>> 8) * (u32sub 32768 (u16 (cdf.getD (n - 1) 0)) >>> 6)) >>> 1) +
      4 * (n - (n - 1) - 1)) = 0 := by
  rw [hlast]
  have h1 : n - (n - 1) - 1 = 0 := by omega
  rw [h1]
  have h2 : u32sub 32768 32768 = 0 := rfl
  rw [h2]
  simp [u32, Nat.zero_shiftRight]

/-- With a well-terminated CDF the candidate walk always returns before the
fuel runs out. -/
theorem cdf_walk_go_reaches (value range : Nat) (cdf : List Nat) (n : Nat)
    (hlast : u16 (cdf.getD (n - 1) 0) = 32768) :
    ∀ (fuel s prev : Nat), s < n → n - s = fuel →
      ∃ sym p t, cdf_walk_go value range cdf n fuel prev s = some (sym, p, t) := by
  intro fuel
  induction fuel with
  | zero =>
    intro s prev h1 h2
    omega
  | succ fuel ih =>
    intro s prev h1 h2
    rw [cdf_walk_go, if_neg (by omega)]
    simp only []
    by_cases ht : u32 ((u32 ((range >>> 8) *
        (u32sub 32768 (u16 (cdf.getD s 0)) >>> 6)) >>> 1) + 4 * (n - s - 1)) ≤ value
    · rw [if_pos ht]
      exact ⟨s, prev, _, rfl⟩
    · rw [if_neg ht]
      by_cases hs1 : s + 1 < n
      · exact ih (s + 1) _ hs1 (by omega)
      · exfalso
        have hs : s = n - 1 := by omega
        apply ht
        rw [hs]
        rw [walk_last_threshold_zero range cdf n (by omega) hlast]
        exact Nat.zero_le _

/-- C10: for every decoder state and CDF with `n > 1` symbols and
`cdf[n-1] = 1<<15`, the candidate walk of `read_symbol` always returns a
symbol `s < n` (the "cdf walk overflow" branch is unreachable), and the
threshold computed at the last candidate `s = n-1` equals 0 (hence is
always `≤ symbol_value`). -/
theorem spec_c10_walk_termination (value range : Nat) (cdf : List Nat) (n : Nat)
    (hn : 1 < n) (hlast : u16 (cdf.getD (n - 1) 0) = 32768) :
    (u32 ((u32 ((range >>> 8) * (u32sub 32768 (u16 (cdf.getD (n - 1) 0)) >>> 6)) >>> 1) +
      4 * (n - (n - 1) - 1)) = 0) ∧
    ∀ prev, ∃ sym p t, cdf_walk value range cdf n prev 0 = some (sym, p, t) ∧ sym < n := by
  constructor
  · exact walk_last_threshold_zero range cdf n (by omega) hlast
  · intro prev
    obtain ⟨sym, p, t, h⟩ :=
      cdf_walk_go_reaches value range cdf n hlast n 0 prev (by omega) (by omega)
    refine ⟨sym, p, t, h, ?_⟩
    exact (cdf_walk_go_some_lt n value range cdf n prev 0 sym p t h).2

/-- Witness for C10 on a concrete boolean CDF. -/
theorem spec_c10_walk_termination_witness :
    (cdf_walk 100 32768 [16384, 32768, 0] 2 0 0).isSome = true := by
  obtain ⟨sym, p, t, heq, hlt⟩ :=
    (spec_c10_walk_termination 100 32768 [16384, 32768, 0] 2 (by decide) (by decide)).2 0
  rw [heq]
  rfl

/-- The literal-reading loop never touches the byte buffer or the
adaptation flag, whatever the outcome. -/
theorem read_literal_loop_preserve (k : Nat) :
    ∀ (sd : Av1SymbolDecoder) (x : Nat),
      (read_literal_loop sd x k).2.1.br.data = sd.br.data ∧
      (read_literal_loop sd x k).2.1.disable_cdf_update = sd.disable_cdf_update := by
  induction k with
  | zero =>
    intro sd x
    exact ⟨rfl, rfl⟩
  | succ k ih =>
    intro sd x
    rw [read_literal_loop]
    rcases h : av1_symbol_read_bool sd with ⟨ok, sd1, b⟩
    cases ok
    · have hf := read_bool_fail_parts sd (by rw [h])
      rw [h] at hf
      exact ⟨hf.1, hf.2.2⟩
    · have ho := read_bool_ok_parts sd (by rw [h])
      rw [h] at ho
      have hih := ih sd1 ((x <<< 1) ||| (b &&& 1))
      exact ⟨by rw [hih.1]; exact ho.2.1, by rw [hih.2]; exact ho.2.2.1⟩

/-- C8 counterexample: on the `range1 = 0` failure path, `read_symbol` has
already mutated `symbol_value` (100 → 96) and `symbol_range` (4 → 0), and a
failing `read_literal` (its second bool read underflows) has already mutated
`symbol_max_bits` (2 → 1) and `symbol_value` (0 → 1); so failing calls change
decoder state other than the bit cursor. -/
theorem spec_c8_counterexample :
    (av1_symbol_read_symbol ⟨⟨[], 0⟩, 100, 4, 0, false⟩ [32768, 32768, 0] 2).ok = false ∧
    (av1_symbol_read_symbol ⟨⟨[], 0⟩, 100, 4, 0, false⟩ [32768, 32768, 0] 2).sd.symbol_value
      = 96 ∧
    (av1_symbol_read_symbol ⟨⟨[], 0⟩, 100, 4, 0, false⟩ [32768, 32768, 0] 2).sd.symbol_range
      = 0 ∧
    (av1_symbol_read_literal ⟨⟨[0], 7⟩, 0, 32768, 2, false⟩ 2).1 = false ∧
    (av1_symbol_read_literal ⟨⟨[0], 7⟩, 0, 32768, 2, false⟩ 2).2.1.symbol_max_bits = 1 ∧
    (av1_symbol_read_literal ⟨⟨[0], 7⟩, 0, 32768, 2, false⟩ 2).2.1.symbol_value = 1 := by
  decide

/-- C8 (amended): on failure no operation mutates the CDF passed to it, the
byte buffer or the adaptation flag; a failing `read_symbol` / `read_bool`
additionally preserves `symbol_max_bits` but may already have mutated
`symbol_value`, `symbol_range` and the cursor; a failing `read_literal` may
have mutated `symbol_value`, `symbol_range`, `symbol_max_bits` and the
cursor (it preserves only the buffer and the flag); a failing `exit` leaves
everything except the cursor untouched. -/
theorem spec_c8_failure_mutation :
    (∀ (sd : Av1SymbolDecoder) (cdf : List Nat) (n : Nat),
      (av1_symbol_read_symbol sd cdf n).ok = false →
        (av1_symbol_read_symbol sd cdf n).cdf = cdf ∧
        (av1_symbol_read_symbol sd cdf n).sd.br.data = sd.br.data ∧
        (av1_symbol_read_symbol sd cdf n).sd.symbol_max_bits = sd.symbol_max_bits ∧
        (av1_symbol_read_symbol sd cdf n).sd.disable_cdf_update = sd.disable_cdf_update) ∧
    (∀ sd : Av1SymbolDecoder, (av1_symbol_read_bool sd).1 = false →
      (av1_symbol_read_bool sd).2.1.br.data = sd.br.data ∧
      (av1_symbol_read_bool sd).2.1.symbol_max_bits = sd.symbol_max_bits ∧
      (av1_symbol_read_bool sd).2.1.disable_cdf_update = sd.disable_cdf_update) ∧
    (∀ (sd : Av1SymbolDecoder) (n : Nat), (av1_symbol_read_literal sd n).1 = false →
      (av1_symbol_read_literal sd n).2.1.br.data = sd.br.data ∧
      (av1_symbol_read_literal sd n).2.1.disable_cdf_update = sd.disable_cdf_update) ∧
    (∀ sd : Av1SymbolDecoder, (av1_symbol_exit sd).1 = false →
      (av1_symbol_exit sd).2.symbol_value = sd.symbol_value ∧
      (av1_symbol_exit sd).2.symbol_range = sd.symbol_range ∧
      (av1_symbol_exit sd).2.symbol_max_bits = sd.symbol_max_bits ∧
      (av1_symbol_exit sd).2.disable_cdf_update = sd.disable_cdf_update ∧
      (av1_symbol_exit sd).2.br.data = sd.br.data) := by
  refine ⟨?_, ?_, ?_, ?_⟩
  · intro sd cdf n hfail
    have h := read_symbol_fail_parts sd cdf n _ rfl hfail
    exact ⟨h.1, h.2.2.1, h.2.2.2.1, h.2.2.2.2⟩
  · intro sd hfail
    exact read_bool_fail_parts sd hfail
  · intro sd n hfail
    rw [av1_symbol_read_literal]
    by_cases h32 : n > 32
    · rw [if_pos h32]
      exact ⟨rfl, rfl⟩
    · rw [if_neg h32]
      exact read_literal_loop_preserve n sd 0
  · intro sd hfail
    exact exit_state_parts sd

/-- Witness for the amended C8 statement on the concrete `range1 = 0`
failure scenario. -/
theorem spec_c8_failure_mutation_witness :
    (av1_symbol_read_symbol ⟨⟨[], 0⟩, 100, 4, 0, false⟩ [32768, 32768, 0] 2).cdf
      = [32768, 32768, 0] ∧
    (av1_symbol_read_symbol ⟨⟨[], 0⟩, 100, 4, 0, false⟩ [32768, 32768, 0] 2).sd.symbol_max_bits
      = 0 := by
  have h := spec_c8_failure_mutation.1 ⟨⟨[], 0⟩, 100, 4, 0, false⟩ [32768, 32768, 0] 2
    (by decide)
  exact ⟨h.1, h.2.2.1⟩

/-- A right shift never increases a natural number. -/
theorem shr_le (n k : Nat) : n >>> k ≤ n := by
  rw [Nat.shiftRight_eq_div_pow]
  exact Nat.div_le_self _ _

/-- The halving count is at least 1 on inputs `≥ 2` (with fuel left). -/
theorem one_le_floor_log2_go (fuel : Nat) :
    ∀ n : Nat, 2 ≤ n → 1 ≤ fuel → 1 ≤ floor_log2_go fuel n := by
  cases fuel with
  | zero =>
    intro n h1 h2
    omega
  | succ fuel =>
    intro n h1 _
    rw [floor_log2_go, if_pos (by omega)]
    omega

/-- The halving count is at least 2 on inputs `≥ 4` (with fuel left). -/
theorem two_le_floor_log2_go (fuel : Nat) :
    ∀ n : Nat, 4 ≤ n → 2 ≤ fuel → 2 ≤ floor_log2_go fuel n := by
  cases fuel with
  | zero =>
    intro n h1 h2
    omega
  | succ fuel =>
    intro n h1 h2
    rw [floor_log2_go, if_pos (by omega)]
    have := one_le_floor_log2_go fuel (n / 2) (by omega) (by omega)
    omega

/-- `min(floor_log2(n), 2)` agrees with the mathematical `min(log2 n, 2)`
for every `n`, including those past the 32-iteration fuel. -/
theorem min_floor_log2_u32_two (n : Nat) :
    min (floor_log2_u32 n) 2 = min (Nat.log2 n) 2 := by
  by_cases h : n < 4
  · rw [floor_log2_u32_eq_log2 n (by omega)]
  · push_neg at h
    have h1 : 2 ≤ floor_log2_u32 n := two_le_floor_log2_go 32 n h (by omega)
    have h2 : 2 ≤ Nat.log2 n := (Nat.le_log2 (by omega)).mpr (by norm_num; omega)
    omega

/-- C4: for every CDF of length `n+1` with in-range probability entries and
adaptation count `c = cdf[n] ≤ 32`, a successful `read_symbol` with
adaptation enabled moves every entry `i < n-1` toward
`(i ≥ s ? 1<<15 : 0)` by exactly `|cdf[i] - target| >> rate` with
`rate = 3 + (c>15) + (c>31) + min(floor_log2(n), 2)`, and sets
`cdf[n] = min(cdf[n]+1, 32)`; and on the concrete known-answer scenario
(CDF {16384, 24576, 32768, 0}, data [0x00, 0x00]) one read decodes symbol 0
and leaves the CDF {17408, 25088, 32768, 1}. -/
theorem spec_c4_cdf_update :
    (∀ (sd : Av1SymbolDecoder) (cdf : List Nat) (n : Nat),
      sd.disable_cdf_update = false →
      cdf.length = n + 1 →
      (∀ i, i + 1 < n → cdf.getD i 0 ≤ 32768) →
      cdf.getD n 0 ≤ 32 →
      (av1_symbol_read_symbol sd cdf n).ok = true →
      (∀ i, i + 1 < n →
        (av1_symbol_read_symbol sd cdf n).cdf.getD i 0 =
          (if (av1_symbol_read_symbol sd cdf n).sym ≤ i then
            cdf.getD i 0 + ((32768 - cdf.getD i 0) >>>
              (3 + (if 15 < cdf.getD n 0 then 1 else 0) +
                (if 31 < cdf.getD n 0 then 1 else 0) + min (Nat.log2 n) 2))
          else
            cdf.getD i 0 - (cdf.getD i 0 >>>
              (3 + (if 15 < cdf.getD n 0 then 1 else 0) +
                (if 31 < cdf.getD n 0 then 1 else 0) + min (Nat.log2 n) 2)))) ∧
      (av1_symbol_read_symbol sd cdf n).cdf.getD n 0 = min (cdf.getD n 0 + 1) 32) ∧
    ((av1_symbol_read_symbol (av1_symbol_init [0, 0] false).sd
        [16384, 24576, 32768, 0] 3).sym = 0 ∧
      (av1_symbol_read_symbol (av1_symbol_init [0, 0] false).sd
        [16384, 24576, 32768, 0] 3).cdf = [17408, 25088, 32768, 1]) := by
  constructor
  · intro sd cdf n hdis hlen hbound hcount hok
    have h := read_symbol_ok_parts sd cdf n _ rfl hok
    have hupd : (av1_symbol_read_symbol sd cdf n).cdf =
        cdf_update cdf n (av1_symbol_read_symbol sd cdf n).sym := by
      have h2 := h.2.1
      rw [hdis] at h2
      simpa using h2
    have hcount16 : u16 (cdf.getD n 0) = cdf.getD n 0 := Nat.mod_eq_of_lt (by
      show cdf.getD n 0 < 65536
      omega)
    have hrate : cdf_rate (u16 (cdf.getD n 0)) n =
        3 + (if 15 < cdf.getD n 0 then 1 else 0) + (if 31 < cdf.getD n 0 then 1 else 0) +
          min (Nat.log2 n) 2 := by
      rw [hcount16, cdf_rate, min_floor_log2_u32_two]
    constructor
    · intro i hi
      have hci : u16 (cdf.getD i 0) = cdf.getD i 0 := Nat.mod_eq_of_lt (by
        have := hbound i hi
        show cdf.getD i 0 < 65536
        omega)
      rw [hupd]
      simp only [cdf_update, getD_range_map]
      rw [if_pos (by omega), if_pos hi, hci, hrate]
      have hle := hbound i hi
      set R := 3 + (if 15 < cdf.getD n 0 then 1 else 0) +
        (if 31 < cdf.getD n 0 then 1 else 0) + min (Nat.log2 n) 2 with hR
      by_cases hs : (av1_symbol_read_symbol sd cdf n).sym ≤ i
      · rw [if_pos hs, if_pos hs]
        simp only [cdf_update_entry]
        rw [if_neg (show ¬ (32768 : Nat) < cdf.getD i 0 by omega)]
        have hsh := shr_le (32768 - cdf.getD i 0) R
        rw [if_neg (show ¬ cdf.getD i 0 + (32768 - cdf.getD i 0) >>> R > 32768 by omega)]
      · rw [if_neg hs, if_neg hs]
        by_cases hzero : cdf.getD i 0 = 0
        · rw [hzero]
          simp [cdf_update_entry]
        · simp only [cdf_update_entry]
          rw [if_pos (show (0:Nat) < cdf.getD i 0 by omega), Nat.sub_zero]
          have hsub : cdf.getD i 0 - cdf.getD i 0 >>> R ≤ cdf.getD i 0 := Nat.sub_le _ _
          rw [if_neg (show ¬ cdf.getD i 0 - cdf.getD i 0 >>> R > 32768 by omega)]
    · rw [hupd]
      simp only [cdf_update, getD_range_map]
      rw [if_pos (show n < cdf.length by omega), if_neg (show ¬ n + 1 < n by omega)]
      simp only [eq_self_iff_true, if_true]
      rw [hcount16]
      by_cases hc : cdf.getD n 0 < 32
      · rw [if_pos hc]
        omega
      · rw [if_neg hc]
        omega
  · exact ⟨by decide, by decide⟩

/-- Witness for C4 at the concrete known-answer CDF: the adaptation-count
slot follows the `min(c+1, 32)` law. -/
theorem spec_c4_cdf_update_witness :
    (av1_symbol_read_symbol (av1_symbol_init [0, 0] false).sd
      [16384, 24576, 32768, 0] 3).cdf.getD 3 0 =
      min (([16384, 24576, 32768, 0] : List Nat).getD 3 0 + 1) 32 :=
  (spec_c4_cdf_update.1 (av1_symbol_init [0, 0] false).sd [16384, 24576, 32768, 0] 3
    (by decide) (by decide)
    (by
      intro i hi
      have h2 : i < 2 := by omega
      interval_cases i <;> decide)
    (by decide) (by decide)).2

/-- One decoder read preserves the cursor/bit-budget accounting. -/
theorem inv_step (L p : Nat) (m : Int) (p' : Nat) (m' : Int) (bits : Nat)
    (hb : bits ≤ 15) (hm : m' = m - bits)
    (hp : p' = p + min bits (max m 0).toNat)
    (hinv : p + (max m 0).toNat = 8 * L) (hle : m ≤ 8 * (L : Int) - 15) :
    p' + (max m' 0).toNat = 8 * L ∧ m' ≤ 8 * (L : Int) - 15 := by
  omega

/-- The literal-reading loop preserves the accounting invariant on
success. -/
theorem read_literal_loop_inv (data : List Nat) (k : Nat) :
    ∀ (sd : Av1SymbolDecoder) (x : Nat),
      (read_literal_loop sd x k).1 = true →
      sd.br.bitpos + (max sd.symbol_max_bits 0).toNat = 8 * data.length →
      sd.symbol_max_bits ≤ 8 * (data.length : Int) - 15 →
      ((read_literal_loop sd x k).2.1.br.bitpos +
          (max (read_literal_loop sd x k).2.1.symbol_max_bits 0).toNat = 8 * data.length ∧
        (read_literal_loop sd x k).2.1.symbol_max_bits ≤ 8 * (data.length : Int) - 15) := by
  induction k with
  | zero =>
    intro sd x hok h1 h2
    exact ⟨h1, h2⟩
  | succ k ih =>
    intro sd x hok h1 h2
    rcases h : av1_symbol_read_bool sd with ⟨ok, sd1, b⟩
    rw [read_literal_loop, h] at hok ⊢
    cases ok
    · simp at hok
    · have ho := read_bool_ok_parts sd (by rw [h])
      rw [h] at ho
      obtain ⟨_, _, _, _, _, bits, hb, hsmb, hpos⟩ := ho
      have step := inv_step data.length sd.br.bitpos sd.symbol_max_bits sd1.br.bitpos
        sd1.symbol_max_bits bits hb hsmb hpos h1 h2
      exact ih sd1 _ hok step.1 step.2

/-- Every decoder state reachable through `init` and successful reads on
buffer `data` carries that buffer, satisfies
`bitpos + max(symbol_max_bits, 0) = 8·|data|`, and has
`symbol_max_bits ≤ 8·|data| - 15`. -/
theorem reachable_invariant (data : List Nat) (sd : Av1SymbolDecoder)
    (h : Reachable data sd) :
    sd.br.data = data ∧
    sd.br.bitpos + (max sd.symbol_max_bits 0).toNat = 8 * data.length ∧
    sd.symbol_max_bits ≤ 8 * (data.length : Int) - 15 := by
  induction h with
  | init d =>
    rw [av1_symbol_init_eq]
    refine ⟨rfl, ?_, ?_⟩
    · show min (data.length * 8) 15 + (max ((data.length * 8 : Int) - 15) 0).toNat =
        8 * data.length
      omega
    · show (data.length * 8 : Int) - 15 ≤ 8 * (data.length : Int) - 15
      omega
  | read_symbol sd cdf n hr hok ih =>
    obtain ⟨hd, h1, h2⟩ := ih
    have hp := read_symbol_ok_parts sd cdf n _ rfl hok
    obtain ⟨_, _, _, _, hdata, _, bits, hb, hsmb, hpos⟩ := hp
    have step := inv_step data.length sd.br.bitpos sd.symbol_max_bits _ _ bits hb hsmb
      hpos h1 h2
    exact ⟨by rw [hdata, hd], step.1, step.2⟩
  | read_bool sd hr hok ih =>
    obtain ⟨hd, h1, h2⟩ := ih
    have hp := read_bool_ok_parts sd hok
    obtain ⟨_, hdata, _, _, _, bits, hb, hsmb, hpos⟩ := hp
    have step := inv_step data.length sd.br.bitpos sd.symbol_max_bits _ _ bits hb hsmb
      hpos h1 h2
    exact ⟨by rw [hdata, hd], step.1, step.2⟩
  | read_literal sd n hr hok ih =>
    obtain ⟨hd, h1, h2⟩ := ih
    rw [av1_symbol_read_literal] at hok ⊢
    by_cases h32 : n > 32
    · rw [if_pos h32] at hok
      simp at hok
    · rw [if_neg h32] at hok ⊢
      have hpres := read_literal_loop_preserve n sd 0
      have hinv := read_literal_loop_inv data n sd 0 hok h1 h2
      exact ⟨by rw [hpres.1, hd], hinv.1, hinv.2⟩

/-- C5: for every decoder state reachable through init and symbol reads with
`symbol_max_bits ≥ -14`, `exit_symbol` succeeds iff the bit at
`trailing_pos = bitpos - clamp(symbol_max_bits + 15, 0, 15)` is 1 and every
bit strictly between `trailing_pos` and the position reached by advancing
`bitpos` by `max(0, symbol_max_bits)` is 0; and `exit_symbol` fails
whenever `symbol_max_bits < -14`. -/
theorem spec_c5_exit_trailing_law :
    (∀ (data : List Nat) (sd : Av1SymbolDecoder), Reachable data sd →
      -14 ≤ sd.symbol_max_bits →
      ((av1_symbol_exit sd).1 = true ↔
        (data_bit data (sd.br.bitpos - (min (sd.symbol_max_bits + 15) 15).toNat) = 1 ∧
         ∀ i, sd.br.bitpos - (min (sd.symbol_max_bits + 15) 15).toNat < i →
           i < sd.br.bitpos + (max sd.symbol_max_bits 0).toNat →
           data_bit data i = 0))) ∧
    (∀ sd : Av1SymbolDecoder, sd.symbol_max_bits < -14 → (av1_symbol_exit sd).1 = false) := by
  constructor
  · intro data sd hreach hge
    obtain ⟨hd, h1, h2⟩ := reachable_invariant data sd hreach
    have hL : 1 ≤ data.length := by omega
    simp only [av1_symbol_exit, hd]
    rw [if_neg (show ¬ sd.symbol_max_bits < -14 by omega)]
    have hminv : (if sd.symbol_max_bits + 15 < 15 then
        (if sd.symbol_max_bits + 15 < 0 then (0:Nat) else (sd.symbol_max_bits + 15).toNat)
      else 15) = (min (sd.symbol_max_bits + 15) 15).toNat := by
      split
      · split <;> omega
      · omega
    rw [hminv]
    rw [if_neg (show ¬ sd.br.bitpos < (min (sd.symbol_max_bits + 15) 15).toNat by omega)]
    have hend : (if sd.symbol_max_bits > 0 then
        { data := data, bitpos := sd.br.bitpos + sd.symbol_max_bits.toNat }
      else sd.br).bitpos = 8 * data.length := by
      split
      · show sd.br.bitpos + sd.symbol_max_bits.toNat = 8 * data.length
        omega
      · show sd.br.bitpos = 8 * data.length
        omega
    rw [hend]
    rw [if_neg (show ¬ 8 * data.length % 8 ≠ 0 by omega)]
    rw [if_neg (show ¬ data.length * 8 < 8 * data.length by omega)]
    have htr : ¬ data.length ≤
        (sd.br.bitpos - (min (sd.symbol_max_bits + 15) 15).toNat) / 8 := by omega
    rw [get_bit_at, if_neg htr]
    simp only []
    have hE : sd.br.bitpos + (max sd.symbol_max_bits 0).toNat = 8 * data.length := h1
    rw [hE]
    by_cases hbit : (data.getD
        ((sd.br.bitpos - (min (sd.symbol_max_bits + 15) 15).toNat) / 8) 0 >>>
        (7 - (sd.br.bitpos - (min (sd.symbol_max_bits + 15) 15).toNat) % 8)) &&& 1 = 1
    · rw [if_neg (by simpa using hbit)]
      have hcz := check_zero_bits_iff data
        (sd.br.bitpos - (min (sd.symbol_max_bits + 15) 15).toNat + 1) (8 * data.length)
        (le_refl _)
      constructor
      · intro hz
        refine ⟨by rw [data_bit]; exact hbit, ?_⟩
        intro i hi1 hi2
        exact (hcz.mp hz) i (by omega) hi2
      · intro hrhs
        refine hcz.mpr ?_
        intro i hi1 hi2
        exact hrhs.2 i (by omega) hi2
    · rw [if_pos (by simpa using hbit)]
      constructor
      · intro hfalse
        exact absurd hfalse (by simp)
      · intro hrhs
        exact absurd (by rw [data_bit] at hrhs; exact hrhs.1) hbit
  · intro sd hlt
    rw [av1_symbol_exit, if_pos hlt]

/-- Witness for C5 on the spec's trailing-bits pass scenario
`data = [0x80, 0x00]`. -/
theorem spec_c5_exit_trailing_law_witness :
    (av1_symbol_exit (av1_symbol_init [128, 0] false).sd).1 = true := by
  have h := spec_c5_exit_trailing_law.1 [128, 0] (av1_symbol_init [128, 0] false).sd
    (Reachable.init false) (by decide)
  refine h.mpr ⟨by decide, ?_⟩
  intro i h1 h2
  have hT : ((av1_symbol_init [128, 0] false).sd.br.bitpos -
      (min ((av1_symbol_init [128, 0] false).sd.symbol_max_bits + 15) 15).toNat) = 0 := by
    decide
  have hE : ((av1_symbol_init [128, 0] false).sd.br.bitpos +
      (max (av1_symbol_init [128, 0] false).sd.symbol_max_bits 0).toNat) = 16 := by
    decide
  rw [hT] at h1
  rw [hE] at h2
  interval_cases i <;> decide

/-- Row/column decomposition of a scan position is unique. -/
theorem pos_decomp {w r c r' c' : Nat} (hc : c < w) (hc' : c' < w)
    (hx : r * w + c = r' * w + c') : r = r' ∧ c = c' := by
  have e1 : (r * w + c) % w = c := by
    rw [Nat.mul_comm, Nat.mul_add_mod, Nat.mod_eq_of_lt hc]
  have e2 : (r' * w + c') % w = c' := by
    rw [Nat.mul_comm, Nat.mul_add_mod, Nat.mod_eq_of_lt hc']
  have hcc : c = c' := by rw [← e1, ← e2, hx]
  refine ⟨?_, hcc⟩
  have hrr : r * w = r' * w := by omega
  exact Nat.eq_of_mul_eq_mul_right (by omega) hrr

/-- Membership in one canonical zigzag diagonal. -/
theorem mem_zigzag_diag {w h s x : Nat} :
    x ∈ zigzag_diag w h s ↔ ∃ r c, r < h ∧ c < w ∧ r + c = s ∧ x = r * w + c := by
  unfold zigzag_diag
  split
  · simp only [List.mem_map, List.mem_reverse, List.mem_filter, List.mem_range,
      decide_eq_true_eq]
    constructor
    · rintro ⟨r, ⟨hr, hrs, hsw⟩, rfl⟩
      exact ⟨r, s - r, hr, hsw, by omega, rfl⟩
    · rintro ⟨r, c, hr, hc, hrc, rfl⟩
      refine ⟨r, ⟨hr, by omega, by omega⟩, ?_⟩
      have hsr : s - r = c := by omega
      rw [hsr]
  · simp only [List.mem_map, List.mem_reverse, List.mem_filter, List.mem_range,
      decide_eq_true_eq]
    constructor
    · rintro ⟨c, ⟨hc, hcs, hsh⟩, rfl⟩
      exact ⟨s - c, c, hsh, hc, by omega, rfl⟩
    · rintro ⟨r, c, hr, hc, hrc, rfl⟩
      refine ⟨c, ⟨hc, by omega, by omega⟩, ?_⟩
      have hsc : s - c = r := by omega
      rw [hsc]

/-- Each zigzag diagonal has no duplicate positions. -/
theorem nodup_zigzag_diag {w h s : Nat} : (zigzag_diag w h s).Nodup := by
  unfold zigzag_diag
  split
  · apply List.Nodup.map_on
    · intro r1 h1 r2 h2 heq
      simp only [List.mem_reverse, List.mem_filter, List.mem_range, decide_eq_true_eq] at h1 h2
      exact (pos_decomp h1.2.2 h2.2.2 heq).1
    · exact List.nodup_reverse.mpr (List.Nodup.filter _ (List.nodup_range h))
  · apply List.Nodup.map_on
    · intro c1 h1 c2 h2 heq
      simp only [List.mem_reverse, List.mem_filter, List.mem_range, decide_eq_true_eq] at h1 h2
      exact (pos_decomp h1.1 h2.1 heq).2
    · exact List.nodup_reverse.mpr (List.Nodup.filter _ (List.nodup_range w))

/-- The canonical zigzag order has no duplicate positions. -/
theorem nodup_canonical_zigzag (w h : Nat) : (canonical_zigzag w h).Nodup := by
  unfold canonical_zigzag
  rw [List.nodup_flatMap]
  refine ⟨fun s _ => nodup_zigzag_diag, ?_⟩
  have hdis : ∀ s1 s2 : Nat, s1 ≠ s2 →
      List.Disjoint (zigzag_diag w h s1) (zigzag_diag w h s2) := by
    intro s1 s2 hne x hx1 hx2
    rw [mem_zigzag_diag] at hx1 hx2
    obtain ⟨r1, c1, _, hc1, hrc1, hx1⟩ := hx1
    obtain ⟨r2, c2, _, hc2, hrc2, hx2⟩ := hx2
    have hx12 : r1 * w + c1 = r2 * w + c2 := by rw [← hx1, ← hx2]
    have := pos_decomp hc1 hc2 hx12
    omega
  exact (List.pairwise_lt_range _).imp fun hlt => hdis _ _ (Nat.ne_of_lt hlt)

/-- The canonical zigzag order is a permutation of `[0, w*h)`. -/
theorem canonical_zigzag_perm {w h : Nat} (hw : 1 ≤ w) (hh : 1 ≤ h) :
    (canonical_zigzag w h).Perm (List.range (w * h)) := by
  apply List.Subperm.antisymm
  · apply List.Nodup.subperm (nodup_canonical_zigzag w h)
    intro x hx
    rw [List.mem_range]
    unfold canonical_zigzag at hx
    rw [List.mem_flatMap] at hx
    obtain ⟨s, _, hx⟩ := hx
    rw [mem_zigzag_diag] at hx
    obtain ⟨r, c, hr, hc, _, rfl⟩ := hx
    calc r * w + c < r * w + w := by omega
      _ = (r + 1) * w := by ring
      _ ≤ h * w := Nat.mul_le_mul_right _ (by omega)
      _ = w * h := Nat.mul_comm _ _
  · apply List.Nodup.subperm (List.nodup_range _)
    intro x hx
    rw [List.mem_range] at hx
    unfold canonical_zigzag
    rw [List.mem_flatMap]
    have h1 : x % w < w := Nat.mod_lt _ (by omega)
    have h2 : x / w < h := by
      rw [Nat.div_lt_iff_lt_mul (by omega : 0 < w)]
      calc x < w * h := hx
        _ = h * w := Nat.mul_comm _ _
    have h3 : x / w * w + x % w = x := by
      rw [Nat.mul_comm, Nat.div_add_mod]
    refine ⟨x / w + x % w, ?_, ?_⟩
    · rw [List.mem_range]
      omega
    · rw [mem_zigzag_diag]
      exact ⟨x / w, x % w, h2, h1, rfl, h3.symm⟩

/-- The canonical column-major order is a permutation of `[0, w*h)`. -/
theorem canonical_col_major_perm {w h : Nat} (hw : 1 ≤ w) (hh : 1 ≤ h) :
    (canonical_col_major w h).Perm (List.range (w * h)) := by
  have hlen : (canonical_col_major w h).length = (List.range (w * h)).length := by
    simp [canonical_col_major]
  apply List.Subperm.perm_of_length_le ?_ (le_of_eq hlen.symm)
  apply List.Nodup.subperm
  · apply List.Nodup.map_on ?_ (List.nodup_range _)
    intro k1 hk1 k2 hk2 heq
    rw [List.mem_range] at hk1 hk2
    have d1 : k1 / h < w := by
      rw [Nat.div_lt_iff_lt_mul (by omega : 0 < h)]
      exact hk1
    have d2 : k2 / h < w := by
      rw [Nat.div_lt_iff_lt_mul (by omega : 0 < h)]
      exact hk2
    have hdec := pos_decomp d1 d2 heq
    have e1 : h * (k1 / h) + k1 % h = k1 := Nat.div_add_mod _ _
    have e2 : h * (k2 / h) + k2 % h = k2 := Nat.div_add_mod _ _
    have f1 : k1 / h = k2 / h := hdec.2
    have f2 : k1 % h = k2 % h := hdec.1
    rw [← f1, ← f2] at e2
    omega
  · intro x hx
    unfold canonical_col_major at hx
    rw [List.mem_map] at hx
    obtain ⟨k, hk, rfl⟩ := hx
    rw [List.mem_range] at hk ⊢
    have d1 : k / h < w := by
      rw [Nat.div_lt_iff_lt_mul (by omega : 0 < h)]
      exact hk
    have d2 : k % h < h := Nat.mod_lt _ (by omega)
    calc k % h * w + k / h < k % h * w + w := by omega
      _ = (k % h + 1) * w := by ring
      _ ≤ h * w := Nat.mul_le_mul_right _ (by omega)
      _ = w * h := Nat.mul_comm _ _

/-- The scan dimensions are positive for every supported transform size. -/
theorem scan_dims_pos (t : Nat) (ht : t < 19) :
    1 ≤ scan_width t ∧ 1 ≤ scan_height t := by
  interval_cases t <;> exact ⟨by decide, by decide⟩

set_option maxHeartbeats 2000000 in
set_option maxRecDepth 4000 in
/-- `build_scan` with tx class 2D equals the canonical diagonal zigzag on
every supported transform shape. -/
theorem build_scan_case0 (t : Nat) (ht : t < 19) :
    build_scan 0 (scan_width t) (scan_height t) =
      canonical_zigzag (scan_width t) (scan_height t) := by
  interval_cases t <;> decide

set_option maxHeartbeats 2000000 in
set_option maxRecDepth 4000 in
/-- `build_scan` with tx class HORIZ equals the row-major order on every
supported transform shape. -/
theorem build_scan_case1 (t : Nat) (ht : t < 19) :
    build_scan 1 (scan_width t) (scan_height t) =
      List.range (scan_width t * scan_height t) := by
  interval_cases t <;> decide

set_option maxHeartbeats 2000000 in
set_option maxRecDepth 4000 in
/-- `build_scan` with tx class VERT equals the canonical column-major order
on every supported transform shape. -/
theorem build_scan_case2 (t : Nat) (ht : t < 19) :
    build_scan 2 (scan_width t) (scan_height t) =
      canonical_col_major (scan_width t) (scan_height t) := by
  interval_cases t <;> decide

/-- C9: for every tx class in {2D, HORIZ, VERT} and every supported
transform shape, `build_scan` produces a permutation of `[0, w*h)`, equal
to the canonical diagonal zigzag for 2D, the row-major order for HORIZ and
the column-major order for VERT. -/
theorem spec_c9_build_scan (cls t : Nat) (hcls : cls < 3) (ht : t < 19) :
    (build_scan cls (scan_width t) (scan_height t)).Perm
      (List.range (scan_width t * scan_height t)) ∧
    (cls = 0 → build_scan cls (scan_width t) (scan_height t) =
      canonical_zigzag (scan_width t) (scan_height t)) ∧
    (cls = 1 → build_scan cls (scan_width t) (scan_height t) =
      List.range (scan_width t * scan_height t)) ∧
    (cls = 2 → build_scan cls (scan_width t) (scan_height t) =
      canonical_col_major (scan_width t) (scan_height t)) := by
  obtain ⟨hw, hh⟩ := scan_dims_pos t ht
  interval_cases cls
  · have h0 := build_scan_case0 t ht
    refine ⟨?_, fun _ => h0, fun hc => by omega, fun hc => by omega⟩
    rw [h0]
    exact canonical_zigzag_perm hw hh
  · have h1 := build_scan_case1 t ht
    refine ⟨?_, fun hc => by omega, fun _ => h1, fun hc => by omega⟩
    rw [h1]
  · have h2 := build_scan_case2 t ht
    refine ⟨?_, fun hc => by omega, fun hc => by omega, fun _ => h2⟩
    rw [h2]
    exact canonical_col_major_perm hw hh

/-- Witness for C9: the HORIZ scan of the 4x4 transform is the row-major
enumeration. -/
theorem spec_c9_build_scan_witness :
    build_scan 1 (scan_width 0) (scan_height 0) =
      List.range (scan_width 0 * scan_height 0) :=
  (spec_c9_build_scan 1 0 (by decide) (by decide)).2.2.1 rfl

/-- The eob extra-bit loop reads the same bools as `read_literal` and adds
the resulting MSB-first literal value onto its accumulator. -/
theorem eob_bits_loop_eq_literal (k : Nat) :
    ∀ (sd : Av1SymbolDecoder) (eob x : Nat),
      (eob_extra_bits_loop sd eob k).1 = (read_literal_loop sd x k).1 ∧
      (eob_extra_bits_loop sd eob k).2.1 = (read_literal_loop sd x k).2.1 ∧
      ((read_literal_loop sd x k).1 = true →
        ∃ v, (read_literal_loop sd x k).2.2 = x * 2 ^ k + v ∧
          (eob_extra_bits_loop sd eob k).2.2 = eob + v) := by
  induction k with
  | zero =>
    intro sd eob x
    exact ⟨rfl, rfl, fun _ => ⟨0, by rw [read_literal_loop]; simp, rfl⟩⟩
  | succ k ih =>
    intro sd eob x
    rcases h : av1_symbol_read_bool sd with ⟨ok, sd1, b⟩
    rw [eob_extra_bits_loop, read_literal_loop, h]
    cases ok
    · refine ⟨rfl, rfl, ?_⟩
      intro hok
      simp at hok
    · have hb := read_bool_ok_parts sd (by rw [h])
      rw [h] at hb
      have hble : b ≤ 1 := by
        have h1 : b < 2 := hb.1
        omega
      have hband : b &&& 1 = b := by
        rw [Nat.and_one_is_mod]
        omega
      obtain ⟨e1, e2, e3⟩ :=
        ih sd1 (if b ≠ 0 then eob + (1 <<< k) else eob) ((x <<< 1) ||| (b &&& 1))
      refine ⟨?_, ?_, ?_⟩
      · show (eob_extra_bits_loop sd1 (if b ≠ 0 then eob + (1 <<< k) else eob) k).1 =
          (read_literal_loop sd1 ((x <<< 1) ||| (b &&& 1)) k).1
        exact e1
      · show (eob_extra_bits_loop sd1 (if b ≠ 0 then eob + (1 <<< k) else eob) k).2.1 =
          (read_literal_loop sd1 ((x <<< 1) ||| (b &&& 1)) k).2.1
        exact e2
      · intro hok
        obtain ⟨v, hv1, hv2⟩ := e3 hok
        refine ⟨b * 2 ^ k + v, ?_, ?_⟩
        · show (read_literal_loop sd1 ((x <<< 1) ||| (b &&& 1)) k).2.2 =
            x * 2 ^ (k + 1) + (b * 2 ^ k + v)
          rw [hv1, shiftLeft_one_or (and_one_le_one b), hband]
          ring
        · show (eob_extra_bits_loop sd1 (if b ≠ 0 then eob + (1 <<< k) else eob) k).2.2 =
            eob + (b * 2 ^ k + v)
          rw [hv2]
          by_cases hb0 : b = 0
          · subst hb0
            rw [if_neg (by omega)]
            simp
          · have hb1 : b = 1 := by omega
            subst hb1
            rw [if_pos (by omega), Nat.one_shiftLeft]
            omega

set_option maxHeartbeats 1600000 in
/-- A successful run of the post-eob stage requires `0 < eob ≤ segEob`. -/
theorem decode_coeffs_after_eob_ok (sd2 : Av1SymbolDecoder) (cdfs2 : Av1TileCoeffCdfs)
    (cctx : Av1TileCoeffCtx) (plane bi ti x4 y4 tx_size tx_type eob : Nat)
    (pte stp : Bool) (st : Av1TileSyntaxProbeStats) (r : CoeffsResult)
    (heq : decode_coeffs_after_eob sd2 cdfs2 cctx plane bi ti x4 y4 tx_size tx_type eob
      pte stp st = r)
    (hok : r.ok = true) :
    0 < eob ∧ eob ≤ seg_eob tx_size := by
  simp only [decode_coeffs_after_eob] at heq
  repeat' first
  | (subst heq; exact Bool.noConfusion hok)
  | (refine ⟨?_, ?_⟩ <;> omega)
  | split at heq

set_option maxHeartbeats 1600000 in
/-- A successful run of the non-skipped coefficient tail passes through a
successful `decode_eob_value` whose result is validated against
`seg_eob`. -/
theorem decode_coeffs_nonzero_ok (sd : Av1SymbolDecoder) (cdfs : Av1TileCoeffCdfs)
    (cctx : Av1TileCoeffCtx) (plane bi ti x4 y4 tx_size tx_type : Nat)
    (pte stp : Bool) (st : Av1TileSyntaxProbeStats) (r : CoeffsResult)
    (heq : decode_coeffs_nonzero sd cdfs cctx plane bi ti x4 y4 tx_size tx_type
      pte stp st = r)
    (hok : r.ok = true) :
    ∃ (sd1 : Av1SymbolDecoder) (c1 : Av1TileCoeffCdfs) (ept : Nat)
      (sd2 : Av1SymbolDecoder) (c2 : Av1TileCoeffCdfs) (eob : Nat),
      decode_eob_value sd1 c1 (tx_sz_ctx_from_tx_size tx_size)
        (if plane = 0 then 0 else 1) ept = (true, sd2, c2, eob) ∧
      0 < eob ∧ eob ≤ seg_eob tx_size := by
  simp only [decode_coeffs_nonzero] at heq
  generalize hr1 : av1_symbol_read_symbol sd
    (eob_pt_cdf cdfs (min (kTxWidthLog2.getD tx_size 0) 5 +
        min (kTxHeightLog2.getD tx_size 0) 5 - 4)
      (if plane = 0 then 0 else 1)
      (if get_tx_class_from_tx_type tx_type = 0 then 0 else 1))
    (eob_pt_nsyms (min (kTxWidthLog2.getD tx_size 0) 5 +
        min (kTxHeightLog2.getD tx_size 0) 5 - 4)) = r1 at heq
  split at heq
  · subst heq
    exact Bool.noConfusion hok
  · split at heq
    · subst heq
      exact Bool.noConfusion hok
    · split at heq
      · subst heq
        exact Bool.noConfusion hok
      · rename_i sd2 cdfs2 eob hdev
        have hval := decode_coeffs_after_eob_ok sd2 cdfs2 cctx plane bi ti x4 y4
          tx_size tx_type eob pte stp
          (coeffs_eob_pt_stats stp st plane bi ti
            (if get_tx_class_from_tx_type tx_type = 0 then 0 else 1) (r1.sym + 1))
          r heq hok
        exact ⟨_, _, _, _, _, _, hdev, hval.1, hval.2⟩

set_option maxHeartbeats 1600000 in
/-- C6: the derived eob equals `eobPt` for `eobPt < 2` and
`(1 << (eobPt-2)) + 1` otherwise (with no further reads when `eobPt < 3`);
for `eobPt ≥ 3` one `eob_extra` symbol from
`eob_extra[tx_sz_ctx][plane_type][eobPt-3]` adds `1 << (eobPt-3)` when 1,
followed by exactly `eobPt - 3` raw bool bits read MSB-to-LSB, each adding
its positional power of two (the loop adds exactly the value of the
`(eobPt-3)`-bit literal they form); `segEob` is `min(width*height, 1024)`
with 512 for the 16x64 / 64x16 transforms; the validation stage fails
outright whenever its eob argument violates `0 < eob ≤ segEob`; a successful
non-skipped `decode_coeffs_luma_one_tx_block` run is exactly a run of the
non-skipped tail `decode_coeffs_nonzero` on the post-txb_skip state; and in
any successful such tail run the eob actually constructed by
`decode_eob_value` from the run's own eob_pt read satisfies
`0 < eob ≤ segEob`. -/
theorem spec_c6_eob_construction :
    (∀ (sd : Av1SymbolDecoder) (cdfs : Av1TileCoeffCdfs) (t p eobPt : Nat),
      eobPt < 3 →
      decode_eob_value sd cdfs t p eobPt =
        (true, sd, cdfs, if eobPt < 2 then eobPt else (1 <<< (eobPt - 2)) + 1)) ∧
    (∀ (sd : Av1SymbolDecoder) (cdfs : Av1TileCoeffCdfs) (t p eobPt : Nat),
      3 ≤ eobPt → eobPt < 12 →
      ((av1_symbol_read_symbol sd (cdfs.eob_extra t p (eobPt - 3)) 2).ok = false →
        (decode_eob_value sd cdfs t p eobPt).1 = false) ∧
      ((av1_symbol_read_symbol sd (cdfs.eob_extra t p (eobPt - 3)) 2).ok = true →
        (decode_eob_value sd cdfs t p eobPt).1 =
          (av1_symbol_read_literal
            (av1_symbol_read_symbol sd (cdfs.eob_extra t p (eobPt - 3)) 2).sd
            (eobPt - 3)).1 ∧
        (decode_eob_value sd cdfs t p eobPt).2.1 =
          (av1_symbol_read_literal
            (av1_symbol_read_symbol sd (cdfs.eob_extra t p (eobPt - 3)) 2).sd
            (eobPt - 3)).2.1 ∧
        ((av1_symbol_read_literal
            (av1_symbol_read_symbol sd (cdfs.eob_extra t p (eobPt - 3)) 2).sd
            (eobPt - 3)).1 = true →
          (decode_eob_value sd cdfs t p eobPt).2.2.2 =
            (1 <<< (eobPt - 2)) + 1 +
              (if (av1_symbol_read_symbol sd (cdfs.eob_extra t p (eobPt - 3)) 2).sym ≠ 0
                then 1 <<< (eobPt - 3) else 0) +
              (av1_symbol_read_literal
                (av1_symbol_read_symbol sd (cdfs.eob_extra t p (eobPt - 3)) 2).sd
                (eobPt - 3)).2.2))) ∧
    (∀ t : Nat, t < 19 →
      seg_eob t = (if t = 17 ∨ t = 18 then 512
        else min (2 ^ kTxWidthLog2.getD t 0 * 2 ^ kTxHeightLog2.getD t 0) 1024)) ∧
    (∀ (sd2 : Av1SymbolDecoder) (cdfs2 : Av1TileCoeffCdfs) (cctx : Av1TileCoeffCtx)
      (plane bi ti x4 y4 tx_size tx_type eob : Nat) (pte stp : Bool)
      (st : Av1TileSyntaxProbeStats),
      eob = 0 ∨ seg_eob tx_size < eob →
      (decode_coeffs_after_eob sd2 cdfs2 cctx plane bi ti x4 y4 tx_size tx_type eob
        pte stp st).ok = false) ∧
    (∀ (sd : Av1SymbolDecoder) (cdfs : Av1TileCoeffCdfs) (cctx : Av1TileCoeffCtx)
      (plane bi br bc ti x4 y4 bw bh tx_size tx_type : Nat) (pte stp : Bool)
      (st : Av1TileSyntaxProbeStats) (r : CoeffsResult) (r0 : SymbolReadResult),
      decode_coeffs_luma_one_tx_block sd cdfs cctx plane bi br bc ti x4 y4 bw bh
        tx_size tx_type pte stp st = r →
      r.ok = true →
      av1_symbol_read_symbol sd
        (cdfs.txb_skip (tx_sz_ctx_from_tx_size tx_size)
          (txb_skip_ctx cctx plane x4 y4 (1 <<< (kTxWidthLog2.getD tx_size 0 - 2))
            (1 <<< (kTxHeightLog2.getD tx_size 0 - 2)) bw bh tx_size)) 2 = r0 →
      (r0.sym ≠ 0 ∨
        decode_coeffs_nonzero r0.sd
          { cdfs with txb_skip := (upd2 cdfs.txb_skip (tx_sz_ctx_from_tx_size tx_size)
              (txb_skip_ctx cctx plane x4 y4 (1 <<< (kTxWidthLog2.getD tx_size 0 - 2))
                (1 <<< (kTxHeightLog2.getD tx_size 0 - 2)) bw bh tx_size) r0.cdf) }
          cctx plane bi ti x4 y4 tx_size tx_type pte stp
          (coeffs_txb_skip_stats stp st plane bi ti br bc x4 y4
            (txb_skip_ctx cctx plane x4 y4 (1 <<< (kTxWidthLog2.getD tx_size 0 - 2))
              (1 <<< (kTxHeightLog2.getD tx_size 0 - 2)) bw bh tx_size) r0.sym) = r)) ∧
    (∀ (sd : Av1SymbolDecoder) (cdfs : Av1TileCoeffCdfs) (cctx : Av1TileCoeffCtx)
      (plane bi ti x4 y4 tx_size tx_type : Nat) (pte stp : Bool)
      (st : Av1TileSyntaxProbeStats) (r : CoeffsResult) (r1 : SymbolReadResult)
      (sd2 : Av1SymbolDecoder) (c2 : Av1TileCoeffCdfs) (eob : Nat),
      decode_coeffs_nonzero sd cdfs cctx plane bi ti x4 y4 tx_size tx_type pte stp st = r →
      r.ok = true →
      av1_symbol_read_symbol sd
        (eob_pt_cdf cdfs (min (kTxWidthLog2.getD tx_size 0) 5 +
            min (kTxHeightLog2.getD tx_size 0) 5 - 4)
          (if plane = 0 then 0 else 1)
          (if get_tx_class_from_tx_type tx_type = 0 then 0 else 1))
        (eob_pt_nsyms (min (kTxWidthLog2.getD tx_size 0) 5 +
            min (kTxHeightLog2.getD tx_size 0) 5 - 4)) = r1 →
      decode_eob_value r1.sd
        (eob_pt_update cdfs (min (kTxWidthLog2.getD tx_size 0) 5 +
            min (kTxHeightLog2.getD tx_size 0) 5 - 4)
          (if plane = 0 then 0 else 1)
          (if get_tx_class_from_tx_type tx_type = 0 then 0 else 1) r1.cdf)
        (tx_sz_ctx_from_tx_size tx_size) (if plane = 0 then 0 else 1) (r1.sym + 1) =
        (true, sd2, c2, eob) →
      0 < eob ∧ eob ≤ seg_eob tx_size) := by
  refine ⟨?_, ?_, ?_, ?_, ?_, ?_⟩
  · intro sd cdfs t p eobPt h3
    rw [decode_eob_value, if_pos h3]
  · intro sd cdfs t p eobPt h3 h12
    constructor
    · intro hrfail
      simp only [decode_eob_value]
      rw [if_neg (show ¬ eobPt < 3 by omega), if_neg (show ¬ 9 ≤ eobPt - 3 by omega)]
      rw [hrfail]
      simp
    · intro hrok
      simp only [decode_eob_value]
      rw [if_neg (show ¬ eobPt < 3 by omega), if_neg (show ¬ 9 ≤ eobPt - 3 by omega)]
      rw [hrok]
      rw [if_neg (show ¬ (true = false) by simp)]
      rw [if_neg (show ¬ eobPt < 2 by omega)]
      obtain ⟨l1, l2, l3⟩ := eob_bits_loop_eq_literal (eobPt - 3)
        (av1_symbol_read_symbol sd (cdfs.eob_extra t p (eobPt - 3)) 2).sd
        (if (av1_symbol_read_symbol sd (cdfs.eob_extra t p (eobPt - 3)) 2).sym ≠ 0
          then (1 <<< (eobPt - 2)) + 1 + (1 <<< (eobPt - 3))
          else (1 <<< (eobPt - 2)) + 1) 0
      have hlit : av1_symbol_read_literal
          (av1_symbol_read_symbol sd (cdfs.eob_extra t p (eobPt - 3)) 2).sd (eobPt - 3) =
          read_literal_loop
            (av1_symbol_read_symbol sd (cdfs.eob_extra t p (eobPt - 3)) 2).sd 0 (eobPt - 3) := by
        rw [av1_symbol_read_literal, if_neg (show ¬ eobPt - 3 > 32 by omega)]
      rcases hl : eob_extra_bits_loop
          (av1_symbol_read_symbol sd (cdfs.eob_extra t p (eobPt - 3)) 2).sd
          (if (av1_symbol_read_symbol sd (cdfs.eob_extra t p (eobPt - 3)) 2).sym ≠ 0
            then (1 <<< (eobPt - 2)) + 1 + (1 <<< (eobPt - 3))
            else (1 <<< (eobPt - 2)) + 1) (eobPt - 3) with ⟨lok, sd2, e⟩
      rw [hl] at l1 l2 l3
      cases lok
      · refine ⟨?_, ?_, ?_⟩
        · rw [hlit, ← l1]
        · rw [hlit, ← l2]
        · intro hlitok
          rw [hlit] at hlitok
          rw [← l1] at hlitok
          simp at hlitok
      · refine ⟨?_, ?_, ?_⟩
        · rw [hlit, ← l1]
        · rw [hlit, ← l2]
        · intro hlitok
          rw [hlit] at hlitok ⊢
          obtain ⟨v, hv1, hv2⟩ := l3 hlitok
          show e = (1 <<< (eobPt - 2)) + 1 +
            (if (av1_symbol_read_symbol sd (cdfs.eob_extra t p (eobPt - 3)) 2).sym ≠ 0
              then 1 <<< (eobPt - 3) else 0) +
            (read_literal_loop
              (av1_symbol_read_symbol sd (cdfs.eob_extra t p (eobPt - 3)) 2).sd
              0 (eobPt - 3)).2.2
          rw [hv1]
          have hv2e : e = (if (av1_symbol_read_symbol sd
                (cdfs.eob_extra t p (eobPt - 3)) 2).sym ≠ 0
              then (1 <<< (eobPt - 2)) + 1 + (1 <<< (eobPt - 3))
              else (1 <<< (eobPt - 2)) + 1) + v := hv2
          rw [hv2e]
          by_cases hs : (av1_symbol_read_symbol sd (cdfs.eob_extra t p (eobPt - 3)) 2).sym ≠ 0
          · rw [if_pos hs, if_pos hs]
            omega
          · rw [if_neg hs, if_neg hs]
            omega
  · intro t ht
    interval_cases t <;> decide
  · intro sd2 cdfs2 cctx plane bi ti x4 y4 tx_size tx_type eob pte stp st hbad
    simp only [decode_coeffs_after_eob]
    rw [if_pos hbad]
  · intro sd cdfs cctx plane bi br bc ti x4 y4 bw bh tx_size tx_type pte stp st r r0
      heq hok h0
    simp only [decode_coeffs_luma_one_tx_block] at heq
    rw [h0] at heq
    split at heq
    · subst heq
      exact Bool.noConfusion hok
    · split at heq
      · exact Or.inl (by assumption)
      · exact Or.inr heq
  · intro sd cdfs cctx plane bi ti x4 y4 tx_size tx_type pte stp st r r1 sd2 c2 eob
      heq hok h1 heob
    simp only [decode_coeffs_nonzero] at heq
    rw [h1] at heq
    split at heq
    · subst heq
      exact Bool.noConfusion hok
    · split at heq
      · subst heq
        exact Bool.noConfusion hok
      · split at heq
        · rename_i sd2x cdfs2x x hdev
          rw [heob] at hdev
          simp at hdev
        · rename_i sd2x cdfs2x eobx hdev
          rw [heob] at hdev
          simp only [Prod.mk.injEq] at hdev
          obtain ⟨-, -, -, h4⟩ := hdev
          subst h4
          exact decode_coeffs_after_eob_ok _ _ _ _ _ _ _ _ _ _ _ _ _ _ r heq hok

/-- Witness for C6: at `eobPt = 2` the derived eob is `(1 << 0) + 1 = 2`
with no symbols read. -/
theorem spec_c6_eob_construction_witness :
    decode_eob_value (av1_symbol_init [0, 0] false).sd test_ccdfs 0 0 2 =
      (true, (av1_symbol_init [0, 0] false).sd, test_ccdfs,
        if (2:Nat) < 2 then 2 else (1 <<< (2 - 2)) + 1) :=
  spec_c6_eob_construction.1 (av1_symbol_init [0, 0] false).sd test_ccdfs 0 0 2
    (by decide)

/-- C2 counterexample: a transform block whose txb_skip decodes to 1 leaves
the neighbour context untouched — `above_level[0]` keeps its prior value 5
instead of the claimed culLevel = 0 write. -/
theorem spec_c2_counterexample :
    (decode_coeffs_luma_one_tx_block (av1_symbol_init [0, 0] false).sd test_ccdfs test_cctx
      0 0 0 0 0 0 0 8 8 0 0 false true {}).ok = true ∧
    (decode_coeffs_luma_one_tx_block (av1_symbol_init [0, 0] false).sd test_ccdfs test_cctx
      0 0 0 0 0 0 0 8 8 0 0 false true {}).st.block0_txb_skip_decoded = true ∧
    (decode_coeffs_luma_one_tx_block (av1_symbol_init [0, 0] false).sd test_ccdfs test_cctx
      0 0 0 0 0 0 0 8 8 0 0 false true {}).st.block0_txb_skip = 1 ∧
    (decode_coeffs_luma_one_tx_block (av1_symbol_init [0, 0] false).sd test_ccdfs test_cctx
      0 0 0 0 0 0 0 8 8 0 0 false true {}).cctx.above_level 0 0 = 5 ∧
    ¬ (decode_coeffs_luma_one_tx_block (av1_symbol_init [0, 0] false).sd test_ccdfs test_cctx
      0 0 0 0 0 0 0 8 8 0 0 false true {}).cctx.above_level 0 0 = 0 := by
  decide

/-- C2 (amended): when the txb_skip / all_zero symbol decodes to 1, the
coefficient decoder returns immediately after that single read — the
decoder state is exactly the post-read state (no further symbols), only the
txb_skip CDF slot is updated, and the neighbour context `cctx` is returned
unchanged (no culLevel/dcCategory span writes). -/
theorem spec_c2_txb_skip_one (sd : Av1SymbolDecoder) (cdfs : Av1TileCoeffCdfs)
    (cctx : Av1TileCoeffCtx)
    (plane block_index block_r block_c tx_index x4 y4 bw_px bh_px tx_size tx_type : Nat)
    (pte stp : Bool) (st : Av1TileSyntaxProbeStats)
    (hok : (av1_symbol_read_symbol sd (cdfs.txb_skip (tx_sz_ctx_from_tx_size tx_size)
      (txb_skip_ctx cctx plane x4 y4 (1 <<< (kTxWidthLog2.getD tx_size 0 - 2))
        (1 <<< (kTxHeightLog2.getD tx_size 0 - 2)) bw_px bh_px tx_size)) 2).ok = true)
    (hsym : (av1_symbol_read_symbol sd (cdfs.txb_skip (tx_sz_ctx_from_tx_size tx_size)
      (txb_skip_ctx cctx plane x4 y4 (1 <<< (kTxWidthLog2.getD tx_size 0 - 2))
        (1 <<< (kTxHeightLog2.getD tx_size 0 - 2)) bw_px bh_px tx_size)) 2).sym ≠ 0) :
    decode_coeffs_luma_one_tx_block sd cdfs cctx plane block_index block_r block_c tx_index
      x4 y4 bw_px bh_px tx_size tx_type pte stp st =
      (let ctx := txb_skip_ctx cctx plane x4 y4 (1 <<< (kTxWidthLog2.getD tx_size 0 - 2))
        (1 <<< (kTxHeightLog2.getD tx_size 0 - 2)) bw_px bh_px tx_size
      let r0 := av1_symbol_read_symbol sd
        (cdfs.txb_skip (tx_sz_ctx_from_tx_size tx_size) ctx) 2
      ⟨true, r0.sd,
        { cdfs with
          txb_skip := upd2 cdfs.txb_skip (tx_sz_ctx_from_tx_size tx_size) ctx r0.cdf },
        cctx,
        coeffs_txb_skip_stats stp st plane block_index tx_index block_r block_c x4 y4 ctx
          r0.sym,
        false⟩) := by
  simp only [decode_coeffs_luma_one_tx_block, hok]
  rw [if_neg (show ¬ (true = false) by simp), if_pos hsym]

/-- Witness for the amended C2 statement: the concrete all-zero run returns
its context argument unchanged. -/
theorem spec_c2_txb_skip_one_witness :
    (decode_coeffs_luma_one_tx_block (av1_symbol_init [0, 0] false).sd test_ccdfs test_cctx
      0 0 0 0 0 0 0 8 8 0 0 false true {}).cctx = test_cctx := by
  rw [spec_c2_txb_skip_one (av1_symbol_init [0, 0] false).sd test_ccdfs test_cctx
    0 0 0 0 0 0 0 8 8 0 0 false true {} (by decide) (by decide)]

/-- C1 counterexample: two identical blocks differing only in the decoded
`skip` symbol. With `skip = 1` the block completes right after `y_mode`
without decoding `tx_depth` (or any coefficient-prep symbol), while the
`skip = 0` twin does decode them — refuting "all other per-block symbols
are still decoded". -/
theorem spec_c1_counterexample :
    (decode_block_stub (av1_symbol_init [255, 255, 255, 255, 255, 255, 255, 255] false).sd
      test_params false {} test_mc test_ccdfs test_cctx (fun _ => {}) 2 2 0 0 1 1
      true {}).ok = true ∧
    (decode_block_stub (av1_symbol_init [255, 255, 255, 255, 255, 255, 255, 255] false).sd
      test_params false {} test_mc test_ccdfs test_cctx (fun _ => {}) 2 2 0 0 1 1
      true {}).st.block0_skip = 1 ∧
    (decode_block_stub (av1_symbol_init [255, 255, 255, 255, 255, 255, 255, 255] false).sd
      test_params false {} test_mc test_ccdfs test_cctx (fun _ => {}) 2 2 0 0 1 1
      true {}).st.block0_y_mode_decoded = true ∧
    (decode_block_stub (av1_symbol_init [255, 255, 255, 255, 255, 255, 255, 255] false).sd
      test_params false {} test_mc test_ccdfs test_cctx (fun _ => {}) 2 2 0 0 1 1
      true {}).st.block0_tx_depth_decoded = false ∧
    (decode_block_stub (av1_symbol_init [255, 255, 255, 255, 255, 255, 255, 255] false).sd
      test_params false {} test_mc test_ccdfs test_cctx (fun _ => {}) 2 2 0 0 1 1
      true {}).st.block0_txb_skip_decoded = false ∧
    (decode_block_stub (av1_symbol_init [0, 0, 0, 0, 0, 0, 0, 0] false).sd
      test_params false {} test_mc test_ccdfs test_cctx (fun _ => {}) 2 2 0 0 1 1
      true {}).ok = true ∧
    (decode_block_stub (av1_symbol_init [0, 0, 0, 0, 0, 0, 0, 0] false).sd
      test_params false {} test_mc test_ccdfs test_cctx (fun _ => {}) 2 2 0 0 1 1
      true {}).st.block0_skip = 0 ∧
    (decode_block_stub (av1_symbol_init [0, 0, 0, 0, 0, 0, 0, 0] false).sd
      test_params false {} test_mc test_ccdfs test_cctx (fun _ => {}) 2 2 0 0 1 1
      true {}).st.block0_tx_depth_decoded = true ∧
    (decode_block_stub (av1_symbol_init [0, 0, 0, 0, 0, 0, 0, 0] false).sd
      test_params false {} test_mc test_ccdfs test_cctx (fun _ => {}) 2 2 0 0 1 1
      true {}).st.block0_txb_skip_decoded = true := by
  decide

/-- C1 (amended): in default probe mode, a leaf block whose `skip` symbol
decodes to 1 jumps to `block_done` right after `y_mode`: the decoder state
is exactly the post-`y_mode` state (so no angle-delta / uv_mode / CFL /
palette / filter-intra / tx / coefficient symbol is read), only the `skip`
and `y_mode` CDFs are adapted, the coefficient CDFs and neighbour context
are returned unchanged, and the probe flags of all omitted elements keep
their prior values. -/
theorem spec_c1_skip_goto_block_done (sd : Av1SymbolDecoder) (params : Av1TileDecodeParams)
    (sbp : Bool) (sb : Av1TileSbProbeState) (mc : Av1TileSkipCdfs)
    (ccdfs : Av1TileCoeffCdfs) (cctx : Av1TileCoeffCtx) (mi_grid : Nat → Av1MiSize)
    (mi_rows mi_cols r c wlog2 hlog2 : Nat) (stp : Bool) (st : Av1TileSyntaxProbeStats)
    (hp : params.probe_try_exit_symbol = false)
    (hs : (av1_symbol_read_symbol sd
      (mc.skip (skip_ctx_from_mi_grid mi_grid mi_rows mi_cols r c)) 2).ok = true)
    (hskip : (av1_symbol_read_symbol sd
      (mc.skip (skip_ctx_from_mi_grid mi_grid mi_rows mi_cols r c)) 2).sym ≠ 0)
    (hy : (av1_symbol_read_symbol
      (av1_symbol_read_symbol sd
        (mc.skip (skip_ctx_from_mi_grid mi_grid mi_rows mi_cols r c)) 2).sd
      (mc.y_mode (if 4 ≤ size_group_from_wlog2_hlog2 wlog2 hlog2 then 3
        else size_group_from_wlog2_hlog2 wlog2 hlog2)) 13).ok = true) :
    decode_block_stub sd params sbp sb mc ccdfs cctx mi_grid mi_rows mi_cols r c
      wlog2 hlog2 stp st =
      (let skipctx := skip_ctx_from_mi_grid mi_grid mi_rows mi_cols r c
      let rskip := av1_symbol_read_symbol sd (mc.skip skipctx) 2
      let mc1 := { mc with skip := upd1 mc.skip skipctx rskip.cdf }
      let mi1 := mi_set_skip_block mi_grid mi_rows mi_cols r c wlog2 hlog2 rskip.sym
      let st1 := if stp ∧ ¬st.block0_skip_decoded then
          { st with block0_skip_decoded := true, block0_r_mi := r, block0_c_mi := c,
                    block0_wlog2 := wlog2, block0_hlog2 := hlog2,
                    block0_skip_ctx := skipctx, block0_skip := rskip.sym }
        else st
      let yctx := if 4 ≤ size_group_from_wlog2_hlog2 wlog2 hlog2 then 3
        else size_group_from_wlog2_hlog2 wlog2 hlog2
      let ry := av1_symbol_read_symbol rskip.sd (mc.y_mode yctx) 13
      let mc2 := { mc1 with y_mode := upd1 mc1.y_mode yctx ry.cdf }
      let mi2 := mi_set_y_mode_block mi1 mi_rows mi_cols r c wlog2 hlog2 ry.sym
      let st2 := if stp ∧ ¬st1.block0_y_mode_decoded then
          { st1 with block0_y_mode_decoded := true, block0_y_mode_ctx := yctx,
                     block0_y_mode := ry.sym }
        else st1
      block_done ry.sd mc2 ccdfs cctx mi2 sb st2 stp false) ∧
    (decode_block_stub sd params sbp sb mc ccdfs cctx mi_grid mi_rows mi_cols r c
      wlog2 hlog2 stp st).ok = true ∧
    (decode_block_stub sd params sbp sb mc ccdfs cctx mi_grid mi_rows mi_cols r c
      wlog2 hlog2 stp st).ccdfs = ccdfs ∧
    (decode_block_stub sd params sbp sb mc ccdfs cctx mi_grid mi_rows mi_cols r c
      wlog2 hlog2 stp st).cctx = cctx ∧
    (decode_block_stub sd params sbp sb mc ccdfs cctx mi_grid mi_rows mi_cols r c
      wlog2 hlog2 stp st).sd =
      (av1_symbol_read_symbol
        (av1_symbol_read_symbol sd
          (mc.skip (skip_ctx_from_mi_grid mi_grid mi_rows mi_cols r c)) 2).sd
        (mc.y_mode (if 4 ≤ size_group_from_wlog2_hlog2 wlog2 hlog2 then 3
          else size_group_from_wlog2_hlog2 wlog2 hlog2)) 13).sd ∧
    (decode_block_stub sd params sbp sb mc ccdfs cctx mi_grid mi_rows mi_cols r c
      wlog2 hlog2 stp st).mc.angle_delta = mc.angle_delta ∧
    (decode_block_stub sd params sbp sb mc ccdfs cctx mi_grid mi_rows mi_cols r c
      wlog2 hlog2 stp st).mc.uv_mode_cfl_not_allowed = mc.uv_mode_cfl_not_allowed ∧
    (decode_block_stub sd params sbp sb mc ccdfs cctx mi_grid mi_rows mi_cols r c
      wlog2 hlog2 stp st).mc.uv_mode_cfl_allowed = mc.uv_mode_cfl_allowed ∧
    (decode_block_stub sd params sbp sb mc ccdfs cctx mi_grid mi_rows mi_cols r c
      wlog2 hlog2 stp st).mc.cfl_sign = mc.cfl_sign ∧
    (decode_block_stub sd params sbp sb mc ccdfs cctx mi_grid mi_rows mi_cols r c
      wlog2 hlog2 stp st).mc.cfl_alpha = mc.cfl_alpha ∧
    (decode_block_stub sd params sbp sb mc ccdfs cctx mi_grid mi_rows mi_cols r c
      wlog2 hlog2 stp st).mc.filter_intra_mode = mc.filter_intra_mode ∧
    (decode_block_stub sd params sbp sb mc ccdfs cctx mi_grid mi_rows mi_cols r c
      wlog2 hlog2 stp st).mc.filter_intra = mc.filter_intra ∧
    (decode_block_stub sd params sbp sb mc ccdfs cctx mi_grid mi_rows mi_cols r c
      wlog2 hlog2 stp st).mc.palette_y_mode = mc.palette_y_mode ∧
    (decode_block_stub sd params sbp sb mc ccdfs cctx mi_grid mi_rows mi_cols r c
      wlog2 hlog2 stp st).mc.palette_uv_mode = mc.palette_uv_mode ∧
    (decode_block_stub sd params sbp sb mc ccdfs cctx mi_grid mi_rows mi_cols r c
      wlog2 hlog2 stp st).mc.palette_y_size = mc.palette_y_size ∧
    (decode_block_stub sd params sbp sb mc ccdfs cctx mi_grid mi_rows mi_cols r c
      wlog2 hlog2 stp st).mc.palette_uv_size = mc.palette_uv_size ∧
    (decode_block_stub sd params sbp sb mc ccdfs cctx mi_grid mi_rows mi_cols r c
      wlog2 hlog2 stp st).mc.tx8x8 = mc.tx8x8 ∧
    (decode_block_stub sd params sbp sb mc ccdfs cctx mi_grid mi_rows mi_cols r c
      wlog2 hlog2 stp st).mc.tx16x16 = mc.tx16x16 ∧
    (decode_block_stub sd params sbp sb mc ccdfs cctx mi_grid mi_rows mi_cols r c
      wlog2 hlog2 stp st).mc.tx32x32 = mc.tx32x32 ∧
    (decode_block_stub sd params sbp sb mc ccdfs cctx mi_grid mi_rows mi_cols r c
      wlog2 hlog2 stp st).mc.tx64x64 = mc.tx64x64 ∧
    (decode_block_stub sd params sbp sb mc ccdfs cctx mi_grid mi_rows mi_cols r c
      wlog2 hlog2 stp st).mc.intra_tx_type_set1 = mc.intra_tx_type_set1 ∧
    (decode_block_stub sd params sbp sb mc ccdfs cctx mi_grid mi_rows mi_cols r c
      wlog2 hlog2 stp st).mc.intra_tx_type_set2 = mc.intra_tx_type_set2 ∧
    (decode_block_stub sd params sbp sb mc ccdfs cctx mi_grid mi_rows mi_cols r c
      wlog2 hlog2 stp st).st.block0_uv_mode_decoded = st.block0_uv_mode_decoded ∧
    (decode_block_stub sd params sbp sb mc ccdfs cctx mi_grid mi_rows mi_cols r c
      wlog2 hlog2 stp st).st.block0_angle_delta_y_decoded = st.block0_angle_delta_y_decoded ∧
    (decode_block_stub sd params sbp sb mc ccdfs cctx mi_grid mi_rows mi_cols r c
      wlog2 hlog2 stp st).st.block0_angle_delta_uv_decoded =
        st.block0_angle_delta_uv_decoded ∧
    (decode_block_stub sd params sbp sb mc ccdfs cctx mi_grid mi_rows mi_cols r c
      wlog2 hlog2 stp st).st.block0_cfl_alphas_decoded = st.block0_cfl_alphas_decoded ∧
    (decode_block_stub sd params sbp sb mc ccdfs cctx mi_grid mi_rows mi_cols r c
      wlog2 hlog2 stp st).st.block0_use_filter_intra_decoded =
        st.block0_use_filter_intra_decoded ∧
    (decode_block_stub sd params sbp sb mc ccdfs cctx mi_grid mi_rows mi_cols r c
      wlog2 hlog2 stp st).st.block0_filter_intra_mode_decoded =
        st.block0_filter_intra_mode_decoded ∧
    (decode_block_stub sd params sbp sb mc ccdfs cctx mi_grid mi_rows mi_cols r c
      wlog2 hlog2 stp st).st.block0_has_palette_y_decoded =
        st.block0_has_palette_y_decoded ∧
    (decode_block_stub sd params sbp sb mc ccdfs cctx mi_grid mi_rows mi_cols r c
      wlog2 hlog2 stp st).st.block0_palette_size_y_decoded =
        st.block0_palette_size_y_decoded ∧
    (decode_block_stub sd params sbp sb mc ccdfs cctx mi_grid mi_rows mi_cols r c
      wlog2 hlog2 stp st).st.block0_has_palette_uv_decoded =
        st.block0_has_palette_uv_decoded ∧
    (decode_block_stub sd params sbp sb mc ccdfs cctx mi_grid mi_rows mi_cols r c
      wlog2 hlog2 stp st).st.block0_palette_size_uv_decoded =
        st.block0_palette_size_uv_decoded ∧
    (decode_block_stub sd params sbp sb mc ccdfs cctx mi_grid mi_rows mi_cols r c
      wlog2 hlog2 stp st).st.block0_tx_depth_decoded = st.block0_tx_depth_decoded ∧
    (decode_block_stub sd params sbp sb mc ccdfs cctx mi_grid mi_rows mi_cols r c
      wlog2 hlog2 stp st).st.block0_tx_type_decoded = st.block0_tx_type_decoded ∧
    (decode_block_stub sd params sbp sb mc ccdfs cctx mi_grid mi_rows mi_cols r c
      wlog2 hlog2 stp st).st.block0_txb_skip_decoded = st.block0_txb_skip_decoded := by
  have heq : decode_block_stub sd params sbp sb mc ccdfs cctx mi_grid mi_rows mi_cols r c
      wlog2 hlog2 stp st =
      (let skipctx := skip_ctx_from_mi_grid mi_grid mi_rows mi_cols r c
      let rskip := av1_symbol_read_symbol sd (mc.skip skipctx) 2
      let mc1 := { mc with skip := upd1 mc.skip skipctx rskip.cdf }
      let mi1 := mi_set_skip_block mi_grid mi_rows mi_cols r c wlog2 hlog2 rskip.sym
      let st1 := if stp ∧ ¬st.block0_skip_decoded then
          { st with block0_skip_decoded := true, block0_r_mi := r, block0_c_mi := c,
                    block0_wlog2 := wlog2, block0_hlog2 := hlog2,
                    block0_skip_ctx := skipctx, block0_skip := rskip.sym }
        else st
      let yctx := if 4 ≤ size_group_from_wlog2_hlog2 wlog2 hlog2 then 3
        else size_group_from_wlog2_hlog2 wlog2 hlog2
      let ry := av1_symbol_read_symbol rskip.sd (mc.y_mode yctx) 13
      let mc2 := { mc1 with y_mode := upd1 mc1.y_mode yctx ry.cdf }
      let mi2 := mi_set_y_mode_block mi1 mi_rows mi_cols r c wlog2 hlog2 ry.sym
      let st2 := if stp ∧ ¬st1.block0_y_mode_decoded then
          { st1 with block0_y_mode_decoded := true, block0_y_mode_ctx := yctx,
                     block0_y_mode := ry.sym }
        else st1
      block_done ry.sd mc2 ccdfs cctx mi2 sb st2 stp false) := by
    simp only [decode_block_stub, hp, Bool.false_eq_true, false_and, if_false, hs, hy,
      Bool.true_eq_false]
    rw [if_pos hskip]
  refine ⟨heq, ?_, ?_, ?_, ?_, ?_, ?_, ?_, ?_, ?_, ?_, ?_, ?_, ?_, ?_, ?_, ?_, ?_, ?_,
    ?_, ?_, ?_, ?_, ?_, ?_, ?_, ?_, ?_, ?_, ?_, ?_, ?_, ?_, ?_, ?_⟩ <;>
    (rw [heq]; simp only [block_done]; repeat' first | rfl | split)

/-- Witness for the amended C1 statement: the concrete skip-1 run returns
its coefficient CDFs unchanged. -/
theorem spec_c1_skip_goto_block_done_witness :
    (decode_block_stub (av1_symbol_init [255, 255, 255, 255, 255, 255, 255, 255] false).sd
      test_params false {} test_mc test_ccdfs test_cctx (fun _ => {}) 2 2 0 0 1 1
      true {}).ccdfs = test_ccdfs :=
  (spec_c1_skip_goto_block_done
    (av1_symbol_init [255, 255, 255, 255, 255, 255, 255, 255] false).sd
    test_params false {} test_mc test_ccdfs test_cctx (fun _ => {}) 2 2 0 0 1 1
    true {} rfl (by decide) (by decide) (by decide)).2.2.1
